import Mathlib

/-!
# Verification of the VWS voxel-ecosystem simulator (`src/app.js`, "Complete Edition")

This file gives a shallow embedding of the simulation core of `app.js` —
the entity/genetics/terrain data model, the spatial queries, the eight
per-species processors, the step orchestrator, disasters, and save/load —
and proves or refutes the frozen claims about it.

Modelling conventions:
* JavaScript numbers are modelled by exact rational arithmetic.  Because the
  library rationals are deliberately irreducible (not kernel-evaluable), we
  use our own normalized-fraction type `JQ` with a semantics map
  `JQ.val : JQ → ℚ`; all simulator arithmetic is executable by `decide`.
* `Math.random()` is modelled by threading an explicit stream of rational
  draws (`List JQ`); every call to the JS RNG pops one value, in source order.
* `Math.sqrt` and `Math.log` (used only for the colony-seeding distance
  falloff, nearest-target distances and the biodiversity entropy) are not
  rational-valued; they are passed in as explicit function parameters
  `msqrt`/`mlog` so that theorems quantify over any interpretation of them.
* JS objects live on a heap: `World.heap` maps entity ids to `Entity`
  records, grid cells store ids, and object references (`entity.host`,
  a mate or prey found by a query) are ids, which reproduces JS aliasing
  and object identity (`!==`) exactly.
* `Date.now()` timestamps stored in trails/memories are omitted; they are
  never read back by the simulation.
-/

set_option maxRecDepth 16000
set_option maxHeartbeats 2000000

namespace VWS

/-! ## Exact rational arithmetic (JS number model) -/

/-- A rational number as an integer fraction.  All arithmetic operations
normalize (positive denominator, reduced), so values produced by the
operations compare correctly under structural equality. -/
structure JQ where
  n : Int
  d : Int
deriving DecidableEq, Repr

namespace JQ

/-- Normalize a fraction: positive denominator, divided by the gcd.
A zero denominator (never produced by the simulator) collapses to 0. -/
def norm (a : JQ) : JQ :=
  if a.d = 0 then ⟨0, 1⟩
  else
    let g : Int := (Int.gcd a.n a.d : Int)
    if a.d < 0 then ⟨-(a.n / g), -(a.d / g)⟩ else ⟨a.n / g, a.d / g⟩

def add (a b : JQ) : JQ := norm ⟨a.n * b.d + b.n * a.d, a.d * b.d⟩
def sub (a b : JQ) : JQ := norm ⟨a.n * b.d - b.n * a.d, a.d * b.d⟩
def mul (a b : JQ) : JQ := norm ⟨a.n * b.n, a.d * b.d⟩
def div (a b : JQ) : JQ := norm ⟨a.n * b.d, a.d * b.n⟩
def neg (a : JQ) : JQ := ⟨-a.n, a.d⟩

instance : Add JQ := ⟨add⟩
instance : Sub JQ := ⟨sub⟩
instance : Mul JQ := ⟨mul⟩
instance : Div JQ := ⟨div⟩
instance : Neg JQ := ⟨neg⟩
instance : OfNat JQ m where ofNat := ⟨(m : Int), 1⟩
instance : OfScientific JQ where
  ofScientific m b e := if b then norm ⟨(m : Int), (10 : Int) ^ e⟩ else ⟨(m : Int) * 10 ^ e, 1⟩

def ofInt (i : Int) : JQ := ⟨i, 1⟩
def ofNatQ (m : Nat) : JQ := ⟨(m : Int), 1⟩

/-- `a ≤ b` decided by the sign of the normalized difference. -/
instance : LE JQ := ⟨fun a b => (sub a b).n ≤ 0⟩
instance : LT JQ := ⟨fun a b => (sub a b).n < 0⟩

instance decLe : ∀ a b : JQ, Decidable (a ≤ b) := fun a b => Int.decLe _ _
instance decLt : ∀ a b : JQ, Decidable (a < b) := fun a b => Int.decLt _ _

/-- JS `Math.max`. -/
def jmax (a b : JQ) : JQ := if a ≤ b then b else a
/-- JS `Math.min`. -/
def jmin (a b : JQ) : JQ := if a ≤ b then a else b
/-- JS `Math.floor`, as an integer. -/
def floor (a : JQ) : Int := Int.fdiv a.n a.d
/-- JS `Math.ceil`, as an integer. -/
def ceil (a : JQ) : Int := -(Int.fdiv (-a.n) a.d)

/-- The rational value denoted by a fraction. -/
def val (a : JQ) : ℚ := (a.n : ℚ) / (a.d : ℚ)

theorem val_norm (a : JQ) : val (norm a) = val a := by
  unfold norm val
  by_cases h0 : a.d = 0
  · simp [h0]
  · set g : Int := (Int.gcd a.n a.d : Int) with hGdef
    have hg : g ≠ 0 := by
      rw [hGdef]
      simp only [ne_eq, Int.natCast_eq_zero, Int.gcd_eq_zero_iff, not_and]
      exact fun _ => h0
    have hdn : g ∣ a.n := Int.gcd_dvd_left
    have hdd : g ∣ a.d := Int.gcd_dvd_right
    obtain ⟨k, hk⟩ := hdn
    obtain ⟨m, hm⟩ := hdd
    have hgQ : (g : ℚ) ≠ 0 := by exact_mod_cast hg
    have e1 : a.n / g = k := by rw [hk]; exact Int.mul_ediv_cancel_left _ hg
    have e2 : a.d / g = m := by rw [hm]; exact Int.mul_ediv_cancel_left _ hg
    have goal : ((k : ℚ)) / ((m : ℚ)) = (a.n : ℚ) / (a.d : ℚ) := by
      rw [hk, hm]
      push_cast
      rw [mul_div_mul_left _ _ hgQ]
    by_cases hneg : a.d < 0
    · simp only [h0, if_false, hneg, if_true, e1, e2]
      push_cast
      rw [neg_div_neg_eq]
      exact goal
    · simp only [h0, if_false, hneg, if_false, e1, e2]
      exact goal

theorem norm_d_pos (a : JQ) : 0 < (norm a).d := by
  unfold norm
  by_cases h0 : a.d = 0
  · simp [h0]
  · set g : Int := (Int.gcd a.n a.d : Int) with hGdef
    have hg : g ≠ 0 := by
      rw [hGdef]
      simp only [ne_eq, Int.natCast_eq_zero, Int.gcd_eq_zero_iff, not_and]
      exact fun _ => h0
    have hgpos : (0 : Int) < g := by
      have : (0 : Int) ≤ g := by rw [hGdef]; exact Int.natCast_nonneg _
      omega
    have hdd : g ∣ a.d := Int.gcd_dvd_right
    obtain ⟨m, hm⟩ := hdd
    have e2 : a.d / g = m := by rw [hm]; exact Int.mul_ediv_cancel_left _ hg
    by_cases hneg : a.d < 0
    · simp only [h0, if_false, hneg, if_true, e2]
      have : m < 0 := by
        by_contra hc
        exact absurd (hm ▸ mul_nonneg (le_of_lt hgpos) (not_lt.mp hc)) (not_le.mpr hneg)
      omega
    · simp only [h0, if_false, hneg, if_false, e2]
      have hd : 0 < a.d := lt_of_le_of_ne (not_lt.mp hneg) (Ne.symm h0)
      by_contra hc
      push_neg at hc
      have : a.d ≤ 0 := by
        calc a.d = g * m := hm
        _ ≤ 0 := mul_nonpos_of_nonneg_of_nonpos (le_of_lt hgpos) hc
      omega

theorem val_add (a b : JQ) (ha : a.d ≠ 0) (hb : b.d ≠ 0) :
    val (a + b) = val a + val b := by
  show val (add a b) = _
  unfold add
  rw [val_norm]
  unfold val
  push_cast
  field_simp

theorem val_sub (a b : JQ) (ha : a.d ≠ 0) (hb : b.d ≠ 0) :
    val (a - b) = val a - val b := by
  show val (sub a b) = _
  unfold sub
  rw [val_norm]
  unfold val
  push_cast
  field_simp
  ring

theorem val_mul (a b : JQ) (ha : a.d ≠ 0) (hb : b.d ≠ 0) :
    val (a * b) = val a * val b := by
  show val (mul a b) = _
  unfold mul
  rw [val_norm]
  unfold val
  push_cast
  field_simp

theorem val_nonpos_of_num (a : JQ) (hd : 0 < a.d) (h : a.n ≤ 0) : val a ≤ 0 := by
  unfold val
  apply div_nonpos_of_nonpos_of_nonneg
  · exact_mod_cast h
  · exact_mod_cast le_of_lt hd

theorem num_nonpos_of_val (a : JQ) (hd : 0 < a.d) (h : val a ≤ 0) : a.n ≤ 0 := by
  unfold val at h
  by_contra hc
  push_neg at hc
  have : (0 : ℚ) < (a.n : ℚ) / (a.d : ℚ) :=
    div_pos (by exact_mod_cast hc) (by exact_mod_cast hd)
  linarith

theorem le_iff_val (a b : JQ) (ha : a.d ≠ 0) (hb : b.d ≠ 0) :
    a ≤ b ↔ val a ≤ val b := by
  have hd : 0 < (sub a b).d := norm_d_pos _
  have hv : val (sub a b) = val a - val b := val_sub a b ha hb
  constructor
  · intro h
    have := val_nonpos_of_num _ hd h
    rw [hv] at this
    linarith
  · intro h
    exact num_nonpos_of_val _ hd (by rw [hv]; linarith)

end JQ

/-- The random stream: each `Math.random()` call pops the head (0 when
exhausted, matching a deterministic all-zero tail). -/
abbrev Rng := List JQ

def rand (r : Rng) : JQ × Rng := (r.headD 0, r.tail)

/-! ## Enumerations (`EntityType`, `TerrainType`, `Season`, `Weather`,
`LifeStage`, `DisasterType`) -/

inductive EntityType where
  | empty | plant | herbivore | carnivore | decomposer | deadMatter
  | omnivore | apexPredator | parasite
deriving DecidableEq, Repr

inductive TerrainType where
  | normal | water | mountain | fertile | barren
deriving DecidableEq, Repr

inductive Season where
  | spring | summer | fall | winter
deriving DecidableEq, Repr

inductive Weather where
  | clear | rain | drought | storm
deriving DecidableEq, Repr

inductive LifeStage where
  | juvenile | adult | elder
deriving DecidableEq, Repr

inductive DisasterType where
  | fire | flood | disease | meteor
deriving DecidableEq, Repr

/-! ## Genetics -/

structure Genetics where
  speed : JQ
  efficiency : JQ
  size : JQ
  fertility : JQ
  immunity : JQ
  lifespan : JQ
  perception : JQ
  camouflage : JQ
deriving DecidableEq, Repr

namespace Genetics

/-- Random initial genetics (the no-parents branch of the constructor);
one draw per trait, in field order. -/
def fresh (rng : Rng) : Genetics × Rng :=
  let (r1, rng) := rand rng
  let (r2, rng) := rand rng
  let (r3, rng) := rand rng
  let (r4, rng) := rand rng
  let (r5, rng) := rand rng
  let (r6, rng) := rand rng
  let (r7, rng) := rand rng
  let (r8, rng) := rand rng
  ({ speed := 0.8 + r1 * 0.4, efficiency := 0.8 + r2 * 0.4,
     size := 0.8 + r3 * 0.4, fertility := 0.8 + r4 * 0.4,
     immunity := 0.5 + r5 * 0.5, lifespan := 0.8 + r6 * 0.4,
     perception := 0.8 + r7 * 0.4, camouflage := 0.5 + r8 * 0.5 }, rng)

/-- `inheritTrait`: average of the parents, 20% mutation chance, clamped
to [0.3, 2.0]. -/
def inheritTrait (v1 v2 : JQ) (rng : Rng) : JQ × Rng :=
  let base := (v1 + v2) / 2
  let (r, rng) := rand rng
  let (base, rng) :=
    if r < 0.2 then
      let (rm, rng) := rand rng
      (base + (rm - 0.5) * 0.3, rng)
    else (base, rng)
  (JQ.jmax 0.3 (JQ.jmin 2.0 base), rng)

/-- Inheritance from two parents, trait by trait in field order. -/
def inherit (p1 p2 : Genetics) (rng : Rng) : Genetics × Rng :=
  let (speed, rng) := inheritTrait p1.speed p2.speed rng
  let (efficiency, rng) := inheritTrait p1.efficiency p2.efficiency rng
  let (size, rng) := inheritTrait p1.size p2.size rng
  let (fertility, rng) := inheritTrait p1.fertility p2.fertility rng
  let (immunity, rng) := inheritTrait p1.immunity p2.immunity rng
  let (lifespan, rng) := inheritTrait p1.lifespan p2.lifespan rng
  let (perception, rng) := inheritTrait p1.perception p2.perception rng
  let (camouflage, rng) := inheritTrait p1.camouflage p2.camouflage rng
  ({ speed, efficiency, size, fertility, immunity, lifespan, perception,
     camouflage }, rng)

def getFitness (g : Genetics) : JQ :=
  (g.speed + g.efficiency + g.immunity + g.fertility) / 4

end Genetics

/-! ## Entity -/

structure MemRec where
  mx : JQ
  my : JQ
  value : JQ
deriving DecidableEq, Repr

/-- A JS `Entity` object.  `host` and `parasites` store entity ids (object
references); `trail`/`memory` omit the `Date.now()` timestamps, which the
simulation never reads. -/
structure Entity where
  type : EntityType
  x : Int
  y : Int
  id : Nat
  genetics : Genetics
  energy : JQ
  maxEnergy : JQ
  age : JQ
  maxAge : JQ
  lifeStage : LifeStage
  maturityAge : JQ
  elderAge : JQ
  trail : List (JQ × JQ)
  maxTrail : Nat
  cyclesSinceReproduction : Nat
  offspring : Nat
  isInfected : Bool
  diseaseTimer : JQ
  isImmune : Bool
  immuneTimer : JQ
  fleeing : Bool
  fleeTimer : JQ
  memory : List MemRec
  maxMemory : Nat
  kills : Nat
  foodEaten : Nat
  distanceTraveled : Nat
  generation : Nat
  host : Option Nat
  parasites : List Nat
deriving DecidableEq, Repr

/-- `getInitialEnergy` base table (the `|| 50` default covers `EMPTY`). -/
def baseInitialEnergy : EntityType → JQ
  | .plant => 60 | .herbivore => 80 | .carnivore => 100 | .decomposer => 50
  | .deadMatter => 40 | .omnivore => 90 | .apexPredator => 120
  | .parasite => 40 | .empty => 50

/-- `getMaxEnergy` base table (the `|| 100` default covers `EMPTY`). -/
def baseMaxEnergy : EntityType → JQ
  | .plant => 150 | .herbivore => 180 | .carnivore => 200 | .decomposer => 120
  | .deadMatter => 80 | .omnivore => 200 | .apexPredator => 250
  | .parasite => 100 | .empty => 100

/-- `getMaxAge` base table (the `|| 100` default covers `EMPTY`). -/
def baseMaxAge : EntityType → JQ
  | .plant => 150 | .herbivore => 120 | .carnivore => 100 | .decomposer => 180
  | .deadMatter => 40 | .omnivore => 110 | .apexPredator => 90
  | .parasite => 60 | .empty => 100

namespace Entity

def updateLifeStage (e : Entity) : Entity :=
  if e.elderAge ≤ e.age then { e with lifeStage := .elder }
  else if e.maturityAge ≤ e.age then { e with lifeStage := .adult }
  else e

/-- `canReproduce()`: adult and past the fertility-scaled cooldown. -/
def canReproduce (e : Entity) : Bool :=
  e.lifeStage = .adult ∧
    (10 : JQ) / e.genetics.fertility < JQ.ofNatQ e.cyclesSinceReproduction

def addToTrail (e : Entity) (tx ty : JQ) : Entity :=
  let t := e.trail ++ [(tx, ty)]
  { e with trail := if e.maxTrail < t.length then t.tail else t }

def remember (e : Entity) (mx my : JQ) (value : JQ) : Entity :=
  let m := e.memory ++ [⟨mx, my, value⟩]
  { e with memory := if e.maxMemory < m.length then m.tail else m }

def getEffectiveSpeed (e : Entity) : JQ :=
  let s := e.genetics.speed
  let s := if e.lifeStage = .juvenile then s * 0.7 else s
  let s := if e.lifeStage = .elder then s * 0.5 else s
  if e.isInfected then s * 0.6 else s

end Entity

/-- A placeholder for reading a missing heap entry (in JS this would be a
`TypeError`; it is unreachable from well-formed states). -/
def defEntity : Entity :=
  { type := .empty, x := 0, y := 0, id := 0,
    genetics := { speed := 1, efficiency := 1, size := 1, fertility := 1,
                  immunity := 1, lifespan := 1, perception := 1, camouflage := 1 },
    energy := 0, maxEnergy := 0, age := 0, maxAge := 0, lifeStage := .juvenile,
    maturityAge := 0, elderAge := 0, trail := [], maxTrail := 0,
    cyclesSinceReproduction := 0, offspring := 0, isInfected := false,
    diseaseTimer := 0, isImmune := false, immuneTimer := 0, fleeing := false,
    fleeTimer := 0, memory := [], maxMemory := 0, kills := 0, foodEaten := 0,
    distanceTraveled := 0, generation := 0, host := none, parasites := [] }

/-! ## Terrain, atmosphere, populations, settings, disasters, history -/

structure TerrainCell where
  type : TerrainType
  fertility : JQ
  moisture : JQ
  temperature : JQ
  elevation : JQ
deriving DecidableEq, Repr

def mkTerrainCell (t : TerrainType) : TerrainCell :=
  { type := t,
    fertility := if t = .fertile then 1.5 else if t = .barren then 0.3 else 1.0,
    moisture := if t = .water then 1.0 else 0.5,
    temperature := 0.5,
    elevation := if t = .mountain then 1.0 else if t = .water then 0.0 else 0.5 }

structure Atmos where
  o2 : JQ
  co2 : JQ
  sunlight : JQ
deriving DecidableEq, Repr

structure Populations where
  plants : Nat
  herbivores : Nat
  carnivores : Nat
  decomposers : Nat
  omnivores : Nat
  apexPredators : Nat
  parasites : Nat
  deadMatter : Nat
deriving DecidableEq, Repr

structure Densities where
  plants : JQ
  herbivores : JQ
  carnivores : JQ
  decomposers : JQ
  omnivores : JQ
  apexPredators : JQ
  parasites : JQ
deriving DecidableEq, Repr

structure PlantSettings where
  energyCost : JQ
  reproEnergy : JQ
  reproCooldown : JQ
  spreadRadius : Int
  photosynthesisRate : JQ
deriving DecidableEq, Repr

structure HerbivoreSettings where
  energyCost : JQ
  foodEnergy : JQ
  reproEnergy : JQ
  moveChance : JQ
deriving DecidableEq, Repr

structure CarnivoreSettings where
  energyCost : JQ
  huntEnergy : JQ
  reproEnergy : JQ
  moveChance : JQ
deriving DecidableEq, Repr

structure OmnivoreSettings where
  energyCost : JQ
  plantEnergy : JQ
  meatEnergy : JQ
  reproEnergy : JQ
  moveChance : JQ
deriving DecidableEq, Repr

structure ApexSettings where
  energyCost : JQ
  huntEnergy : JQ
  reproEnergy : JQ
  moveChance : JQ
deriving DecidableEq, Repr

structure ParasiteSettings where
  energyCost : JQ
  drainRate : JQ
  reproEnergy : JQ
  moveChance : JQ
deriving DecidableEq, Repr

structure ColonySettings where
  radius : Int
  maxBonus : JQ
  moveBias : JQ
  mateRadius : Int
deriving DecidableEq, Repr

structure DiseaseSettings where
  spreadChance : JQ
  damagePerTick : JQ
  duration : JQ
  immuneDuration : JQ
deriving DecidableEq, Repr

structure Settings where
  plant : PlantSettings
  herbivore : HerbivoreSettings
  carnivore : CarnivoreSettings
  omnivore : OmnivoreSettings
  apexPredator : ApexSettings
  parasite : ParasiteSettings
  colony : ColonySettings
  disease : DiseaseSettings
deriving DecidableEq, Repr

/-- The constructor defaults for `this.settings`. -/
def defaultSettings : Settings :=
  { plant := { energyCost := 0.2, reproEnergy := 70, reproCooldown := 2,
               spreadRadius := 4, photosynthesisRate := 0.6 },
    herbivore := { energyCost := 0.5, foodEnergy := 35, reproEnergy := 75,
                   moveChance := 0.35 },
    carnivore := { energyCost := 0.7, huntEnergy := 70, reproEnergy := 90,
                   moveChance := 0.45 },
    omnivore := { energyCost := 0.6, plantEnergy := 20, meatEnergy := 50,
                  reproEnergy := 85, moveChance := 0.4 },
    apexPredator := { energyCost := 1.0, huntEnergy := 100, reproEnergy := 120,
                      moveChance := 0.5 },
    parasite := { energyCost := 0.3, drainRate := 2, reproEnergy := 50,
                  moveChance := 0.2 },
    colony := { radius := 2, maxBonus := 0.5, moveBias := 0.7, mateRadius := 2 },
    disease := { spreadChance := 0.15, damagePerTick := 1, duration := 50,
                 immuneDuration := 200 } }

structure Disaster where
  dtype : DisasterType
  centerX : Int
  centerY : Int
  radius : Int
  duration : Int
deriving DecidableEq, Repr

structure DisasterState where
  activeDisasters : List Disaster
  disasterChance : JQ
  cooldown : Nat
deriving DecidableEq, Repr

structure EventRec where
  disaster : DisasterType
  generation : Nat
  x : Int
  y : Int
  radius : Int
deriving DecidableEq, Repr

/-- One recorded history sample.  The source stores parallel arrays pushed
and shifted in lockstep; a list of samples is the same data. -/
structure HistEntry where
  timestamp : Nat
  plants : Nat
  herbivores : Nat
  carnivores : Nat
  decomposers : Nat
  omnivores : Nat
  apexPredators : Nat
  parasites : Nat
  deadMatter : Nat
  totalPopulation : Nat
  o2 : JQ
  co2 : JQ
  biodiversity : JQ
  avgFitness : JQ
deriving DecidableEq, Repr

structure HistoryState where
  maxLength : Nat
  entries : List HistEntry
deriving DecidableEq, Repr

/-! ## The world -/

/-- The mutable state of an `EcosystemWorld` (simulation fields only;
canvas/UI fields are rendering-side).  `grid` stores entity ids (JS object
references); `heap` is the object store. -/
structure World where
  gridSize : Nat
  grid : List (List (Option Nat))
  heap : List (Nat × Entity)
  nextId : Nat
  terrain : List (List TerrainCell)
  generation : Nat
  dayLength : Nat
  timeOfDay : JQ
  isNight : Bool
  seasonLength : Nat
  currentSeason : Season
  seasonTimer : Nat
  weather : Weather
  weatherTimer : JQ
  temperature : JQ
  atmosphere : Atmos
  populations : Populations
  densities : Densities
  settings : Settings
  history : HistoryState
  disasters : DisasterState
  eventLog : List EventRec
deriving DecidableEq, Repr

/-! ## Grid / heap primitives -/

/-- Read grid cell `[y][x]`; out of bounds reads are `none` (JS
`undefined`). -/
def gget (g : List (List (Option Nat))) (x y : Int) : Option Nat :=
  if 0 ≤ x ∧ 0 ≤ y then (g.getD y.toNat []).getD x.toNat none else none

/-- Write grid cell `[y][x] = v`; out-of-bounds writes change no valid
cell (in JS they create invisible array properties). -/
def gset (g : List (List (Option Nat))) (x y : Int) (v : Option Nat) :
    List (List (Option Nat)) :=
  if 0 ≤ x ∧ 0 ≤ y then g.set y.toNat ((g.getD y.toNat []).set x.toNat v) else g

/-- Heap lookup by object id. -/
def hget (h : List (Nat × Entity)) (id : Nat) : Option Entity :=
  (h.find? (fun p => p.1 == id)).map (fun p => p.2)

/-- Mutate the heap entry with the given id (JS: mutate the object through
any reference to it). -/
def hmod : List (Nat × Entity) → Nat → (Entity → Entity) → List (Nat × Entity)
  | [], _, _ => []
  | p :: t, id, f => if p.1 = id then (id, f p.2) :: t else p :: hmod t id f

def World.getE (w : World) (id : Nat) : Entity := (hget w.heap id).getD defEntity

def heapMod (w : World) (id : Nat) (f : Entity → Entity) : World :=
  { w with heap := hmod w.heap id f }

def placeAt (w : World) (x y : Int) (v : Option Nat) : World :=
  { w with grid := gset w.grid x y v }

/-- Read a terrain cell (out of bounds: an inert default; the simulator
only reads in-bounds cells). -/
def tget (w : World) (x y : Int) : TerrainCell :=
  if 0 ≤ x ∧ 0 ≤ y then
    (w.terrain.getD y.toNat []).getD x.toNat (mkTerrainCell .normal)
  else mkTerrainCell .normal

def tmod (w : World) (x y : Int) (f : TerrainCell → TerrainCell) : World :=
  if 0 ≤ x ∧ 0 ≤ y then
    let row := (w.terrain.getD y.toNat []).set x.toNat (f (tget w x y))
    { w with terrain := w.terrain.set y.toNat row }
  else w

/-! Named setters for the scalar parts of the world state (the direct
field assignments of the source, `this.atmosphere.o2 = …` and the like). -/

def setAtmos (w : World) (a : Atmos) : World := { w with atmosphere := a }

def setWeatherState (w : World) (wt : Weather) (timer : JQ) : World :=
  { w with weather := wt, weatherTimer := timer }

def setTimeOfDay (w : World) (v : JQ) : World := { w with timeOfDay := v }

def setIsNight (w : World) (b : Bool) : World := { w with isNight := b }

def setSeasonState (w : World) (st : Nat) (cs : Season) : World :=
  { w with seasonTimer := st, currentSeason := cs }

def setTemperature (w : World) (v : JQ) : World := { w with temperature := v }

def setWeatherTimer (w : World) (v : JQ) : World := { w with weatherTimer := v }

def setDisasters (w : World) (d : DisasterState) : World :=
  { w with disasters := d }

def setEventLog (w : World) (l : List EventRec) : World := { w with eventLog := l }

def setGeneration (w : World) (g : Nat) : World := { w with generation := g }

def setPops (w : World) (p : Populations) : World := { w with populations := p }

def setHistory (w : World) (h : HistoryState) : World := { w with history := h }

def setNextId (w : World) (n : Nat) : World := { w with nextId := n }

/-- `new Entity(type, x, y, parent1, parent2)`: allocates a fresh object on
the heap and returns its id.  Draw order matches the constructor: 8+ draws
for genetics, then initial energy, max age, max trail. -/
def mkEntity (w : World) (t : EntityType) (x y : Int)
    (parents : Option (Nat × Nat)) (rng : Rng) : Nat × World × Rng :=
  let (g, rng) := match parents with
    | some (p1, p2) => Genetics.inherit (w.getE p1).genetics (w.getE p2).genetics rng
    | none => Genetics.fresh rng
  let (re, rng) := rand rng
  let energy := baseInitialEnergy t * g.size + re * 20
  let (ra, rng) := rand rng
  let maxAge := baseMaxAge t * g.lifespan + ra * 30
  let (rt, rng) := rand rng
  let gen : Nat := match parents with
    | some (p1, p2) => max (w.getE p1).generation (w.getE p2).generation + 1
    | none => 1
  let e : Entity :=
    { type := t, x := x, y := y, id := w.nextId, genetics := g,
      energy := energy, maxEnergy := baseMaxEnergy t * g.size,
      age := 0, maxAge := maxAge, lifeStage := .juvenile,
      maturityAge := maxAge * 0.2, elderAge := maxAge * 0.75,
      trail := [], maxTrail := (12 + JQ.floor (rt * 8)).toNat,
      cyclesSinceReproduction := 0, offspring := 0,
      isInfected := false, diseaseTimer := 0, isImmune := false,
      immuneTimer := 0, fleeing := false, fleeTimer := 0, memory := [],
      maxMemory := 5, kills := 0, foodEaten := 0, distanceTraveled := 0,
      generation := gen, host := none, parasites := [] }
  (w.nextId, { w with heap := (w.nextId, e) :: w.heap, nextId := w.nextId + 1 },
   rng)

/-- The inclusive integer range `[a..b]` used for the `for (let d = -r;
d <= r; d++)` loops. -/
def rangeInt (a b : Int) : List Int :=
  (List.range (b + 1 - a).toNat).map (fun i => a + (i : Int))

def inBounds (w : World) (x y : Int) : Prop :=
  0 ≤ x ∧ x < (w.gridSize : Int) ∧ 0 ≤ y ∧ y < (w.gridSize : Int)

instance (w : World) (x y : Int) : Decidable (inBounds w x y) := by
  unfold inBounds; infer_instance

/-! ## Spatial query layer -/

structure NeighborInfo where
  x : Int
  y : Int
  ent : Option Nat
  terrain : TerrainCell
deriving DecidableEq, Repr

def defNeighbor : NeighborInfo := ⟨0, 0, none, mkTerrainCell .normal⟩

/-- `arr[Math.floor(Math.random() * arr.length)]`. -/
def pickIdx (len : Nat) (r : JQ) : Nat := (JQ.floor (r * JQ.ofNatQ len)).toNat

/-- `getNeighbors(x, y)`: the 8 surrounding cells, clipped to bounds, in
row scan order (dy outer, dx inner). -/
def getNeighbors (w : World) (x y : Int) : List NeighborInfo :=
  (rangeInt (-1) 1).flatMap (fun dy =>
    (rangeInt (-1) 1).filterMap (fun dx =>
      if dx = 0 ∧ dy = 0 then none
      else
        let nx := x + dx
        let ny := y + dy
        if inBounds w nx ny then
          some ⟨nx, ny, gget w.grid nx ny, tget w nx ny⟩
        else none))

/-- The empty / passable filter shared by `findEmptyNeighbor` and
`findColonyBiasedMove`. -/
def passableEmpty (avoidWater : Bool) (n : NeighborInfo) : Bool :=
  n.ent.isNone && !(n.terrain.type == .mountain) &&
    !(avoidWater && n.terrain.type == .water)

def findEmptyNeighbor (w : World) (x y : Int) (avoidWater : Bool) (rng : Rng) :
    Option NeighborInfo × Rng :=
  let ns := (getNeighbors w x y).filter (passableEmpty avoidWater)
  if ns.length = 0 then (none, rng)
  else
    let (r, rng) := rand rng
    (some (ns.getD (pickIdx ns.length r) defNeighbor), rng)

def findNeighborOfType (w : World) (x y : Int) (t : EntityType) (rng : Rng) :
    Option NeighborInfo × Rng :=
  let ns := (getNeighbors w x y).filter (fun n =>
    match n.ent with
    | some id => (w.getE id).type == t
    | none => false)
  if ns.length = 0 then (none, rng)
  else
    let (r, rng) := rand rng
    (some (ns.getD (pickIdx ns.length r) defNeighbor), rng)

structure RangeHit where
  x : Int
  y : Int
  ent : Nat
  dist : JQ
deriving DecidableEq, Repr

/-- `findEntityInRange`: nearest entity of a type within
`ceil(range * perception)`; the source stable-sorts by distance and takes
the head, which equals the fold below keeping the first strict minimum in
scan order. -/
def findEntityInRange (msqrt : JQ → JQ) (w : World) (x y : Int)
    (t : EntityType) (range : JQ) (perception : JQ) : Option RangeHit :=
  let er : Int := JQ.ceil (range * perception)
  let targets := (rangeInt (-er) er).flatMap (fun dy =>
    (rangeInt (-er) er).filterMap (fun dx =>
      if dx = 0 ∧ dy = 0 then none
      else
        let nx := x + dx
        let ny := y + dy
        if inBounds w nx ny then
          match gget w.grid nx ny with
          | some id =>
            if (w.getE id).type = t then
              let dist := msqrt (JQ.ofInt (dx * dx + dy * dy))
              if dist ≤ JQ.ofInt er then some (⟨nx, ny, id, dist⟩ : RangeHit)
              else none
            else none
          | none => none
        else none))
  targets.foldl (fun best c =>
    match best with
    | none => some c
    | some b => if c.dist < b.dist then some c else best) none

def countNearbyOfType (w : World) (x y : Int) (t : EntityType) (radius : Int) :
    Nat :=
  ((rangeInt (-radius) radius).flatMap (fun dy =>
    (rangeInt (-radius) radius).filterMap (fun dx =>
      if dx = 0 ∧ dy = 0 then none
      else
        let nx := x + dx
        let ny := y + dy
        if inBounds w nx ny then
          match gget w.grid nx ny with
          | some id => if (w.getE id).type = t then some () else none
          | none => none
        else none))).length

def getColonyBonus (w : World) (x y : Int) (t : EntityType) : JQ :=
  let radius := w.settings.colony.radius
  let maxBonus := w.settings.colony.maxBonus
  let nearbyCount := countNearbyOfType w x y t radius
  JQ.jmin (JQ.ofNatQ nearbyCount * (maxBonus / 5)) maxBonus

def findColonyBiasedMove (w : World) (x y : Int) (t : EntityType)
    (avoidWater : Bool) (rng : Rng) : Option NeighborInfo × Rng :=
  let ns := (getNeighbors w x y).filter (passableEmpty avoidWater)
  if ns.length = 0 then (none, rng)
  else
    let (r, rng) := rand rng
    if w.settings.colony.moveBias < r then
      let (r2, rng) := rand rng
      (some (ns.getD (pickIdx ns.length r2) defNeighbor), rng)
    else
      let st := ns.foldl (fun (acc : Option NeighborInfo × JQ × Rng) cell =>
        let (bm, bs, rng) := acc
        let score :=
          JQ.ofNatQ (countNearbyOfType w cell.x cell.y t w.settings.colony.radius)
        let (rj, rng) := rand rng
        let rs := score + rj * 2
        if bs < rs then (some cell, rs, rng) else (bm, bs, rng))
        (none, -1, rng)
      match st with
      | (some b, _, rng) => (some b, rng)
      | (none, _, rng) =>
        let (r3, rng) := rand rng
        (some (ns.getD (pickIdx ns.length r3) defNeighbor), rng)

/-- `findMate`: same-type neighbor in the square radius that can reproduce
and has energy above 40. -/
def findMate (w : World) (x y : Int) (t : EntityType) (radius : Int)
    (rng : Rng) : Option (Int × Int × Nat) × Rng :=
  let mates := (rangeInt (-radius) radius).flatMap (fun dy =>
    (rangeInt (-radius) radius).filterMap (fun dx =>
      if dx = 0 ∧ dy = 0 then none
      else
        let nx := x + dx
        let ny := y + dy
        if inBounds w nx ny then
          match gget w.grid nx ny with
          | some id =>
            let e := w.getE id
            if e.type = t ∧ e.canReproduce ∧ (40 : JQ) < e.energy then
              some (nx, ny, id)
            else none
          | none => none
        else none))
  if mates.length = 0 then (none, rng)
  else
    let (r, rng) := rand rng
    (some (mates.getD (pickIdx mates.length r) (0, 0, 0)), rng)

def moveToward (w : World) (e : Entity) (tx ty : Int) (rng : Rng) :
    Option NeighborInfo × Rng :=
  let nx := e.x + Int.sign (tx - e.x)
  let ny := e.y + Int.sign (ty - e.y)
  if inBounds w nx ny then
    if (gget w.grid nx ny).isNone ∧ (tget w nx ny).type ≠ .mountain ∧
        (tget w nx ny).type ≠ .water then
      (some ⟨nx, ny, none, tget w nx ny⟩, rng)
    else findEmptyNeighbor w e.x e.y true rng
  else findEmptyNeighbor w e.x e.y true rng

def moveAwayFrom (w : World) (e : Entity) (tx ty : Int) (rng : Rng) :
    Option NeighborInfo × Rng :=
  let nx := e.x + Int.sign (e.x - tx)
  let ny := e.y + Int.sign (e.y - ty)
  if inBounds w nx ny then
    if (gget w.grid nx ny).isNone ∧ (tget w nx ny).type ≠ .mountain ∧
        (tget w nx ny).type ≠ .water then
      (some ⟨nx, ny, none, tget w nx ny⟩, rng)
    else findEmptyNeighbor w e.x e.y true rng
  else findEmptyNeighbor w e.x e.y true rng

/-! ## Time, weather and sunlight -/

def nextSeason : Season → Season
  | .spring => .summer | .summer => .fall | .fall => .winter | .winter => .spring

def changeWeather (w : World) (rng : Rng) : World × Rng :=
  let cClear : JQ := 0.5
  let cRain : JQ :=
    if w.currentSeason = .summer then 0.15
    else if w.currentSeason = .spring then 0.4 else 0.3
  let cDrought : JQ := if w.currentSeason = .summer then 0.25 else 0.1
  let cStorm : JQ := 0.1
  let (r, rng) := rand rng
  let weather :=
    if r < cClear then Weather.clear
    else if r < cClear + cRain then Weather.rain
    else if r < cClear + cRain + cDrought then Weather.drought
    else if r < cClear + cRain + cDrought + cStorm then Weather.storm
    else w.weather
  let (r2, rng) := rand rng
  (setWeatherState w weather (JQ.ofInt (50 + JQ.floor (r2 * 100))), rng)

def applyWeatherEffects (w : World) (rng : Rng) : World × Rng :=
  match w.weather with
  | .rain =>
    ((List.range w.gridSize).foldl (fun w yy =>
      (List.range w.gridSize).foldl (fun w xx =>
        tmod w (xx : Int) (yy : Int)
          (fun t => { t with moisture := JQ.jmin 1 (t.moisture + 0.001) })) w) w,
     rng)
  | .drought =>
    ((List.range w.gridSize).foldl (fun w yy =>
      (List.range w.gridSize).foldl (fun w xx =>
        tmod w (xx : Int) (yy : Int)
          (fun t => { t with moisture := JQ.jmax 0 (t.moisture - 0.002) })) w) w,
     rng)
  | .storm =>
    let (r, rng) := rand rng
    if r < 0.01 then
      let (rx, rng) := rand rng
      let (ry, rng) := rand rng
      let x := JQ.floor (rx * JQ.ofNatQ w.gridSize)
      let y := JQ.floor (ry * JQ.ofNatQ w.gridSize)
      if (gget w.grid x y).isSome ∧ (tget w x y).type ≠ .water then
        let (nid, w, rng) := mkEntity w .deadMatter x y none rng
        (placeAt w x y (some nid), rng)
      else (w, rng)
    else (w, rng)
  | .clear => (w, rng)

def updateTime (w : World) (rng : Rng) : World × Rng :=
  let w := setTimeOfDay w
    (JQ.ofNatQ (w.generation % w.dayLength) / JQ.ofNatQ w.dayLength)
  let w := setIsNight w
    (if w.timeOfDay < 0.25 ∨ 0.75 < w.timeOfDay then true else false)
  let st := w.seasonTimer + 1
  let w :=
    if w.seasonLength ≤ st then
      setSeasonState w 0 (nextSeason w.currentSeason)
    else setSeasonState w st w.currentSeason
  let seasonTemp : JQ := match w.currentSeason with
    | .spring => 0.5 | .summer => 0.8 | .fall => 0.4 | .winter => 0.2
  let w := setTemperature w (seasonTemp + (if w.isNight then -0.1 else 0.1))
  let w := setWeatherTimer w (w.weatherTimer - 1)
  let (w, rng) := if w.weatherTimer ≤ 0 then changeWeather w rng else (w, rng)
  applyWeatherEffects w rng

def getSunlightModifier (w : World) : JQ :=
  let m : JQ := 1.0
  let m := if w.isNight then m * 0.2 else m
  let m :=
    if w.currentSeason = .summer then m * 1.3
    else if w.currentSeason = .winter then m * 0.5 else m
  if w.weather = .rain then m * 0.6
  else if w.weather = .storm then m * 0.3 else m

/-! ## Disease -/

/-- The neighbour-infection roll inside `processDisease`. -/
def diseaseSpread (acc : World × Rng) (n : NeighborInfo) : World × Rng :=
  let (w, rng) := acc
  match n.ent with
  | some nid =>
    let ne := w.getE nid
    if ne.isInfected = false ∧ ne.isImmune = false ∧
        ne.type ≠ .plant ∧ ne.type ≠ .deadMatter then
      let (r, rng) := rand rng
      if r < w.settings.disease.spreadChance * (1 - ne.genetics.immunity) then
        (heapMod w nid (fun x =>
          { x with isInfected := true,
                   diseaseTimer := w.settings.disease.duration }), rng)
      else (w, rng)
    else (w, rng)
  | none => (w, rng)

def processDisease (w : World) (id : Nat) (rng : Rng) : World × Rng :=
  let (w, rng) :=
    if (w.getE id).isInfected then
      let w := heapMod w id (fun e =>
        { e with energy := e.energy - w.settings.disease.damagePerTick,
                 diseaseTimer := e.diseaseTimer - 1 })
      let ns := getNeighbors w (w.getE id).x (w.getE id).y
      let (w, rng) := ns.foldl diseaseSpread (w, rng)
      let w :=
        if (w.getE id).diseaseTimer ≤ 0 then
          heapMod w id (fun e =>
            { e with isInfected := false, isImmune := true,
                     immuneTimer := w.settings.disease.immuneDuration })
        else w
      (w, rng)
    else (w, rng)
  let w :=
    if (w.getE id).isImmune then
      let w := heapMod w id (fun e => { e with immuneTimer := e.immuneTimer - 1 })
      if (w.getE id).immuneTimer ≤ 0 then
        heapMod w id (fun e => { e with isImmune := false })
      else w
    else w
  (w, rng)

/-! ## Disasters -/

/-- One cell of the fire blast. -/
def fireCell (cx cy radius dy : Int) (acc : World × Rng) (dx : Int) :
    World × Rng :=
  let (w, rng) := acc
  if radius * radius < dx * dx + dy * dy then (w, rng)
  else
    let x := cx + dx
    let y := cy + dy
    if ¬ inBounds w x y then (w, rng)
    else if (tget w x y).type = .water then (w, rng)
    else
      let (w, rng) := match gget w.grid x y with
        | some id =>
          let e := w.getE id
          let survivalChance :=
            if e.type = .plant then (0.1 : JQ) else e.genetics.speed * 0.3
          let (r, rng) := rand rng
          if survivalChance < r then
            let (nid, w, rng) := mkEntity w .deadMatter x y none rng
            let w := placeAt w x y (some nid)
            (heapMod w nid (fun d => { d with energy := 10 }), rng)
          else (w, rng)
        | none => (w, rng)
      (tmod w x y (fun t => { t with fertility := t.fertility * 0.5 }), rng)

def applyFire (w : World) (cx cy : Int) (radius : Int) (rng : Rng) :
    World × Rng :=
  (rangeInt (-radius) radius).foldl (fun (acc : World × Rng) dy =>
    (rangeInt (-radius) radius).foldl (fireCell cx cy radius dy) acc) (w, rng)

/-- One cell of the flood. -/
def floodCell (cx cy radius dy : Int) (acc : World × Rng) (dx : Int) :
    World × Rng :=
  let (w, rng) := acc
  if radius * radius < dx * dx + dy * dy then (w, rng)
  else
    let x := cx + dx
    let y := cy + dy
    if ¬ inBounds w x y then (w, rng)
    else if (tget w x y).type = .mountain then (w, rng)
    else
      let (w, rng) := match gget w.grid x y with
        | some id =>
          let e := w.getE id
          if e.type ≠ .plant then
            let survivalChance := e.genetics.speed * 0.4
            let (r, rng) := rand rng
            if survivalChance < r then
              let (nid, w, rng) := mkEntity w .deadMatter x y none rng
              let w := placeAt w x y (some nid)
              (heapMod w nid (fun d => { d with energy := 15 }), rng)
            else (w, rng)
          else (w, rng)
        | none => (w, rng)
      (tmod w x y (fun t => { t with moisture := JQ.jmin 1 (t.moisture + 0.3) }),
       rng)

def applyFlood (w : World) (cx cy : Int) (radius : Int) (rng : Rng) :
    World × Rng :=
  (rangeInt (-radius) radius).foldl (fun (acc : World × Rng) dy =>
    (rangeInt (-radius) radius).foldl (floodCell cx cy radius dy) acc) (w, rng)

/-- One cell of the disease outbreak. -/
def outbreakCell (cx cy radius dy : Int) (acc : World × Rng) (dx : Int) :
    World × Rng :=
  let (w, rng) := acc
  if radius * radius < dx * dx + dy * dy then (w, rng)
  else
    let x := cx + dx
    let y := cy + dy
    if ¬ inBounds w x y then (w, rng)
    else
      match gget w.grid x y with
      | some id =>
        let e := w.getE id
        if e.type ≠ .deadMatter ∧ e.type ≠ .plant then
          let (r, rng) := rand rng
          if e.genetics.immunity < r ∧ e.isImmune = false then
            let (r2, rng) := rand rng
            (heapMod w id (fun x =>
              { x with isInfected := true,
                       diseaseTimer := JQ.ofInt (30 + JQ.floor (r2 * 30)) }),
             rng)
          else (w, rng)
        else (w, rng)
      | none => (w, rng)

def applyDiseaseOutbreak (w : World) (cx cy : Int) (radius : Int) (rng : Rng) :
    World × Rng :=
  (rangeInt (-radius) radius).foldl (fun (acc : World × Rng) dy =>
    (rangeInt (-radius) radius).foldl (outbreakCell cx cy radius dy) acc) (w, rng)

/-- `DisasterManager.trigger(type)`: random center/radius/duration, sets
the 200-tick cooldown, registers and immediately applies the disaster,
and logs it. -/
def trigger (w : World) (t : DisasterType) (rng : Rng) : World × Rng :=
  let (r1, rng) := rand rng
  let centerX := JQ.floor (r1 * JQ.ofNatQ w.gridSize)
  let (r2, rng) := rand rng
  let centerY := JQ.floor (r2 * JQ.ofNatQ w.gridSize)
  let (r3, rng) := rand rng
  let radius := 5 + JQ.floor (r3 * 10)
  let w := setDisasters w { w.disasters with cooldown := 200 }
  let (r4, rng) := rand rng
  let dis : Disaster := ⟨t, centerX, centerY, radius, 30 + JQ.floor (r4 * 30)⟩
  let w := setDisasters w
    { w.disasters with activeDisasters := w.disasters.activeDisasters ++ [dis] }
  let (w, rng) := match t with
    | .fire => applyFire w centerX centerY radius rng
    | .flood => applyFlood w centerX centerY radius rng
    | .disease => applyDiseaseOutbreak w centerX centerY radius rng
    | .meteor => (w, rng)
  (setEventLog w (w.eventLog ++ [⟨t, w.generation, centerX, centerY, radius⟩]),
   rng)

def triggerRandomDisaster (w : World) (rng : Rng) : World × Rng :=
  let types := [DisasterType.fire, DisasterType.flood, DisasterType.disease]
  let (r, rng) := rand rng
  trigger w (types.getD (pickIdx types.length r) DisasterType.fire) rng

/-- `DisasterManager.update()`: while the cooldown is positive it only
decrements the cooldown and returns; otherwise it may trigger a random
disaster and then decrements every active disaster's duration, dropping
those that reach zero. -/
def disastersUpdate (w : World) (rng : Rng) : World × Rng :=
  if 0 < w.disasters.cooldown then
    (setDisasters w { w.disasters with cooldown := w.disasters.cooldown - 1 },
     rng)
  else
    let (r, rng) := rand rng
    let (w, rng) :=
      if r < w.disasters.disasterChance ∧ 100 < w.generation then
        triggerRandomDisaster w rng
      else (w, rng)
    let w := setDisasters w { w.disasters with activeDisasters :=
        ((w.disasters.activeDisasters.map
            (fun d => { d with duration := d.duration - 1 })).filter
          (fun d => decide (0 < d.duration))) }
    (w, rng)

/-! ## Per-species behaviour rules

Each `processX(entity, x, y)` method is translated as a composition of
phase functions, in the statement order of the source.  The three-statement
movement idiom (`grid[y][x] = null; grid[ty][tx] = entity; entity.x/y := …`)
is `moveEntityOp`. -/

def moveEntityOp (w : World) (id : Nat) (x y tx ty : Int) : World :=
  let w := placeAt w x y none
  let w := placeAt w tx ty (some id)
  heapMod w id (fun e => { e with x := tx, y := ty })

/-! ### Plant -/

/-- Photosynthesis when CO2 is available, else the scarcity penalty. -/
def plantGrow (w : World) (id : Nat) (x y : Int) (colonyBonus : JQ) : World :=
  if 3 < w.atmosphere.co2 then
    let sunMod := getSunlightModifier w
    let terrain := tget w x y
    let rate := w.atmosphere.sunlight * w.settings.plant.photosynthesisRate *
      sunMod * terrain.fertility * terrain.moisture *
      (w.getE id).genetics.efficiency * (1 + colonyBonus * 0.2)
    let w := heapMod w id (fun e => { e with energy := e.energy + rate })
    let w := setAtmos w
      { w.atmosphere with co2 := JQ.jmax 0 (w.atmosphere.co2 - 0.02) }
    setAtmos w
      { w.atmosphere with o2 := JQ.jmin 100 (w.atmosphere.o2 + 0.04) }
  else heapMod w id (fun e => { e with energy := e.energy - 0.5 })

/-- Winter stress, energy cost, age, cooldown, life stage. -/
def plantUpkeep (w : World) (id : Nat) (colonyBonus : JQ) : World :=
  let w :=
    if w.currentSeason = .winter then
      heapMod w id (fun e => { e with energy := e.energy - 0.3 })
    else w
  let cost := w.settings.plant.energyCost * (1 - colonyBonus * 0.1) /
    (w.getE id).genetics.efficiency
  let w := heapMod w id (fun e => { e with energy := e.energy - JQ.jmax 0.1 cost })
  let w := heapMod w id (fun e =>
    { e with age := e.age + 1,
             cyclesSinceReproduction := e.cyclesSinceReproduction + 1 })
  heapMod w id Entity.updateLifeStage

/-- The 8% root-trail effect. -/
def plantTrail (w : World) (id : Nat) (x y : Int) (rng : Rng) : World × Rng :=
  let (r, rng) := rand rng
  if r < 0.08 then
    let (r1, rng) := rand rng
    let (r2, rng) := rand rng
    (heapMod w id (fun e =>
      e.addToTrail (JQ.ofInt x + (r1 - 0.5) * 2) (JQ.ofInt y + (r2 - 0.5) * 2)),
     rng)
  else (w, rng)

/-- Plant reproduction: gated on energy above `reproEnergy * size`,
`canReproduce`, a same-type neighbour within the spread radius and
fertile enough terrain; cross-pollinates with a mate or self-pollinates. -/
def plantRepro (w : World) (id : Nat) (x y : Int) (rng : Rng) : World × Rng :=
  let settings := w.settings.plant
  let terrain := tget w x y
  let nearbyPlants := countNearbyOfType w x y .plant settings.spreadRadius
  let e := w.getE id
  if settings.reproEnergy * e.genetics.size < e.energy ∧ e.canReproduce ∧
      0 < nearbyPlants ∧ (0.3 : JQ) < terrain.fertility then
    let reproChance := 0.3 * e.genetics.fertility * terrain.fertility
    let (r, rng) := rand rng
    if r < reproChance then
      let (empty, rng) := findColonyBiasedMove w x y .plant true rng
      match empty with
      | some em =>
        if (tget w em.x em.y).type ≠ .water then
          let (mate, rng) := findMate w x y .plant 3 rng
          let parent2 : Nat := match mate with
            | some (_, _, mid) => mid
            | none => id
          let (oid, w, rng) := mkEntity w .plant em.x em.y (some (id, parent2)) rng
          let w := placeAt w em.x em.y (some oid)
          let w := heapMod w id (fun e =>
            { e with energy := e.energy - settings.reproEnergy * 0.3,
                     offspring := e.offspring + 1,
                     cyclesSinceReproduction := 0 })
          (w, rng)
        else (w, rng)
      | none => (w, rng)
    else (w, rng)
  else (w, rng)

/-- Plant death: convert to dead matter keeping 30% of the energy plus 15
and the trail. -/
def plantDeath (w : World) (id : Nat) (x y : Int) (rng : Rng) :
    (World × Bool) × Rng :=
  let e := w.getE id
  if e.energy ≤ 0 ∨ e.maxAge < e.age then
    let (did, w, rng) := mkEntity w .deadMatter x y none rng
    let w := heapMod w did (fun d =>
      { d with energy := e.energy * 0.3 + 15, trail := e.trail })
    ((placeAt w x y (some did), false), rng)
  else ((w, true), rng)

def processPlant (w : World) (id : Nat) (x y : Int) (rng : Rng) :
    (World × Bool) × Rng :=
  let colonyBonus := getColonyBonus w x y .plant
  let w := plantGrow w id x y colonyBonus
  let w := plantUpkeep w id colonyBonus
  let (w, rng) := plantTrail w id x y rng
  let (w, rng) := plantRepro w id x y rng
  plantDeath w id x y rng

/-! ### Herbivore -/

def herbRespire (w : World) (id : Nat) (colonyBonus : JQ) : World :=
  if 8 < w.atmosphere.o2 then
    let w := setAtmos w
      { w.atmosphere with o2 := JQ.jmax 0 (w.atmosphere.o2 - 0.012) }
    setAtmos w
      { w.atmosphere with co2 := JQ.jmin 100 (w.atmosphere.co2 + 0.008) }
  else heapMod w id (fun e =>
    { e with energy := e.energy - 3 * (1 - colonyBonus * 0.5) })

/-- Predator detection: enter the fleeing state and remember the danger
position.  (In `predator?.x || apex?.x` a predator at coordinate 0 falls
through to the apex coordinate, and to 0 if there is none; the memory is
never read back.) -/
def herbFleeCheck (msqrt : JQ → JQ) (w : World) (id : Nat) (x y : Int) :
    World × Option RangeHit × Option RangeHit :=
  let e := w.getE id
  let predator := findEntityInRange msqrt w x y .carnivore 3 e.genetics.perception
  let apex := findEntityInRange msqrt w x y .apexPredator 4 e.genetics.perception
  let w :=
    if (predator.isSome ∨ apex.isSome) ∧ e.fleeing = false then
      let rx : JQ := match predator with
        | some p =>
          if p.x = 0 then (match apex with | some a => JQ.ofInt a.x | none => 0)
          else JQ.ofInt p.x
        | none => match apex with | some a => JQ.ofInt a.x | none => 0
      let ry : JQ := match predator with
        | some p =>
          if p.y = 0 then (match apex with | some a => JQ.ofInt a.y | none => 0)
          else JQ.ofInt p.y
        | none => match apex with | some a => JQ.ofInt a.y | none => 0
      let w := heapMod w id (fun e => { e with fleeing := true, fleeTimer := 10 })
      heapMod w id (fun e => e.remember rx ry 1)
    else w
  (w, predator, apex)

/-- Grazing an adjacent plant when below 80% energy. -/
def herbEat (w : World) (id : Nat) (x y : Int) (rng : Rng) : World × Rng :=
  if (w.getE id).fleeing = false then
    let (plant, rng) := findNeighborOfType w x y .plant rng
    match plant with
    | some p =>
      if (w.getE id).energy < (w.getE id).maxEnergy * 0.8 then
        match gget w.grid p.x p.y with
        | some pid =>
          let plantE := w.getE pid
          let gain := JQ.jmin plantE.energy w.settings.herbivore.foodEnergy *
            (w.getE id).genetics.efficiency
          let w := heapMod w id (fun e =>
            { e with energy := e.energy + gain, foodEaten := e.foodEaten + 1 })
          (placeAt w p.x p.y none, rng)
        | none => (w, rng)
      else (w, rng)
    | none => (w, rng)
  else (w, rng)

/-- Herbivore movement: flee, else seek food when hungry, else
colony-biased wander. -/
def herbMove (msqrt : JQ → JQ) (w : World) (id : Nat) (x y : Int)
    (predator apex : Option RangeHit) (rng : Rng) : World × Rng :=
  let e := w.getE id
  let moveChance := if e.fleeing then (0.9 : JQ) else w.settings.herbivore.moveChance
  let (r, rng) := rand rng
  if r < moveChance * e.getEffectiveSpeed then
    let (target, w, rng) :=
      if e.fleeing then
        let threat := match predator with | some p => some p | none => apex
        let (t, rng) := match threat with
          | some th => moveAwayFrom w (w.getE id) th.x th.y rng
          | none => ((none : Option NeighborInfo), rng)
        let w := heapMod w id (fun e => { e with fleeTimer := e.fleeTimer - 1 })
        let w :=
          if (w.getE id).fleeTimer ≤ 0 then
            heapMod w id (fun e => { e with fleeing := false })
          else w
        (t, w, rng)
      else if e.energy < e.maxEnergy * 0.5 then
        match findEntityInRange msqrt w x y .plant 4 e.genetics.perception with
        | some f =>
          let (t, rng) := moveToward w (w.getE id) f.x f.y rng
          (t, w, rng)
        | none => ((none : Option NeighborInfo), w, rng)
      else ((none : Option NeighborInfo), w, rng)
    let (target, w, rng) := match target with
      | none =>
        let (t, rng) := findColonyBiasedMove w x y .herbivore true rng
        (t, w, rng)
      | some t => (some t, w, rng)
    match target with
    | some t =>
      let w := heapMod w id (fun e =>
        let e := e.addToTrail (JQ.ofInt x) (JQ.ofInt y)
        { e with distanceTraveled := e.distanceTraveled + 1 })
      (moveEntityOp w id x y t.x t.y, rng)
    | none => (w, rng)
  else (w, rng)

def herbUpkeep (w : World) (id : Nat) (colonyBonus : JQ) : World :=
  let e := w.getE id
  let cost := w.settings.herbivore.energyCost *
    (if e.lifeStage = .elder then (1.3 : JQ) else 1) / e.genetics.efficiency
  let w := heapMod w id (fun e =>
    { e with energy := e.energy - JQ.jmax 0.2 (cost - colonyBonus * 0.1) })
  let w := heapMod w id (fun e => { e with energy := e.energy + colonyBonus * 0.1 })
  let w := heapMod w id (fun e =>
    { e with age := e.age + 1,
             cyclesSinceReproduction := e.cyclesSinceReproduction + 1 })
  heapMod w id Entity.updateLifeStage

/-- Herbivore reproduction: the initiator must exceed `reproEnergy` and
pass `canReproduce`; the mate comes from `findMate`; both are debited and
credited with the offspring. -/
def herbRepro (w : World) (id : Nat) (rng : Rng) : World × Rng :=
  let e := w.getE id
  if w.settings.herbivore.reproEnergy < e.energy ∧ e.canReproduce then
    let (mate, rng) := findMate w e.x e.y .herbivore w.settings.colony.mateRadius rng
    match mate with
    | some (_, _, mid) =>
      let (empty, rng) := findColonyBiasedMove w e.x e.y .herbivore true rng
      match empty with
      | some em =>
        let (oid, w, rng) := mkEntity w .herbivore em.x em.y (some (id, mid)) rng
        let w := placeAt w em.x em.y (some oid)
        let w := heapMod w id (fun e =>
          { e with energy := e.energy - w.settings.herbivore.reproEnergy * 0.35 })
        let w := heapMod w mid (fun e =>
          { e with energy := e.energy - w.settings.herbivore.reproEnergy * 0.25 })
        let w := heapMod w id (fun e => { e with offspring := e.offspring + 1 })
        let w := heapMod w mid (fun e => { e with offspring := e.offspring + 1 })
        (heapMod w id (fun e => { e with cyclesSinceReproduction := 0 }), rng)
      | none => (w, rng)
    | none => (w, rng)
  else (w, rng)

/-- Herbivore death: convert to dead matter with energy 30 at the entity's
current coordinates. -/
def herbDeath (w : World) (id : Nat) (rng : Rng) : (World × Bool) × Rng :=
  let e := w.getE id
  if e.energy ≤ 0 ∨ e.maxAge < e.age then
    let (did, w, rng) := mkEntity w .deadMatter e.x e.y none rng
    let w := heapMod w did (fun d => { d with energy := 30, trail := e.trail })
    ((placeAt w e.x e.y (some did), false), rng)
  else ((w, true), rng)

def processHerbivore (msqrt : JQ → JQ) (w : World) (id : Nat) (x y : Int)
    (rng : Rng) : (World × Bool) × Rng :=
  let colonyBonus := getColonyBonus w x y .herbivore
  let (w, rng) := processDisease w id rng
  let w := herbRespire w id colonyBonus
  let (w, predator, apex) := herbFleeCheck msqrt w id x y
  let (w, rng) := herbEat w id x y rng
  let (w, rng) := herbMove msqrt w id x y predator apex rng
  let w := herbUpkeep w id colonyBonus
  let (w, rng) := herbRepro w id rng
  herbDeath w id rng

/-! ### Carnivore -/

def carnRespire (w : World) (id : Nat) (packBonus : JQ) : World :=
  if 8 < w.atmosphere.o2 then
    let w := setAtmos w
      { w.atmosphere with o2 := JQ.jmax 0 (w.atmosphere.o2 - 0.015) }
    setAtmos w
      { w.atmosphere with co2 := JQ.jmin 100 (w.atmosphere.co2 + 0.012) }
  else heapMod w id (fun e =>
    { e with energy := e.energy - 4 * (1 - packBonus * 0.5) })

/-- One prey type of the carnivore hunt. -/
def carnHuntStep (id : Nat) (x y : Int) (packBonus : JQ)
    (acc : World × Bool × Rng) (preyType : EntityType) : World × Bool × Rng :=
  let (w, done, rng) := acc
  if done then (w, done, rng)
  else
    let (prey, rng) := findNeighborOfType w x y preyType rng
    match prey with
    | some p =>
      if (w.getE id).energy < (w.getE id).maxEnergy * 0.9 then
        match gget w.grid p.x p.y with
        | some pid =>
          let preyE := w.getE pid
          let huntSuccess := 0.6 + packBonus * 0.2 +
            ((w.getE id).genetics.speed - preyE.genetics.speed) * 0.2 -
            preyE.genetics.camouflage * 0.2
          let (r, rng) := rand rng
          if r < huntSuccess then
            let gain := JQ.jmin (preyE.energy * 0.8) w.settings.carnivore.huntEnergy *
              (w.getE id).genetics.efficiency * (1 + packBonus * 0.2)
            let w := heapMod w id (fun e =>
              { e with energy := e.energy + gain, kills := e.kills + 1,
                       foodEaten := e.foodEaten + 1 })
            let (did, w, rng) := mkEntity w .deadMatter p.x p.y none rng
            let w := heapMod w did (fun d => { d with energy := preyE.energy * 0.2 })
            (placeAt w p.x p.y (some did), true, rng)
          else (w, false, rng)
        | none => (w, false, rng)
      else (w, false, rng)
    | none => (w, false, rng)

/-- Carnivore hunting over the prey priority list; stops at the first
successful kill (a failed roll moves on to the next prey type). -/
def carnHunt (w : World) (id : Nat) (x y : Int) (packBonus : JQ) (rng : Rng) :
    World × Rng :=
  let (w, _, rng) :=
    [EntityType.herbivore, EntityType.omnivore].foldl
      (carnHuntStep id x y packBonus) (w, false, rng)
  (w, rng)

def carnMove (msqrt : JQ → JQ) (w : World) (id : Nat) (x y : Int) (rng : Rng) :
    World × Rng :=
  let e := w.getE id
  let (r, rng) := rand rng
  if r < w.settings.carnivore.moveChance * e.getEffectiveSpeed then
    let (target, rng) :=
      if e.energy < e.maxEnergy * 0.6 then
        let hit := [EntityType.herbivore, EntityType.omnivore].foldl
          (fun acc pt => match acc with
            | some h => some h
            | none => findEntityInRange msqrt w x y pt 5 e.genetics.perception) none
        match hit with
        | some prey => moveToward w (w.getE id) prey.x prey.y rng
        | none => ((none : Option NeighborInfo), rng)
      else ((none : Option NeighborInfo), rng)
    let (target, rng) := match target with
      | none => findColonyBiasedMove w x y .carnivore true rng
      | some t => (some t, rng)
    match target with
    | some t =>
      let w := heapMod w id (fun e =>
        let e := e.addToTrail (JQ.ofInt x) (JQ.ofInt y)
        { e with distanceTraveled := e.distanceTraveled + 1 })
      (moveEntityOp w id x y t.x t.y, rng)
    | none => (w, rng)
  else (w, rng)

def carnUpkeep (w : World) (id : Nat) (packBonus : JQ) : World :=
  let e := w.getE id
  let cost := w.settings.carnivore.energyCost *
    (if e.lifeStage = .elder then (1.4 : JQ) else 1) / e.genetics.efficiency
  let w := heapMod w id (fun e =>
    { e with energy := e.energy - JQ.jmax 0.3 (cost - packBonus * 0.15) })
  let w := heapMod w id (fun e => { e with energy := e.energy + packBonus * 0.08 })
  let w := heapMod w id (fun e =>
    { e with age := e.age + 1,
             cyclesSinceReproduction := e.cyclesSinceReproduction + 1 })
  heapMod w id Entity.updateLifeStage

def carnRepro (w : World) (id : Nat) (rng : Rng) : World × Rng :=
  let e := w.getE id
  if w.settings.carnivore.reproEnergy < e.energy ∧ e.canReproduce then
    let (mate, rng) := findMate w e.x e.y .carnivore w.settings.colony.mateRadius rng
    match mate with
    | some (_, _, mid) =>
      let (empty, rng) := findColonyBiasedMove w e.x e.y .carnivore true rng
      match empty with
      | some em =>
        let (oid, w, rng) := mkEntity w .carnivore em.x em.y (some (id, mid)) rng
        let w := placeAt w em.x em.y (some oid)
        let w := heapMod w id (fun e =>
          { e with energy := e.energy - w.settings.carnivore.reproEnergy * 0.35 })
        let w := heapMod w mid (fun e =>
          { e with energy := e.energy - w.settings.carnivore.reproEnergy * 0.25 })
        let w := heapMod w id (fun e => { e with offspring := e.offspring + 1 })
        let w := heapMod w mid (fun e => { e with offspring := e.offspring + 1 })
        (heapMod w id (fun e => { e with cyclesSinceReproduction := 0 }), rng)
      | none => (w, rng)
    | none => (w, rng)
  else (w, rng)

def carnDeath (w : World) (id : Nat) (rng : Rng) : (World × Bool) × Rng :=
  let e := w.getE id
  if e.energy ≤ 0 ∨ e.maxAge < e.age then
    let (did, w, rng) := mkEntity w .deadMatter e.x e.y none rng
    let w := heapMod w did (fun d => { d with energy := 35, trail := e.trail })
    ((placeAt w e.x e.y (some did), false), rng)
  else ((w, true), rng)

def processCarnivore (msqrt : JQ → JQ) (w : World) (id : Nat) (x y : Int)
    (rng : Rng) : (World × Bool) × Rng :=
  let packBonus := getColonyBonus w x y .carnivore
  let (w, rng) := processDisease w id rng
  let w := carnRespire w id packBonus
  let (w, rng) := carnHunt w id x y packBonus rng
  let (w, rng) := carnMove msqrt w id x y rng
  let w := carnUpkeep w id packBonus
  let (w, rng) := carnRepro w id rng
  carnDeath w id rng

/-! ### Omnivore -/

def omniRespire (w : World) (id : Nat) (colonyBonus : JQ) : World :=
  if 8 < w.atmosphere.o2 then
    let w := setAtmos w
      { w.atmosphere with o2 := JQ.jmax 0 (w.atmosphere.o2 - 0.013) }
    setAtmos w
      { w.atmosphere with co2 := JQ.jmin 100 (w.atmosphere.co2 + 0.01) }
  else heapMod w id (fun e =>
    { e with energy := e.energy - 3.5 * (1 - colonyBonus * 0.5) })

def omniFleeCheck (msqrt : JQ → JQ) (w : World) (id : Nat) (x y : Int) :
    World × Option RangeHit :=
  let e := w.getE id
  let apex := findEntityInRange msqrt w x y .apexPredator 4 e.genetics.perception
  let w :=
    if apex.isSome ∧ e.fleeing = false then
      heapMod w id (fun e => { e with fleeing := true, fleeTimer := 8 })
    else w
  (w, apex)

/-- Omnivore feeding: scavenge dead matter first, else graze, else hunt a
herbivore with a probabilistic roll.  All three neighbour queries are
always performed. -/
def omniEat (w : World) (id : Nat) (x y : Int) (rng : Rng) : World × Rng :=
  if (w.getE id).fleeing = false then
    let (plant, rng) := findNeighborOfType w x y .plant rng
    let (prey, rng) := findNeighborOfType w x y .herbivore rng
    let (dead, rng) := findNeighborOfType w x y .deadMatter rng
    match dead with
    | some dn =>
      if (w.getE id).energy < (w.getE id).maxEnergy * 0.9 then
        match gget w.grid dn.x dn.y with
        | some did =>
          let deadE := w.getE did
          let w := heapMod w id (fun e =>
            { e with energy := e.energy + deadE.energy * 0.6 * e.genetics.efficiency,
                     foodEaten := e.foodEaten + 1 })
          (placeAt w dn.x dn.y none, rng)
        | none => (w, rng)
      else omniEatPlantOrPrey w id plant prey rng
    | none => omniEatPlantOrPrey w id plant prey rng
  else (w, rng)
where
  /-- The `else if` chain after the scavenging branch. -/
  omniEatPlantOrPrey (w : World) (id : Nat)
      (plant prey : Option NeighborInfo) (rng : Rng) : World × Rng :=
    match plant with
    | some pn =>
      if (w.getE id).energy < (w.getE id).maxEnergy * 0.7 then
        match gget w.grid pn.x pn.y with
        | some pid =>
          let plantE := w.getE pid
          let w := heapMod w id (fun e =>
            let gain := JQ.jmin plantE.energy w.settings.omnivore.plantEnergy *
              e.genetics.efficiency
            { e with energy := e.energy + gain, foodEaten := e.foodEaten + 1 })
          (placeAt w pn.x pn.y none, rng)
        | none => (w, rng)
      else omniHuntPrey w id prey rng
    | none => omniHuntPrey w id prey rng
  /-- The final `else if` branch: hunt an adjacent herbivore. -/
  omniHuntPrey (w : World) (id : Nat) (prey : Option NeighborInfo) (rng : Rng) :
      World × Rng :=
    match prey with
    | some pn =>
      if (w.getE id).energy < (w.getE id).maxEnergy * 0.5 then
        match gget w.grid pn.x pn.y with
        | some pid =>
          let preyE := w.getE pid
          let huntSuccess := 0.4 +
            ((w.getE id).genetics.speed - preyE.genetics.speed) * 0.3
          let (r, rng) := rand rng
          if r < huntSuccess then
            let w := heapMod w id (fun e =>
              let gain := JQ.jmin (preyE.energy * 0.7)
                w.settings.omnivore.meatEnergy * e.genetics.efficiency
              { e with energy := e.energy + gain, kills := e.kills + 1,
                       foodEaten := e.foodEaten + 1 })
            let (did, w, rng) := mkEntity w .deadMatter pn.x pn.y none rng
            let w := heapMod w did (fun d => { d with energy := preyE.energy * 0.2 })
            (placeAt w pn.x pn.y (some did), rng)
          else (w, rng)
        | none => (w, rng)
      else (w, rng)
    | none => (w, rng)

def omniMove (w : World) (id : Nat) (x y : Int) (apex : Option RangeHit)
    (rng : Rng) : World × Rng :=
  let e := w.getE id
  let moveChance := if e.fleeing then (0.85 : JQ) else w.settings.omnivore.moveChance
  let (r, rng) := rand rng
  if r < moveChance * e.getEffectiveSpeed then
    let (target, w, rng) :=
      match apex, e.fleeing with
      | some a, true =>
        let (t, rng) := moveAwayFrom w (w.getE id) a.x a.y rng
        let w := heapMod w id (fun e => { e with fleeTimer := e.fleeTimer - 1 })
        let w :=
          if (w.getE id).fleeTimer ≤ 0 then
            heapMod w id (fun e => { e with fleeing := false })
          else w
        (t, w, rng)
      | _, _ =>
        let (t, rng) := findColonyBiasedMove w x y .omnivore true rng
        (t, w, rng)
    match target with
    | some t =>
      let w := heapMod w id (fun e =>
        let e := e.addToTrail (JQ.ofInt x) (JQ.ofInt y)
        { e with distanceTraveled := e.distanceTraveled + 1 })
      (moveEntityOp w id x y t.x t.y, rng)
    | none => (w, rng)
  else (w, rng)

def omniUpkeep (w : World) (id : Nat) (colonyBonus : JQ) : World :=
  let e := w.getE id
  let cost := w.settings.omnivore.energyCost / e.genetics.efficiency
  let w := heapMod w id (fun e =>
    { e with energy := e.energy - JQ.jmax 0.25 (cost - colonyBonus * 0.1) })
  let w := heapMod w id (fun e =>
    { e with age := e.age + 1,
             cyclesSinceReproduction := e.cyclesSinceReproduction + 1 })
  heapMod w id Entity.updateLifeStage

def omniRepro (w : World) (id : Nat) (rng : Rng) : World × Rng :=
  let e := w.getE id
  if w.settings.omnivore.reproEnergy < e.energy ∧ e.canReproduce then
    let (mate, rng) := findMate w e.x e.y .omnivore w.settings.colony.mateRadius rng
    match mate with
    | some (_, _, mid) =>
      let (empty, rng) := findColonyBiasedMove w e.x e.y .omnivore true rng
      match empty with
      | some em =>
        let (oid, w, rng) := mkEntity w .omnivore em.x em.y (some (id, mid)) rng
        let w := placeAt w em.x em.y (some oid)
        let w := heapMod w id (fun e =>
          { e with energy := e.energy - w.settings.omnivore.reproEnergy * 0.35 })
        let w := heapMod w mid (fun e =>
          { e with energy := e.energy - w.settings.omnivore.reproEnergy * 0.25 })
        let w := heapMod w id (fun e =>
          { e with offspring := e.offspring + 1, cyclesSinceReproduction := 0 })
        (w, rng)
      | none => (w, rng)
    | none => (w, rng)
  else (w, rng)

def omniDeath (w : World) (id : Nat) (rng : Rng) : (World × Bool) × Rng :=
  let e := w.getE id
  if e.energy ≤ 0 ∨ e.maxAge < e.age then
    let (did, w, rng) := mkEntity w .deadMatter e.x e.y none rng
    let w := heapMod w did (fun d => { d with energy := 30, trail := e.trail })
    ((placeAt w e.x e.y (some did), false), rng)
  else ((w, true), rng)

def processOmnivore (msqrt : JQ → JQ) (w : World) (id : Nat) (x y : Int)
    (rng : Rng) : (World × Bool) × Rng :=
  let colonyBonus := getColonyBonus w x y .omnivore
  let (w, rng) := processDisease w id rng
  let w := omniRespire w id colonyBonus
  let (w, apex) := omniFleeCheck msqrt w id x y
  let (w, rng) := omniEat w id x y rng
  let (w, rng) := omniMove w id x y apex rng
  let w := omniUpkeep w id colonyBonus
  let (w, rng) := omniRepro w id rng
  omniDeath w id rng

/-! ### Apex predator -/

def apexRespire (w : World) (id : Nat) (packBonus : JQ) : World :=
  if 10 < w.atmosphere.o2 then
    let w := setAtmos w
      { w.atmosphere with o2 := JQ.jmax 0 (w.atmosphere.o2 - 0.02) }
    setAtmos w
      { w.atmosphere with co2 := JQ.jmin 100 (w.atmosphere.co2 + 0.018) }
  else heapMod w id (fun e =>
    { e with energy := e.energy - 5 * (1 - packBonus * 0.3) })

/-- One prey type of the apex-predator hunt. -/
def apexHuntStep (id : Nat) (x y : Int) (packBonus : JQ)
    (acc : World × Bool × Rng) (preyType : EntityType) : World × Bool × Rng :=
  let (w, done, rng) := acc
  if done then (w, done, rng)
  else
    let (prey, rng) := findNeighborOfType w x y preyType rng
    match prey with
    | some p =>
      if (w.getE id).energy < (w.getE id).maxEnergy * 0.9 then
        match gget w.grid p.x p.y with
        | some pid =>
          let preyE := w.getE pid
          let huntSuccess := 0.7 + packBonus * 0.15 +
            (w.getE id).genetics.speed * 0.1 - preyE.genetics.speed * 0.05
          let (r, rng) := rand rng
          if r < huntSuccess then
            let gain := JQ.jmin (preyE.energy * 0.85)
              w.settings.apexPredator.huntEnergy * (w.getE id).genetics.efficiency
            let w := heapMod w id (fun e =>
              { e with energy := e.energy + gain, kills := e.kills + 1,
                       foodEaten := e.foodEaten + 1 })
            let (did, w, rng) := mkEntity w .deadMatter p.x p.y none rng
            let w := heapMod w did (fun d => { d with energy := preyE.energy * 0.15 })
            (placeAt w p.x p.y (some did), true, rng)
          else (w, false, rng)
        | none => (w, false, rng)
      else (w, false, rng)
    | none => (w, false, rng)

def apexHunt (w : World) (id : Nat) (x y : Int) (packBonus : JQ) (rng : Rng) :
    World × Rng :=
  let (w, _, rng) :=
    [EntityType.herbivore, EntityType.omnivore, EntityType.carnivore].foldl
      (apexHuntStep id x y packBonus) (w, false, rng)
  (w, rng)

def apexMove (msqrt : JQ → JQ) (w : World) (id : Nat) (x y : Int) (rng : Rng) :
    World × Rng :=
  let e := w.getE id
  let (r, rng) := rand rng
  if r < w.settings.apexPredator.moveChance * e.getEffectiveSpeed then
    let (target, rng) :=
      if e.energy < e.maxEnergy * 0.7 then
        let hit := [EntityType.herbivore, EntityType.omnivore,
            EntityType.carnivore].foldl
          (fun acc pt => match acc with
            | some h => some h
            | none => findEntityInRange msqrt w x y pt 6 e.genetics.perception) none
        match hit with
        | some prey => moveToward w (w.getE id) prey.x prey.y rng
        | none => ((none : Option NeighborInfo), rng)
      else ((none : Option NeighborInfo), rng)
    let (target, rng) := match target with
      | none => findEmptyNeighbor w x y true rng
      | some t => (some t, rng)
    match target with
    | some t =>
      let w := heapMod w id (fun e =>
        let e := e.addToTrail (JQ.ofInt x) (JQ.ofInt y)
        { e with distanceTraveled := e.distanceTraveled + 1 })
      (moveEntityOp w id x y t.x t.y, rng)
    | none => (w, rng)
  else (w, rng)

def apexUpkeep (w : World) (id : Nat) : World :=
  let e := w.getE id
  let cost := w.settings.apexPredator.energyCost / e.genetics.efficiency
  let w := heapMod w id (fun e => { e with energy := e.energy - JQ.jmax 0.5 cost })
  let w := heapMod w id (fun e =>
    { e with age := e.age + 1,
             cyclesSinceReproduction := e.cyclesSinceReproduction + 1 })
  heapMod w id Entity.updateLifeStage

def apexRepro (w : World) (id : Nat) (rng : Rng) : World × Rng :=
  let e := w.getE id
  if w.settings.apexPredator.reproEnergy < e.energy ∧ e.canReproduce then
    let (mate, rng) := findMate w e.x e.y .apexPredator 3 rng
    match mate with
    | some (_, _, mid) =>
      let (empty, rng) := findEmptyNeighbor w e.x e.y true rng
      match empty with
      | some em =>
        let (oid, w, rng) := mkEntity w .apexPredator em.x em.y (some (id, mid)) rng
        let w := placeAt w em.x em.y (some oid)
        let w := heapMod w id (fun e =>
          { e with energy := e.energy - w.settings.apexPredator.reproEnergy * 0.4 })
        let w := heapMod w mid (fun e =>
          { e with energy := e.energy - w.settings.apexPredator.reproEnergy * 0.3 })
        let w := heapMod w id (fun e =>
          { e with offspring := e.offspring + 1, cyclesSinceReproduction := 0 })
        (w, rng)
      | none => (w, rng)
    | none => (w, rng)
  else (w, rng)

def apexDeath (w : World) (id : Nat) (rng : Rng) : (World × Bool) × Rng :=
  let e := w.getE id
  if e.energy ≤ 0 ∨ e.maxAge < e.age then
    let (did, w, rng) := mkEntity w .deadMatter e.x e.y none rng
    let w := heapMod w did (fun d => { d with energy := 50, trail := e.trail })
    ((placeAt w e.x e.y (some did), false), rng)
  else ((w, true), rng)

def processApexPredator (msqrt : JQ → JQ) (w : World) (id : Nat) (x y : Int)
    (rng : Rng) : (World × Bool) × Rng :=
  let packBonus := getColonyBonus w x y .apexPredator
  let (w, rng) := processDisease w id rng
  let w := apexRespire w id packBonus
  let (w, rng) := apexHunt w id x y packBonus rng
  let (w, rng) := apexMove msqrt w id x y rng
  let w := apexUpkeep w id
  let (w, rng) := apexRepro w id rng
  apexDeath w id rng

/-! ### Parasite -/

def paraRespire (w : World) : World :=
  let w := setAtmos w
    { w.atmosphere with o2 := JQ.jmax 0 (w.atmosphere.o2 - 0.003) }
  setAtmos w
    { w.atmosphere with co2 := JQ.jmin 100 (w.atmosphere.co2 + 0.002) }

/-- One host type of the parasite's host search. -/
def paraHostStep (id : Nat) (x y : Int) (acc : World × Bool × Rng)
    (hostType : EntityType) : World × Bool × Rng :=
  let (w, done, rng) := acc
  if done then (w, done, rng)
  else
    let (potential, rng) := findNeighborOfType w x y hostType rng
    match potential with
    | some p =>
      match gget w.grid p.x p.y with
      | some hid =>
        if (w.getE hid).parasites.length < 3 then
          let w := heapMod w id (fun e => { e with host := some hid })
          let w := heapMod w hid (fun h =>
            { h with parasites := h.parasites ++ [id] })
          (w, true, rng)
        else (w, false, rng)
      | none => (w, false, rng)
    | none => (w, false, rng)

/-- Host acquisition: attach to an adjacent host with fewer than three
parasites, trying host types in priority order. -/
def paraFindHost (w : World) (id : Nat) (x y : Int) (rng : Rng) : World × Rng :=
  if (w.getE id).host = none then
    let (w, _, rng) :=
      [EntityType.herbivore, EntityType.omnivore, EntityType.carnivore].foldl
        (paraHostStep id x y) (w, false, rng)
    (w, rng)
  else (w, rng)

/-- Drain the host (through the object reference, wherever the host now
is); detach if the host's energy is exhausted or the reference is gone. -/
def paraDrain (w : World) (id : Nat) (rng : Rng) : World × Rng :=
  match (w.getE id).host with
  | some hid =>
    if 0 < (w.getE hid).energy then
      let drain := w.settings.parasite.drainRate * (w.getE id).genetics.efficiency
      let w := heapMod w hid (fun h => { h with energy := h.energy - drain })
      let w := heapMod w id (fun e =>
        { e with energy := e.energy + drain * 0.8, foodEaten := e.foodEaten + 1 })
      let (r, rng) := rand rng
      let w :=
        if r < 0.02 ∧ (w.getE hid).isInfected = false ∧
            (w.getE hid).isImmune = false then
          heapMod w hid (fun h => { h with isInfected := true, diseaseTimer := 40 })
        else w
      let w :=
        if (w.getE hid).energy ≤ 0 then
          let w := heapMod w hid (fun h =>
            { h with parasites := h.parasites.filter (fun p => decide (p ≠ id)) })
          heapMod w id (fun e => { e with host := none })
        else w
      (w, rng)
    else (heapMod w id (fun e => { e with host := none }), rng)
  | none => (heapMod w id (fun e => { e with host := none }), rng)

def paraMove (w : World) (id : Nat) (x y : Int) (rng : Rng) : World × Rng :=
  if (w.getE id).host = none then
    let (r, rng) := rand rng
    if r < w.settings.parasite.moveChance * (w.getE id).getEffectiveSpeed then
      let (target, rng) := findEmptyNeighbor w x y true rng
      match target with
      | some t =>
        let w := heapMod w id (fun e => e.addToTrail (JQ.ofInt x) (JQ.ofInt y))
        (moveEntityOp w id x y t.x t.y, rng)
      | none => (w, rng)
    else (w, rng)
  else (w, rng)

def paraUpkeep (w : World) (id : Nat) : World :=
  let w := heapMod w id (fun e =>
    { e with energy := e.energy - w.settings.parasite.energyCost })
  let w := heapMod w id (fun e =>
    { e with age := e.age + 1,
             cyclesSinceReproduction := e.cyclesSinceReproduction + 1 })
  heapMod w id Entity.updateLifeStage

/-- Parasite reproduction: asexual (itself as both parents). -/
def paraRepro (w : World) (id : Nat) (rng : Rng) : World × Rng :=
  let e := w.getE id
  if w.settings.parasite.reproEnergy < e.energy ∧ e.canReproduce then
    let (empty, rng) := findEmptyNeighbor w e.x e.y true rng
    match empty with
    | some em =>
      let (oid, w, rng) := mkEntity w .parasite em.x em.y (some (id, id)) rng
      let w := placeAt w em.x em.y (some oid)
      let w := heapMod w id (fun e =>
        { e with energy := e.energy - w.settings.parasite.reproEnergy * 0.5,
                 offspring := e.offspring + 1, cyclesSinceReproduction := 0 })
      (w, rng)
    | none => (w, rng)
  else (w, rng)

/-- Parasite death: detach from the host and vanish without residue. -/
def paraDeath (w : World) (id : Nat) : World × Bool :=
  let e := w.getE id
  if e.energy ≤ 0 ∨ e.maxAge < e.age then
    let w := match e.host with
      | some hid =>
        heapMod w hid (fun h =>
          { h with parasites := h.parasites.filter (fun p => decide (p ≠ id)) })
      | none => w
    (placeAt w e.x e.y none, false)
  else (w, true)

def processParasite (w : World) (id : Nat) (x y : Int) (rng : Rng) :
    (World × Bool) × Rng :=
  let (w, rng) := processDisease w id rng
  let w := paraRespire w
  let (w, rng) := paraFindHost w id x y rng
  let (w, rng) := paraDrain w id rng
  let (w, rng) := paraMove w id x y rng
  let w := paraUpkeep w id
  let (w, rng) := paraRepro w id rng
  (paraDeath w id, rng)

/-! ### Decomposer -/

def decoRespire (w : World) : World :=
  let w := setAtmos w
    { w.atmosphere with o2 := JQ.jmax 0 (w.atmosphere.o2 - 0.004) }
  setAtmos w
    { w.atmosphere with co2 := JQ.jmin 100 (w.atmosphere.co2 + 0.008) }

def decoEat (w : World) (id : Nat) (x y : Int) (colonyBonus : JQ) (rng : Rng) :
    World × Rng :=
  let (dead, rng) := findNeighborOfType w x y .deadMatter rng
  match dead with
  | some dn =>
    match gget w.grid dn.x dn.y with
    | some did =>
      let deadE := w.getE did
      let w := heapMod w id (fun e =>
        let gain := deadE.energy * 0.7 * ((1 + colonyBonus * 0.3) * e.genetics.efficiency)
        { e with energy := e.energy + gain, foodEaten := e.foodEaten + 1 })
      let w := setAtmos w
        { w.atmosphere with co2 := JQ.jmin 100 (w.atmosphere.co2 + 0.2) }
      let w := tmod w dn.x dn.y (fun t =>
        { t with fertility := JQ.jmin 2 (t.fertility + 0.1) })
      (placeAt w dn.x dn.y none, rng)
    | none => (w, rng)
  | none => (w, rng)

def decoMove (msqrt : JQ → JQ) (w : World) (id : Nat) (x y : Int) (rng : Rng) :
    World × Rng :=
  let e := w.getE id
  let (r, rng) := rand rng
  if r < 0.2 * e.getEffectiveSpeed then
    let (target, rng) :=
      match findEntityInRange msqrt w x y .deadMatter 4 e.genetics.perception with
      | some dn => moveToward w (w.getE id) dn.x dn.y rng
      | none => findColonyBiasedMove w x y .decomposer true rng
    match target with
    | some t =>
      let w := heapMod w id (fun e => e.addToTrail (JQ.ofInt x) (JQ.ofInt y))
      (moveEntityOp w id x y t.x t.y, rng)
    | none => (w, rng)
  else (w, rng)

def decoUpkeep (w : World) (id : Nat) (colonyBonus : JQ) : World :=
  let w := heapMod w id (fun e =>
    { e with energy := e.energy - JQ.jmax 0.1 (0.2 - colonyBonus * 0.05) })
  let w := heapMod w id (fun e =>
    { e with age := e.age + 1,
             cyclesSinceReproduction := e.cyclesSinceReproduction + 1 })
  heapMod w id Entity.updateLifeStage

def decoRepro (w : World) (id : Nat) (rng : Rng) : World × Rng :=
  let e := w.getE id
  if (50 : JQ) < e.energy ∧ e.canReproduce then
    let (mate, rng) := findMate w e.x e.y .decomposer 2 rng
    match mate with
    | some (_, _, mid) =>
      let (empty, rng) := findColonyBiasedMove w e.x e.y .decomposer true rng
      match empty with
      | some em =>
        let (oid, w, rng) := mkEntity w .decomposer em.x em.y (some (id, mid)) rng
        let w := placeAt w em.x em.y (some oid)
        let w := heapMod w id (fun e => { e with energy := e.energy - 15 })
        let w := heapMod w mid (fun e => { e with energy := e.energy - 10 })
        let w := heapMod w id (fun e =>
          { e with offspring := e.offspring + 1, cyclesSinceReproduction := 0 })
        (w, rng)
      | none => (w, rng)
    | none => (w, rng)
  else (w, rng)

/-- Decomposer death: vanish without residue. -/
def decoDeath (w : World) (id : Nat) : World × Bool :=
  let e := w.getE id
  if e.energy ≤ 0 ∨ e.maxAge < e.age then
    (placeAt w e.x e.y none, false)
  else (w, true)

def processDecomposer (msqrt : JQ → JQ) (w : World) (id : Nat) (x y : Int)
    (rng : Rng) : (World × Bool) × Rng :=
  let colonyBonus := getColonyBonus w x y .decomposer
  let (w, rng) := processDisease w id rng
  let w := decoRespire w
  let (w, rng) := decoEat w id x y colonyBonus rng
  let (w, rng) := decoMove msqrt w id x y rng
  let w := decoUpkeep w id colonyBonus
  let (w, rng) := decoRepro w id rng
  (decoDeath w id, rng)

/-! ### Dead matter -/

def processDeadMatter (w : World) (id : Nat) (x y : Int) (rng : Rng) :
    (World × Bool) × Rng :=
  let w := heapMod w id (fun e =>
    { e with energy := e.energy - 0.3, age := e.age + 1 })
  let w := setAtmos w
    { w.atmosphere with co2 := JQ.jmin 100 (w.atmosphere.co2 + 0.01) }
  let w := tmod w x y (fun t =>
    { t with fertility := JQ.jmin 2 (t.fertility + 0.005) })
  let e := w.getE id
  if e.energy ≤ 0 ∨ e.maxAge < e.age then
    let w := placeAt w x y none
    let w := setAtmos w
      { w.atmosphere with co2 := JQ.jmin 100 (w.atmosphere.co2 + 0.1) }
    ((w, false), rng)
  else ((w, true), rng)

/-! ## Statistics -/

def zeroPops : Populations :=
  { plants := 0, herbivores := 0, carnivores := 0, decomposers := 0,
    omnivores := 0, apexPredators := 0, parasites := 0, deadMatter := 0 }

def bumpPop (p : Populations) : EntityType → Populations
  | .plant => { p with plants := p.plants + 1 }
  | .herbivore => { p with herbivores := p.herbivores + 1 }
  | .carnivore => { p with carnivores := p.carnivores + 1 }
  | .decomposer => { p with decomposers := p.decomposers + 1 }
  | .deadMatter => { p with deadMatter := p.deadMatter + 1 }
  | .omnivore => { p with omnivores := p.omnivores + 1 }
  | .apexPredator => { p with apexPredators := p.apexPredators + 1 }
  | .parasite => { p with parasites := p.parasites + 1 }
  | .empty => p

/-- `updateStats()`: recount the per-species populations from the grid. -/
def computePops (w : World) : Populations :=
  (List.range w.gridSize).foldl (fun p (yy : Nat) =>
    (List.range w.gridSize).foldl (fun p (xx : Nat) =>
      match gget w.grid (xx : Int) (yy : Int) with
      | some id => bumpPop p (w.getE id).type
      | none => p) p) zeroPops

def updateStats (w : World) : World := setPops w (computePops w)

/-- `calculateBiodiversity()`: normalized Shannon entropy over the
positive-count species (dead matter excluded). -/
def calculateBiodiversity (mlog : JQ → JQ) (w : World) : JQ :=
  let counts := [w.populations.plants, w.populations.herbivores,
    w.populations.carnivores, w.populations.decomposers,
    w.populations.omnivores, w.populations.apexPredators,
    w.populations.parasites].filter (fun c => decide (0 < c))
  if counts.length = 0 then 0
  else
    let total := counts.foldl (· + ·) 0
    let entropy := counts.foldl (fun ent c =>
      let p := JQ.ofNatQ c / JQ.ofNatQ total
      if 0 < p then ent - p * mlog p else ent) 0
    let maxEntropy := mlog (JQ.ofNatQ counts.length)
    if 0 < maxEntropy then entropy / maxEntropy else 0

def calculateAverageFitness (w : World) : JQ :=
  let (total, count) := (List.range w.gridSize).foldl (fun acc yy =>
    (List.range w.gridSize).foldl (fun (acc : JQ × Nat) xx =>
      let (total, count) := acc
      match gget w.grid (xx : Int) (yy : Int) with
      | some id => (total + (w.getE id).genetics.getFitness, count + 1)
      | none => (total, count)) acc) ((0 : JQ), (0 : Nat))
  if 0 < count then total / JQ.ofNatQ count else 0

/-- `PopulationHistory.record`: append one sample and trim to the bounded
length. -/
def historyRecord (w : World) (bio avgFit : JQ) : World :=
  let p := w.populations
  let entry : HistEntry :=
    { timestamp := w.generation, plants := p.plants, herbivores := p.herbivores,
      carnivores := p.carnivores, decomposers := p.decomposers,
      omnivores := p.omnivores, apexPredators := p.apexPredators,
      parasites := p.parasites, deadMatter := p.deadMatter,
      totalPopulation := p.plants + p.herbivores + p.carnivores +
        p.decomposers + p.omnivores + p.apexPredators + p.parasites,
      o2 := w.atmosphere.o2, co2 := w.atmosphere.co2,
      biodiversity := bio, avgFitness := avgFit }
  let es := w.history.entries ++ [entry]
  setHistory w { w.history with
      entries := if w.history.maxLength < es.length then es.tail else es }

/-! ## The simulation step -/

/-- The per-entity dispatch inside `step()`'s loop. -/
def processEntity (msqrt : JQ → JQ) (w : World) (id : Nat) (x y : Int)
    (rng : Rng) : World × Rng :=
  match (w.getE id).type with
  | .plant => let ((w, _), rng) := processPlant w id x y rng; (w, rng)
  | .herbivore => let ((w, _), rng) := processHerbivore msqrt w id x y rng; (w, rng)
  | .carnivore => let ((w, _), rng) := processCarnivore msqrt w id x y rng; (w, rng)
  | .decomposer => let ((w, _), rng) := processDecomposer msqrt w id x y rng; (w, rng)
  | .deadMatter => let ((w, _), rng) := processDeadMatter w id x y rng; (w, rng)
  | .omnivore => let ((w, _), rng) := processOmnivore msqrt w id x y rng; (w, rng)
  | .apexPredator =>
    let ((w, _), rng) := processApexPredator msqrt w id x y rng; (w, rng)
  | .parasite => let ((w, _), rng) := processParasite w id x y rng; (w, rng)
  | .empty => (w, rng)

/-- The worklist snapshot: every occupied cell in row scan order. -/
def collectEntities (w : World) : List (Nat × Int × Int) :=
  (List.range w.gridSize).flatMap (fun yy =>
    (List.range w.gridSize).filterMap (fun xx =>
      match gget w.grid (xx : Int) (yy : Int) with
      | some id => some (id, (xx : Int), (yy : Int))
      | none => none))

def listSwap (l : List (Nat × Int × Int)) (i j : Nat) : List (Nat × Int × Int) :=
  match l.get? i, l.get? j with
  | some a, some b => (l.set i b).set j a
  | _, _ => l

/-- The Fisher–Yates shuffle loop, `i` counting down to 1. -/
def fyLoop (l : List (Nat × Int × Int)) (i : Nat) (rng : Rng) :
    List (Nat × Int × Int) × Rng :=
  match i with
  | 0 => (l, rng)
  | Nat.succ i' =>
    let (r, rng) := rand rng
    let j := (JQ.floor (r * JQ.ofNatQ (i' + 2))).toNat
    fyLoop (listSwap l (i' + 1) j) i' rng

/-- End-of-tick atmosphere rebalancing: if `o2 + co2 > 100`, subtract half
the excess from each gas. -/
def rebalanceAtmosphere (a : Atmos) : Atmos :=
  let total := a.o2 + a.co2
  if 100 < total then
    let excess := total - 100
    { a with o2 := a.o2 - excess * 0.5, co2 := a.co2 - excess * 0.5 }
  else a

/-- One worklist item of `step()`'s loop: the snapshot position is
revalidated against the live grid before the entity is processed. -/
def stepCell (msqrt : JQ → JQ) (acc : World × Rng) (item : Nat × Int × Int) :
    World × Rng :=
  let (w, rng) := acc
  let (id, x, y) := item
  if gget w.grid x y = some id then processEntity msqrt w id x y rng
  else (w, rng)

/-- `EcosystemWorld.step()`: one generation. -/
def step (msqrt mlog : JQ → JQ) (w : World) (rng : Rng) : World × Rng :=
  let (w, rng) := updateTime w rng
  let (w, rng) := disastersUpdate w rng
  let entities := collectEntities w
  let (entities, rng) := fyLoop entities (entities.length - 1) rng
  let (w, rng) := entities.foldl (stepCell msqrt) (w, rng)
  let w := setAtmos w (rebalanceAtmosphere w.atmosphere)
  let w := setGeneration w (w.generation + 1)
  let w := updateStats w
  let w :=
    if w.generation % 5 = 0 then
      historyRecord w (calculateBiodiversity mlog w) (calculateAverageFitness w)
    else w
  (w, rng)

/-! ## Tools: spawn / kill -/

/-- `spawnAt(x, y, type)`. -/
def spawnAt (w : World) (x y : Int) (t : EntityType) (rng : Rng) : World × Rng :=
  if (tget w x y).type = .water ∧ t ≠ .plant then (w, rng)
  else if (tget w x y).type = .mountain then (w, rng)
  else if (gget w.grid x y).isSome then (w, rng)
  else
    let (nid, w, rng) := mkEntity w t x y none rng
    (placeAt w x y (some nid), rng)

/-- `killAt(x, y)`. -/
def killAt (w : World) (x y : Int) (rng : Rng) : World × Rng :=
  match gget w.grid x y with
  | some id =>
    if (w.getE id).type ≠ .deadMatter then
      let half := (w.getE id).energy * 0.5
      let (did, w, rng) := mkEntity w .deadMatter x y none rng
      let w := heapMod w did (fun d => { d with energy := half })
      (placeAt w x y (some did), rng)
    else (placeAt w x y none, rng)
  | none => (placeAt w x y none, rng)

/-! ## Population -/

/-- `initGrid()`: a fresh empty grid, generation and clocks reset.
Clearing the grid drops every existing object reference, so the heap is
collected as well. -/
def initGrid (w : World) : World :=
  let w := { w with
    grid := List.replicate w.gridSize (List.replicate w.gridSize none),
    heap := [] }
  let w := { w with generation := 0, timeOfDay := 0, seasonTimer := 0,
                    currentSeason := .spring }
  updateStats w

/-- The seed-position `do … while` retry loop of `populate()`.  The loop
re-rolls while the cell is water, or is mountain with fewer than 50
attempts (the `&&` binds tighter than the `||`, as in the source); the
model stops retrying when the random stream is exhausted. -/
def pickSeedPos (w : World) (attempts : Nat) : Rng → (Int × Int) × Rng
  | [] => ((0, 0), [])
  | [r1] =>
    ((JQ.floor (r1 * JQ.ofNatQ w.gridSize), 0), [])
  | r1 :: r2 :: rest =>
    let x := JQ.floor (r1 * JQ.ofNatQ w.gridSize)
    let y := JQ.floor (r2 * JQ.ofNatQ w.gridSize)
    let a := attempts + 1
    if (tget w x y).type = .water ∨ ((tget w x y).type = .mountain ∧ a < 50) then
      pickSeedPos w a rest
    else ((x, y), rest)

def seedTypes : List EntityType :=
  [.plant, .plant, .plant, .herbivore, .carnivore, .decomposer, .omnivore]

/-- One cell of a seeded colony. -/
def colonyCell (msqrt : JQ → JQ) (sx sy : Int) (t : EntityType) (radius : Int)
    (dy : Int) (acc : World × Rng) (dx : Int) : World × Rng :=
  let (w, rng) := acc
  let x := sx + dx
  let y := sy + dy
  if ¬ inBounds w x y then (w, rng)
  else if (tget w x y).type = .water then (w, rng)
  else if (tget w x y).type = .mountain then (w, rng)
  else if (gget w.grid x y).isSome then (w, rng)
  else
    let dist := msqrt (JQ.ofInt (dx * dx + dy * dy))
    let prob := JQ.jmax 0 (1 - dist / JQ.ofInt radius) * 0.5
    let (r, rng) := rand rng
    if r < prob then
      let (nid, w, rng) := mkEntity w t x y none rng
      (placeAt w x y (some nid), rng)
    else (w, rng)

/-- Grow one colony around a seed. -/
def growColony (msqrt : JQ → JQ) (w : World) (sx sy : Int) (t : EntityType)
    (rng : Rng) : World × Rng :=
  let (rr, rng) := rand rng
  let radius : Int := 4 + JQ.floor (rr * 6)
  (rangeInt (-radius) radius).foldl (fun (acc : World × Rng) dy =>
    (rangeInt (-radius) radius).foldl (colonyCell msqrt sx sy t radius dy) acc)
    (w, rng)

/-- The density-driven scatter pass of `populate()`: each `else if` draws
a fresh random number. -/
def scatterCell (w : World) (x y : Int) (rng : Rng) : World × Rng :=
  if (gget w.grid x y).isSome then (w, rng)
  else if (tget w x y).type = .water then (w, rng)
  else if (tget w x y).type = .mountain then (w, rng)
  else
    let fertility := (tget w x y).fertility
    let spawn := fun (w : World) (t : EntityType) (rng : Rng) =>
      let (nid, w, rng) := mkEntity w t x y none rng
      (placeAt w x y (some nid), rng)
    let (r1, rng) := rand rng
    if r1 < w.densities.plants * fertility * 0.5 then spawn w .plant rng
    else
      let (r2, rng) := rand rng
      if r2 < w.densities.herbivores * 0.3 then spawn w .herbivore rng
      else
        let (r3, rng) := rand rng
        if r3 < w.densities.carnivores * 0.2 then spawn w .carnivore rng
        else
          let (r4, rng) := rand rng
          if r4 < w.densities.decomposers * 0.3 then spawn w .decomposer rng
          else
            let (r5, rng) := rand rng
            if r5 < w.densities.omnivores * 0.2 then spawn w .omnivore rng
            else
              let (r6, rng) := rand rng
              if r6 < w.densities.apexPredators * 0.1 then
                spawn w .apexPredator rng
              else
                let (r7, rng) := rand rng
                if r7 < w.densities.parasites * 0.1 then spawn w .parasite rng
                else (w, rng)

/-- `populate()`: clear the grid, reset the id counter, seed colonies,
grow them, scatter extra entities, recount. -/
def populate (msqrt : JQ → JQ) (w : World) (rng : Rng) : World × Rng :=
  let w := initGrid w
  let w := setNextId w 1
  let (rn, rng) := rand rng
  let numSeeds := (6 + JQ.floor (rn * 4)).toNat
  let (seeds, rng) := (List.range numSeeds).foldl
    (fun (acc : List (Int × Int × EntityType) × Rng) _ =>
      let (seeds, rng) := acc
      let ((x, y), rng) := pickSeedPos w 0 rng
      let (rt, rng) := rand rng
      (seeds ++ [(x, y, seedTypes.getD (pickIdx seedTypes.length rt) .plant)], rng))
    ([], rng)
  let (w, rng) := seeds.foldl (fun (acc : World × Rng) seed =>
    let (w, rng) := acc
    let (sx, sy, t) := seed
    growColony msqrt w sx sy t rng) (w, rng)
  let (w, rng) := (List.range w.gridSize).foldl (fun (acc : World × Rng) yy =>
    (List.range w.gridSize).foldl (fun (acc : World × Rng) xx =>
      let (w, rng) := acc
      scatterCell w (xx : Int) (yy : Int) rng) acc) (w, rng)
  (updateStats w, rng)

/-! ## Serialization (`saveState` / `loadState`)

`loadState` takes the result of `JSON.parse` on the input string:
`none` models a string that is not valid JSON (the parse throws before
any state is touched).  Missing fields of a parsed object are `Option`
values where the loader guards them (`x || d`); the `settings` field is
re-serialized through `JSON.parse(JSON.stringify(…))`, which throws when
it is absent — after the scalar fields have already been overwritten. -/

structure SavedTerrain where
  type : TerrainType
  fertility : JQ
  moisture : JQ
deriving DecidableEq, Repr

structure SavedEntity where
  type : EntityType
  x : Int
  y : Int
  energy : JQ
  age : JQ
  maxAge : JQ
  lifeStage : LifeStage
  genetics : Genetics
  isInfected : Bool
  diseaseTimer : JQ
  isImmune : Bool
  generation : Nat
  offspring : Nat
  kills : Nat
  foodEaten : Nat
deriving DecidableEq, Repr

structure SaveBlob where
  version : Int
  generation : Nat
  gridSize : Nat
  atmosphere : Atmos
  timeOfDay : Option JQ
  currentSeason : Option Season
  seasonTimer : Option Nat
  weather : Option Weather
  weatherTimer : Option JQ
  densities : Densities
  settings : Option Settings
  terrain : List (List SavedTerrain)
  entities : List SavedEntity
deriving DecidableEq, Repr

def entityBlob (e : Entity) : SavedEntity :=
  { type := e.type, x := e.x, y := e.y, energy := e.energy, age := e.age,
    maxAge := e.maxAge, lifeStage := e.lifeStage, genetics := e.genetics,
    isInfected := e.isInfected, diseaseTimer := e.diseaseTimer,
    isImmune := e.isImmune, generation := e.generation,
    offspring := e.offspring, kills := e.kills, foodEaten := e.foodEaten }

def saveTerrain (w : World) : List (List SavedTerrain) :=
  (List.range w.gridSize).map (fun yy =>
    (List.range w.gridSize).map (fun xx =>
      let t := tget w (xx : Int) (yy : Int)
      (⟨t.type, t.fertility, t.moisture⟩ : SavedTerrain)))

def saveEntities (w : World) : List SavedEntity :=
  (List.range w.gridSize).flatMap (fun (yy : Nat) =>
    (List.range w.gridSize).filterMap (fun (xx : Nat) =>
      (gget w.grid (xx : Int) (yy : Int)).map (fun id => entityBlob (w.getE id))))

/-- `saveState()`, as the parsed object it serializes. -/
def saveStateBlob (w : World) : SaveBlob :=
  { version := 2, generation := w.generation, gridSize := w.gridSize,
    atmosphere := w.atmosphere, timeOfDay := some w.timeOfDay,
    currentSeason := some w.currentSeason, seasonTimer := some w.seasonTimer,
    weather := some w.weather, weatherTimer := some w.weatherTimer,
    densities := w.densities, settings := some w.settings,
    terrain := saveTerrain w, entities := saveEntities w }

/-- JS `x || d` for an optional number. -/
def jsOrQ (o : Option JQ) (d : JQ) : JQ :=
  match o with
  | some v => if v = 0 then d else v
  | none => d

def tset (w : World) (x y : Int) (c : TerrainCell) : World :=
  tmod w x y (fun _ => c)

/-- One cell of the terrain-restoring loop of `loadState`. -/
def terrCell (terr : List (List SavedTerrain)) (yy : Nat) (w : World)
    (xx : Nat) : World :=
  match (terr.getD yy []).get? xx with
  | some t =>
    tset w (xx : Int) (yy : Int)
      { mkTerrainCell t.type with fertility := t.fertility,
                                  moisture := t.moisture }
  | none => w

/-- One row of the terrain-restoring loop of `loadState`. -/
def terrRow (terr : List (List SavedTerrain)) (w : World) (yy : Nat) : World :=
  (List.range w.gridSize).foldl (terrCell terr yy) w

/-- The terrain-restoring loop of `loadState`. -/
def loadTerrain (terr : List (List SavedTerrain)) (w : World) : World :=
  (List.range w.gridSize).foldl (terrRow terr) w

/-- The field-by-field overwrite of a freshly constructed entity from its
saved record. -/
def loadPatch (e : SavedEntity) (en : Entity) : Entity :=
  { en with energy := e.energy, age := e.age, maxAge := e.maxAge,
            lifeStage := e.lifeStage, genetics := e.genetics,
            isInfected := e.isInfected, diseaseTimer := e.diseaseTimer,
            isImmune := e.isImmune, generation := e.generation,
            offspring := e.offspring, kills := e.kills,
            foodEaten := e.foodEaten }

/-- The entity-loading loop.  Each saved entity is rebuilt with a fresh
constructor (fresh random genetics, then overwritten field by field); a
row index outside the grid is a TypeError that aborts the load with the
state mutated so far. -/
def loadEntitiesGo : World → Rng → List SavedEntity → World × Bool × Rng
  | w, rng, [] => (w, true, rng)
  | w, rng, e :: rest =>
    let (nid, w, rng) := mkEntity w e.type e.x e.y none rng
    let (_, rng) := Genetics.fresh rng
    let w := heapMod w nid (loadPatch e)
    if 0 ≤ e.y ∧ e.y < (w.gridSize : Int) then
      loadEntitiesGo (placeAt w e.x e.y (some nid)) rng rest
    else (w, false, rng)

/-- The tail of `loadState` once the settings key has parsed: clear the
grid, restore the terrain, reload the entities, recount the populations. -/
def loadFinish (w : World) (terr : List (List SavedTerrain))
    (es : List SavedEntity) (rng : Rng) : World × Bool × Rng :=
  let w := initGrid w
  let w := loadTerrain terr w
  let (w, ok, rng) := loadEntitiesGo w rng es
  if ok then (updateStats w, true, rng) else (w, false, rng)

/-- `loadState(jsonString)`.  Returns the (possibly partially mutated)
world and the success flag. -/
def loadState (w : World) (input : Option SaveBlob) (rng : Rng) :
    World × Bool × Rng :=
  match input with
  | none => (w, false, rng)
  | some s =>
    let w := { w with generation := s.generation, gridSize := s.gridSize,
                      atmosphere := s.atmosphere,
                      timeOfDay := jsOrQ s.timeOfDay 0,
                      currentSeason := s.currentSeason.getD .spring,
                      seasonTimer := (s.seasonTimer.getD 0),
                      weather := s.weather.getD .clear,
                      weatherTimer := jsOrQ s.weatherTimer 50,
                      densities := s.densities }
    match s.settings with
    | none => (w, false, rng)
    | some st => loadFinish { w with settings := st } s.terrain s.entities rng

/-! ## Concrete worlds for witnesses and counterexamples

`Wbase` carries the constructor defaults of `EcosystemWorld` for every
field that `loadState` does not overwrite (day length, season length,
disaster manager, id counter, …), with a small 3×3 board; the concrete
states used below are then produced through `loadState` itself, i.e. by
feeding the program a save file, so they are states the program accepts. -/

def Wbase : World :=
  { gridSize := 3,
    grid := List.replicate 3 (List.replicate 3 none),
    heap := [], nextId := 1,
    terrain := List.replicate 3 (List.replicate 3 (mkTerrainCell .normal)),
    generation := 0, dayLength := 100, timeOfDay := 0, isNight := false,
    seasonLength := 500, currentSeason := .spring, seasonTimer := 0,
    weather := .clear, weatherTimer := 0, temperature := 0.5,
    atmosphere := { o2 := 50, co2 := 50, sunlight := 5 },
    populations := zeroPops,
    densities := { plants := 0.12, herbivores := 0.04, carnivores := 0.02,
                   decomposers := 0.02, omnivores := 0.01,
                   apexPredators := 0.005, parasites := 0.005 },
    settings := defaultSettings,
    history := { maxLength := 500, entries := [] },
    disasters := { activeDisasters := [], disasterChance := 0.001, cooldown := 0 },
    eventLog := [] }

/-- A trivial interpretation of `Math.sqrt` for runs that never reach a
square-root call (no ranged targets exist in them). -/
def msqrt0 : JQ → JQ := fun _ => 0

/-- A trivial interpretation of `Math.log` for runs that never record
history. -/
def mlog0 : JQ → JQ := fun _ => 0

/-! ## The grid-consistency invariant

`CC w` is the invariant of the spec's data model: every non-null grid
cell holds (the id of) an entity whose stored coordinates equal the
cell's coordinates.  Since an entity stores a single coordinate pair,
this also means no entity object is referenced from two different cells.
`heapBound` says allocated ids are below the id counter, which is what
makes fresh allocations fresh. -/

def CC (w : World) : Prop :=
  ∀ x y id, gget w.grid x y = some id →
    ∃ e, hget w.heap id = some e ∧ e.x = x ∧ e.y = y

def heapBound (w : World) : Prop := ∀ p ∈ w.heap, p.1 < w.nextId

def WF (w : World) : Prop := heapBound w ∧ CC w

/-- The entity `id` (if allocated) is stored at coordinates `(x, y)`;
maintained about the processed entity up to its movement phase. -/
def selfAt (w : World) (id : Nat) (x y : Int) : Prop :=
  ∃ e, hget w.heap id = some e ∧ e.x = x ∧ e.y = y

/-! ### List-level lemmas about the primitives -/

theorem gget_gset_ne (g : List (List (Option Nat))) (x y x' y' : Int)
    (v : Option Nat) (h : ¬(x' = x ∧ y' = y)) :
    gget (gset g x y v) x' y' = gget g x' y' := by
  unfold gget gset
  by_cases hset : 0 ≤ x ∧ 0 ≤ y
  · rw [if_pos hset]
    by_cases hread : 0 ≤ x' ∧ 0 ≤ y'
    · simp only [if_pos hread, List.getD_eq_getElem?_getD]
      by_cases hy : y'.toNat = y.toNat
      · have hyy : y' = y := by omega
        have hx : x.toNat ≠ x'.toNat := by
          have : ¬ x' = x := fun hc => h ⟨hc, hyy⟩
          omega
        rw [hy, List.getElem?_set, if_pos rfl]
        by_cases hlen : y.toNat < g.length
        · rw [if_pos hlen]
          simp only [Option.getD_some]
          rw [List.getElem?_set_ne hx]
        · rw [if_neg hlen]
          simp only [Option.getD_none]
          rw [List.getElem?_eq_none (l := g) (by omega)]
          rfl
      · rw [List.getElem?_set_ne (fun hc => hy hc.symm)]
    · simp only [if_neg hread]
  · rw [if_neg hset]

theorem gget_gset_clear (g : List (List (Option Nat))) (x y : Int) :
    gget (gset g x y none) x y = none := by
  unfold gget gset
  by_cases hset : 0 ≤ x ∧ 0 ≤ y
  · simp only [if_pos hset, List.getD_eq_getElem?_getD]
    rw [List.getElem?_set, if_pos rfl]
    by_cases hlen : y.toNat < g.length
    · rw [if_pos hlen]
      simp only [Option.getD_some]
      rw [List.getElem?_set, if_pos rfl]
      split <;> simp
    · rw [if_neg hlen]
      rfl
  · rw [if_neg hset]

theorem gget_gset_self_or (g : List (List (Option Nat))) (x y : Int)
    (v : Option Nat) :
    gget (gset g x y v) x y = v ∨ gget (gset g x y v) x y = gget g x y := by
  unfold gget gset
  by_cases hset : 0 ≤ x ∧ 0 ≤ y
  · simp only [if_pos hset, List.getD_eq_getElem?_getD]
    rw [List.getElem?_set, if_pos rfl]
    by_cases hlen : y.toNat < g.length
    · rw [if_pos hlen]
      simp only [Option.getD_some]
      rw [List.getElem?_set, if_pos rfl]
      by_cases hx : x.toNat < (g.getD y.toNat ([] : List (Option Nat))).length
      · left
        rw [List.getD_eq_getElem?_getD] at hx
        rw [if_pos hx]
        rfl
      · right
        rw [List.getD_eq_getElem?_getD] at hx
        rw [if_neg hx, List.getElem?_eq_none (by omega)]
    · right
      rw [if_neg hlen]
      simp only [Option.getD_none]
      rw [List.getElem?_eq_none (l := g) (by omega)]
      rfl
  · right; simp only [if_neg hset]

theorem hget_cons_self (n : Nat) (e : Entity) (t : List (Nat × Entity)) :
    hget ((n, e) :: t) n = some e := by
  simp [hget, List.find?]

theorem hget_cons_ne (n i : Nat) (e : Entity) (t : List (Nat × Entity))
    (h : i ≠ n) : hget ((n, e) :: t) i = hget t i := by
  simp only [hget, List.find?]
  rw [show ((n, e).1 == i) = false from by simpa using fun hc => h hc.symm]

theorem hget_cons_self_pair (p : Nat × Entity) (t : List (Nat × Entity)) :
    hget (p :: t) p.1 = some p.2 := by
  simp [hget, List.find?]

theorem hget_hmod (h : List (Nat × Entity)) (id i : Nat) (f : Entity → Entity) :
    hget (hmod h id f) i =
      if i = id then (hget h id).map f else hget h i := by
  induction h with
  | nil =>
    simp only [hmod, hget, List.find?, Option.map_none]
    split <;> rfl
  | cons p t ih =>
    obtain ⟨n, e⟩ := p
    simp only [hmod]
    by_cases hp : n = id
    · subst hp
      rw [if_pos rfl]
      by_cases hi : i = n
      · subst hi
        rw [hget_cons_self, hget_cons_self, if_pos rfl]
        rfl
      · rw [hget_cons_ne _ _ _ _ hi, hget_cons_ne _ _ _ _ hi, if_neg hi]
    · rw [if_neg (by simpa using hp)]
      by_cases hi : i = n
      · subst hi
        rw [hget_cons_self, hget_cons_self, if_neg (by omega)]
      · rw [hget_cons_ne _ _ _ _ hi, hget_cons_ne _ _ _ _ hi]
        by_cases hid : i = id
        · subst hid
          rw [if_pos rfl, ih, if_pos rfl, hget_cons_ne _ _ _ _ hi]
        · rw [if_neg hid, ih, if_neg hid]

theorem hmod_fst (h : List (Nat × Entity)) (id : Nat) (f : Entity → Entity) :
    (hmod h id f).map Prod.fst = h.map Prod.fst := by
  induction h with
  | nil => rfl
  | cons p t ih =>
    simp only [hmod]
    split
    · rename_i hp
      simp [List.map, hp]
    · simp [List.map, ih]

theorem hget_mem (h : List (Nat × Entity)) (i : Nat) (e : Entity)
    (hh : hget h i = some e) : (i, e) ∈ h := by
  unfold hget at hh
  obtain ⟨p, hmem, hpe⟩ := Option.map_eq_some'.mp hh
  have hbeq := List.find?_some hmem
  have hm := List.mem_of_find?_eq_some hmem
  have : p.1 = i := by simpa using hbeq
  have : p = (i, e) := by
    cases p
    simp_all
  rw [← this]
  exact hm

/-! ### Atomic preservation lemmas -/

theorem WF_of_parts {w w' : World} (hg : w'.grid = w.grid)
    (hh : w'.heap = w.heap) (hn : w'.nextId = w.nextId) (hw : WF w) : WF w' := by
  obtain ⟨hb, hc⟩ := hw
  constructor
  · intro p hp
    rw [hh] at hp
    rw [hn]
    exact hb p hp
  · intro x y id hcell
    rw [hg] at hcell
    rw [hh]
    exact hc x y id hcell

theorem selfAt_of_heap_eq {w w' : World} (hh : w'.heap = w.heap) {id : Nat}
    {x y : Int} (hs : selfAt w id x y) : selfAt w' id x y := by
  unfold selfAt at *
  rw [hh]
  exact hs

theorem WF_heapMod {w : World} {id : Nat} {f : Entity → Entity}
    (hf : ∀ e, (f e).x = e.x ∧ (f e).y = e.y) (hw : WF w) :
    WF (heapMod w id f) := by
  obtain ⟨hb, hc⟩ := hw
  constructor
  · intro p hp
    have h1 : p.1 ∈ (hmod w.heap id f).map Prod.fst := List.mem_map_of_mem _ hp
    rw [hmod_fst] at h1
    obtain ⟨q, hq, hq1⟩ := List.mem_map.mp h1
    have := hb q hq
    show p.1 < w.nextId
    omega
  · intro x y i hcell
    obtain ⟨e, he, hex, hey⟩ := hc x y i hcell
    by_cases hi : i = id
    · subst hi
      refine ⟨f e, ?_, ?_, ?_⟩
      · show hget (hmod w.heap i f) i = some (f e)
        rw [hget_hmod, if_pos rfl, he]
        rfl
      · rw [(hf e).1, hex]
      · rw [(hf e).2, hey]
    · refine ⟨e, ?_, hex, hey⟩
      show hget (hmod w.heap id f) i = some e
      rw [hget_hmod, if_neg hi]
      exact he

theorem selfAt_heapMod {w : World} {id tid : Nat} {f : Entity → Entity}
    {x y : Int} (hf : ∀ e, (f e).x = e.x ∧ (f e).y = e.y)
    (hs : selfAt w id x y) : selfAt (heapMod w tid f) id x y := by
  obtain ⟨e, he, hex, hey⟩ := hs
  by_cases hi : id = tid
  · subst hi
    refine ⟨f e, ?_, ?_, ?_⟩
    · show hget (hmod w.heap id f) id = some (f e)
      rw [hget_hmod, if_pos rfl, he]
      rfl
    · rw [(hf e).1, hex]
    · rw [(hf e).2, hey]
  · refine ⟨e, ?_, hex, hey⟩
    show hget (hmod w.heap tid f) id = some e
    rw [hget_hmod, if_neg hi]
    exact he

theorem mkEntity_grid (w : World) (t : EntityType) (x y : Int)
    (p : Option (Nat × Nat)) (rng : Rng) :
    ((mkEntity w t x y p rng).2.1).grid = w.grid := by
  cases p <;> rfl

theorem mkEntity_nextId (w : World) (t : EntityType) (x y : Int)
    (p : Option (Nat × Nat)) (rng : Rng) :
    ((mkEntity w t x y p rng).2.1).nextId = w.nextId + 1 := by
  cases p <;> rfl

theorem mkEntity_id (w : World) (t : EntityType) (x y : Int)
    (p : Option (Nat × Nat)) (rng : Rng) :
    (mkEntity w t x y p rng).1 = w.nextId := by
  cases p <;> rfl

theorem mkEntity_heap_shape (w : World) (t : EntityType) (x y : Int)
    (p : Option (Nat × Nat)) (rng : Rng) :
    ∃ e : Entity, ((mkEntity w t x y p rng).2.1).heap = (w.nextId, e) :: w.heap ∧
      e.x = x ∧ e.y = y ∧ e.type = t := by
  cases p with
  | none => exact ⟨_, rfl, rfl, rfl, rfl⟩
  | some q => exact ⟨_, rfl, rfl, rfl, rfl⟩

theorem WF_mkEntity {w : World} (t : EntityType) (x y : Int)
    (p : Option (Nat × Nat)) (rng : Rng) (hw : WF w) :
    WF (mkEntity w t x y p rng).2.1 := by
  obtain ⟨e, hh, hex, hey, _⟩ := mkEntity_heap_shape w t x y p rng
  obtain ⟨hb, hc⟩ := hw
  constructor
  · intro q hq
    rw [hh] at hq
    rw [mkEntity_nextId]
    rcases List.mem_cons.mp hq with hq1 | hq2
    · rw [hq1]
      omega
    · have := hb q hq2
      omega
  · intro x' y' i hcell
    rw [mkEntity_grid] at hcell
    obtain ⟨e', he', hex', hey'⟩ := hc x' y' i hcell
    refine ⟨e', ?_, hex', hey'⟩
    rw [hh]
    have hne : i ≠ w.nextId := by
      have := hb _ (hget_mem _ _ _ he')
      omega
    rw [hget_cons_ne _ _ _ _ hne]
    exact he'

theorem selfAt_mkEntity {w : World} {id : Nat} {x y : Int} (t : EntityType)
    (x' y' : Int) (p : Option (Nat × Nat)) (rng : Rng) (hw : WF w)
    (hs : selfAt w id x y) : selfAt (mkEntity w t x' y' p rng).2.1 id x y := by
  obtain ⟨e0, hh, _, _, _⟩ := mkEntity_heap_shape w t x' y' p rng
  obtain ⟨e, he, hex, hey⟩ := hs
  refine ⟨e, ?_, hex, hey⟩
  rw [hh]
  have hne : id ≠ w.nextId := by
    have := hw.1 _ (hget_mem _ _ _ he)
    omega
  rw [hget_cons_ne _ _ _ _ hne]
  exact he

theorem mkEntity_selfAt (w : World) (t : EntityType) (x y : Int)
    (p : Option (Nat × Nat)) (rng : Rng) :
    selfAt (mkEntity w t x y p rng).2.1 (mkEntity w t x y p rng).1 x y := by
  obtain ⟨e, hh, hex, hey, _⟩ := mkEntity_heap_shape w t x y p rng
  refine ⟨e, ?_, hex, hey⟩
  rw [mkEntity_id, hh]
  exact hget_cons_self _ _ _

theorem WF_placeAt_some {w : World} {id : Nat} {x y : Int}
    (hs : selfAt w id x y) (hw : WF w) : WF (placeAt w x y (some id)) := by
  obtain ⟨hb, hc⟩ := hw
  constructor
  · intro p hp
    exact hb p hp
  · intro x' y' i hcell
    have hcell' : gget (gset w.grid x y (some id)) x' y' = some i := hcell
    by_cases hxy : x' = x ∧ y' = y
    · obtain ⟨hx', hy'⟩ := hxy
      subst hx'; subst hy'
      rcases gget_gset_self_or w.grid x' y' (some id) with hb2 | hb2
      · rw [hcell'] at hb2
        obtain rfl : i = id := by injection hb2
        exact hs
      · rw [hb2] at hcell'
        exact hc x' y' i hcell'
    · rw [gget_gset_ne _ _ _ _ _ _ hxy] at hcell'
      exact hc x' y' i hcell'

theorem WF_placeAt_none {w : World} {x y : Int} (hw : WF w) :
    WF (placeAt w x y none) := by
  obtain ⟨hb, hc⟩ := hw
  constructor
  · intro p hp
    exact hb p hp
  · intro x' y' i hcell
    have hcell' : gget (gset w.grid x y none) x' y' = some i := hcell
    by_cases hxy : x' = x ∧ y' = y
    · obtain ⟨hx', hy'⟩ := hxy
      subst hx'; subst hy'
      rw [gget_gset_clear] at hcell'
      exact absurd hcell' (by simp)
    · rw [gget_gset_ne _ _ _ _ _ _ hxy] at hcell'
      exact hc x' y' i hcell'

theorem selfAt_placeAt {w : World} {id : Nat} {x y tx ty : Int}
    {v : Option Nat} (hs : selfAt w id x y) :
    selfAt (placeAt w tx ty v) id x y :=
  selfAt_of_heap_eq rfl hs

theorem WF_moveEntityOp {w : World} {id : Nat} {x1 y1 x2 y2 : Int}
    (hs : selfAt w id x1 y1) (hw : WF w) :
    WF (moveEntityOp w id x1 y1 x2 y2) := by
  obtain ⟨e, he, hex, hey⟩ := hs
  obtain ⟨hb, hc⟩ := hw
  constructor
  · intro p hp
    have h1 : p.1 ∈ (hmod ((placeAt (placeAt w x1 y1 none) x2 y2 (some id)).heap)
        id _).map Prod.fst := List.mem_map_of_mem _ hp
    rw [hmod_fst] at h1
    obtain ⟨q, hq, hq1⟩ := List.mem_map.mp h1
    have := hb q hq
    show p.1 < w.nextId
    omega
  · intro x' y' i hcell
    have hcell' : gget (gset (gset w.grid x1 y1 none) x2 y2 (some id)) x' y' =
        some i := hcell
    have hgoal : ∀ e', hget (hmod w.heap id
        (fun e => { e with x := x2, y := y2 })) i = some e' → e'.x = x' → e'.y = y' →
        ∃ e'', hget (moveEntityOp w id x1 y1 x2 y2).heap i = some e'' ∧
          e''.x = x' ∧ e''.y = y' := fun e' h1 h2 h3 => ⟨e', h1, h2, h3⟩
    by_cases h2 : x' = x2 ∧ y' = y2
    · obtain ⟨hx', hy'⟩ := h2
      subst hx'; subst hy'
      rcases gget_gset_self_or (gset w.grid x1 y1 none) x' y' (some id) with hb2 | hb2
      · rw [hcell'] at hb2
        obtain rfl : i = id := by injection hb2
        refine hgoal { e with x := x', y := y' } ?_ rfl rfl
        rw [hget_hmod, if_pos rfl, he]
        rfl
      · rw [hb2] at hcell'
        by_cases h1 : x' = x1 ∧ y' = y1
        · obtain ⟨ha, hb3⟩ := h1
          rw [ha, hb3, gget_gset_clear] at hcell'
          exact absurd hcell' (by simp)
        · rw [gget_gset_ne _ _ _ _ _ _ h1] at hcell'
          obtain ⟨e', he', hex', hey'⟩ := hc x' y' i hcell'
          have hine : i ≠ id := by
            intro hi
            subst hi
            rw [he] at he'
            obtain rfl : e' = e := by injection he' with h; exact h.symm
            exact h1 ⟨by omega, by omega⟩
          refine hgoal e' ?_ hex' hey'
          rw [hget_hmod, if_neg hine]
          exact he'
    · rw [gget_gset_ne _ _ _ _ _ _ h2] at hcell'
      by_cases h1 : x' = x1 ∧ y' = y1
      · obtain ⟨hx', hy'⟩ := h1
        subst hx'; subst hy'
        rw [gget_gset_clear] at hcell'
        exact absurd hcell' (by simp)
      · rw [gget_gset_ne _ _ _ _ _ _ h1] at hcell'
        obtain ⟨e', he', hex', hey'⟩ := hc x' y' i hcell'
        have hine : i ≠ id := by
          intro hi
          subst hi
          rw [he] at he'
          obtain rfl : e' = e := by injection he' with h; exact h.symm
          exact h1 ⟨by omega, by omega⟩
        refine hgoal e' ?_ hex' hey'
        rw [hget_hmod, if_neg hine]
        exact he'

theorem selfAt_tmod {w : World} {id : Nat} {x y tx ty : Int}
    {f : TerrainCell → TerrainCell} (hs : selfAt w id x y) :
    selfAt (tmod w tx ty f) id x y := by
  obtain ⟨e, he, hex, hey⟩ := hs
  refine ⟨e, ?_, hex, hey⟩
  show hget (tmod w tx ty f).heap id = some e
  unfold tmod
  split <;> exact he

theorem tmod_frames (w : World) (x y : Int) (f : TerrainCell → TerrainCell) :
    (tmod w x y f).grid = w.grid ∧ (tmod w x y f).heap = w.heap ∧
      (tmod w x y f).nextId = w.nextId := by
  unfold tmod
  split <;> exact ⟨rfl, rfl, rfl⟩

theorem WF_tmod {w : World} {x y : Int} {f : TerrainCell → TerrainCell}
    (hw : WF w) : WF (tmod w x y f) :=
  WF_of_parts (tmod_frames w x y f).1 (tmod_frames w x y f).2.1
    (tmod_frames w x y f).2.2 hw

theorem foldl_pres {α β : Type _} (P : β → Prop) (f : β → α → β)
    (h : ∀ b a, P b → P (f b a)) :
    ∀ (l : List α) (b : β), P b → P (l.foldl f b) := by
  intro l
  induction l with
  | nil => intro b hb; exact hb
  | cons a t ih => intro b hb; exact ih _ (h b a hb)

/-! ### Setter lemmas -/

theorem WF_setAtmos {w : World} {a : Atmos} (hw : WF w) : WF (setAtmos w a) :=
  WF_of_parts rfl rfl rfl hw

theorem WF_setWeatherState {w : World} {wt : Weather} {t : JQ} (hw : WF w) :
    WF (setWeatherState w wt t) := WF_of_parts rfl rfl rfl hw

theorem WF_setTimeOfDay {w : World} {v : JQ} (hw : WF w) :
    WF (setTimeOfDay w v) := WF_of_parts rfl rfl rfl hw

theorem WF_setIsNight {w : World} {b : Bool} (hw : WF w) :
    WF (setIsNight w b) := WF_of_parts rfl rfl rfl hw

theorem WF_setSeasonState {w : World} {st : Nat} {cs : Season} (hw : WF w) :
    WF (setSeasonState w st cs) := WF_of_parts rfl rfl rfl hw

theorem WF_setTemperature {w : World} {v : JQ} (hw : WF w) :
    WF (setTemperature w v) := WF_of_parts rfl rfl rfl hw

theorem WF_setWeatherTimer {w : World} {v : JQ} (hw : WF w) :
    WF (setWeatherTimer w v) := WF_of_parts rfl rfl rfl hw

theorem WF_setDisasters {w : World} {d : DisasterState} (hw : WF w) :
    WF (setDisasters w d) := WF_of_parts rfl rfl rfl hw

theorem WF_setEventLog {w : World} {l : List EventRec} (hw : WF w) :
    WF (setEventLog w l) := WF_of_parts rfl rfl rfl hw

theorem WF_setGeneration {w : World} {g : Nat} (hw : WF w) :
    WF (setGeneration w g) := WF_of_parts rfl rfl rfl hw

theorem WF_setPops {w : World} {p : Populations} (hw : WF w) :
    WF (setPops w p) := WF_of_parts rfl rfl rfl hw

theorem WF_setHistory {w : World} {h : HistoryState} (hw : WF w) :
    WF (setHistory w h) := WF_of_parts rfl rfl rfl hw

theorem WF_updateStats {w : World} (hw : WF w) : WF (updateStats w) :=
  WF_setPops hw

theorem selfAt_setAtmos {w : World} {a : Atmos} {id : Nat} {x y : Int}
    (hs : selfAt w id x y) : selfAt (setAtmos w a) id x y :=
  selfAt_of_heap_eq rfl hs

/-! ### Pattern lemmas for allocation-and-place -/

theorem WF_parts {w : World} (hw : WF w) {w' : World} (hg : w'.grid = w.grid)
    (hh : w'.heap = w.heap) (hn : w'.nextId = w.nextId) : WF w' :=
  WF_of_parts hg hh hn hw

theorem selfAt_parts {w : World} {id : Nat} {x y : Int} (hs : selfAt w id x y)
    {w' : World} (hh : w'.heap = w.heap) : selfAt w' id x y :=
  selfAt_of_heap_eq hh hs

theorem updateLifeStage_coords (e : Entity) :
    (Entity.updateLifeStage e).x = e.x ∧ (Entity.updateLifeStage e).y = e.y := by
  unfold Entity.updateLifeStage
  split
  · exact ⟨rfl, rfl⟩
  · split
    · exact ⟨rfl, rfl⟩
    · exact ⟨rfl, rfl⟩

theorem WF_spawnPlace {w : World} (t : EntityType) (x y : Int)
    (p : Option (Nat × Nat)) (rng : Rng) (hw : WF w) :
    WF (placeAt (mkEntity w t x y p rng).2.1 x y
      (some (mkEntity w t x y p rng).1)) :=
  WF_placeAt_some (mkEntity_selfAt w t x y p rng) (WF_mkEntity t x y p rng hw)

theorem WF_spawnConvert {w : World} (t : EntityType) (x y : Int)
    (p : Option (Nat × Nat)) (rng : Rng)
    {f : Entity → Entity} (hf : ∀ e, (f e).x = e.x ∧ (f e).y = e.y)
    (hw : WF w) :
    WF (placeAt (heapMod (mkEntity w t x y p rng).2.1
      (mkEntity w t x y p rng).1 f) x y (some (mkEntity w t x y p rng).1)) :=
  WF_placeAt_some (selfAt_heapMod hf (mkEntity_selfAt w t x y p rng))
    (WF_heapMod hf (WF_mkEntity t x y p rng hw))

theorem WF_convertPlace {w : World} (t : EntityType) (x y : Int)
    (p : Option (Nat × Nat)) (rng : Rng)
    {f : Entity → Entity} (hf : ∀ e, (f e).x = e.x ∧ (f e).y = e.y)
    (hw : WF w) :
    WF (heapMod (placeAt (mkEntity w t x y p rng).2.1 x y
      (some (mkEntity w t x y p rng).1)) (mkEntity w t x y p rng).1 f) :=
  WF_heapMod hf
    (WF_placeAt_some (mkEntity_selfAt w t x y p rng) (WF_mkEntity t x y p rng hw))

theorem selfAt_spawnPlace {w : World} (t : EntityType) (x y : Int)
    (p : Option (Nat × Nat)) (rng : Rng)
    {id : Nat} {ix iy : Int} (hw : WF w) (hs : selfAt w id ix iy) :
    selfAt (placeAt (mkEntity w t x y p rng).2.1 x y
      (some (mkEntity w t x y p rng).1)) id ix iy :=
  selfAt_placeAt (selfAt_mkEntity t x y p rng hw hs)

theorem selfAt_spawnConvert {w : World} (t : EntityType) (x y : Int)
    (p : Option (Nat × Nat)) (rng : Rng)
    {f : Entity → Entity} (hf : ∀ e, (f e).x = e.x ∧ (f e).y = e.y)
    {id : Nat} {ix iy : Int} (hw : WF w) (hs : selfAt w id ix iy) :
    selfAt (placeAt (heapMod (mkEntity w t x y p rng).2.1
      (mkEntity w t x y p rng).1 f) x y (some (mkEntity w t x y p rng).1))
      id ix iy :=
  selfAt_placeAt (selfAt_heapMod hf (selfAt_mkEntity t x y p rng hw hs))

/-! ### Spawn / kill / initGrid -/

theorem WF_spawnAt (w : World) (x y : Int) (t : EntityType) (rng : Rng)
    (hw : WF w) : WF (spawnAt w x y t rng).1 := by
  unfold spawnAt
  split
  · exact hw
  · split
    · exact hw
    · split
      · exact hw
      · exact WF_spawnPlace t x y none rng hw

theorem WF_killAt (w : World) (x y : Int) (rng : Rng) (hw : WF w) :
    WF (killAt w x y rng).1 := by
  unfold killAt
  split
  · split
    · exact WF_spawnConvert .deadMatter x y none rng (fun e => ⟨rfl, rfl⟩) hw
    · exact WF_placeAt_none hw
  · exact WF_placeAt_none hw

theorem gget_replicate_none (n m : Nat) (x y : Int) :
    gget (List.replicate n (List.replicate m (none : Option Nat))) x y = none := by
  unfold gget
  split
  · have hrow : (List.replicate n (List.replicate m (none : Option Nat))).getD
        y.toNat [] = List.replicate m none ∨
        (List.replicate n (List.replicate m (none : Option Nat))).getD
        y.toNat [] = [] := by
      rw [List.getD_eq_getElem?_getD, List.getElem?_replicate]
      split
      · exact Or.inl rfl
      · exact Or.inr rfl
    rcases hrow with h | h <;> rw [h]
    · rw [List.getD_eq_getElem?_getD, List.getElem?_replicate]
      split
      · rfl
      · rfl
    · rfl
  · rfl

theorem WF_initGrid (w : World) : WF (initGrid w) := by
  constructor
  · intro p hp
    exact absurd hp (List.not_mem_nil p)
  · intro x y id hcell
    rw [show (initGrid w).grid =
      List.replicate w.gridSize (List.replicate w.gridSize none) from rfl] at hcell
    rw [gget_replicate_none] at hcell
    exact absurd hcell (by simp)

/-! ### Dead matter -/

theorem WF_processDeadMatter (w : World) (id : Nat) (x y : Int) (rng : Rng)
    (hw : WF w) : WF (processDeadMatter w id x y rng).1.1 := by
  unfold processDeadMatter
  dsimp only
  split
  · refine WF_setAtmos (WF_placeAt_none (WF_tmod (WF_setAtmos
      (WF_heapMod ?_ hw))))
    exact fun e => ⟨rfl, rfl⟩
  · refine WF_tmod (WF_setAtmos (WF_heapMod ?_ hw))
    exact fun e => ⟨rfl, rfl⟩

/-! ### Plant -/

theorem WF_plantGrow (w : World) (id : Nat) (x y : Int) (cb : JQ) (hw : WF w) :
    WF (plantGrow w id x y cb) := by
  unfold plantGrow
  dsimp only
  split
  · refine WF_setAtmos (WF_setAtmos (WF_heapMod ?_ hw))
    exact fun e => ⟨rfl, rfl⟩
  · refine WF_heapMod ?_ hw
    exact fun e => ⟨rfl, rfl⟩

theorem WF_plantUpkeep (w : World) (id : Nat) (cb : JQ) (hw : WF w) :
    WF (plantUpkeep w id cb) := by
  unfold plantUpkeep
  dsimp only
  split
  · refine WF_heapMod updateLifeStage_coords
      (WF_heapMod ?_ (WF_heapMod ?_ (WF_heapMod ?_ hw)))
    all_goals exact fun e => ⟨rfl, rfl⟩
  · refine WF_heapMod updateLifeStage_coords
      (WF_heapMod ?_ (WF_heapMod ?_ hw))
    all_goals exact fun e => ⟨rfl, rfl⟩

theorem WF_plantTrail (w : World) (id : Nat) (x y : Int) (rng : Rng)
    (hw : WF w) : WF (plantTrail w id x y rng).1 := by
  unfold plantTrail
  dsimp only
  split
  · refine WF_heapMod ?_ hw
    exact fun e => ⟨rfl, rfl⟩
  · exact hw

theorem WF_plantRepro (w : World) (id : Nat) (x y : Int) (rng : Rng)
    (hw : WF w) : WF (plantRepro w id x y rng).1 := by
  unfold plantRepro
  dsimp only
  split
  · split
    · split
      · split
        · refine WF_heapMod ?_ (WF_spawnPlace _ _ _ _ _ hw)
          exact fun e => ⟨rfl, rfl⟩
        · exact hw
      · exact hw
    · exact hw
  · exact hw

theorem WF_plantDeath (w : World) (id : Nat) (x y : Int) (rng : Rng)
    (hw : WF w) : WF (plantDeath w id x y rng).1.1 := by
  unfold plantDeath
  dsimp only
  split
  · refine WF_spawnConvert .deadMatter x y none rng ?_ hw
    exact fun e => ⟨rfl, rfl⟩
  · exact hw

theorem WF_processPlant (w : World) (id : Nat) (x y : Int) (rng : Rng)
    (hw : WF w) : WF (processPlant w id x y rng).1.1 := by
  unfold processPlant
  exact WF_plantDeath _ _ _ _ _ (WF_plantRepro _ _ _ _ _
    (WF_plantTrail _ _ _ _ _ (WF_plantUpkeep _ _ _ (WF_plantGrow _ _ _ _ _ hw))))

/-! ### Joint WF-and-selfAt steps -/

theorem WS_heapMod {w : World} {tid : Nat} {f : Entity → Entity} {id : Nat}
    {x y : Int} (hf : ∀ e, (f e).x = e.x ∧ (f e).y = e.y)
    (h : WF w ∧ selfAt w id x y) :
    WF (heapMod w tid f) ∧ selfAt (heapMod w tid f) id x y :=
  ⟨WF_heapMod hf h.1, selfAt_heapMod hf h.2⟩

theorem WS_setAtmos {w : World} {a : Atmos} {id : Nat} {x y : Int}
    (h : WF w ∧ selfAt w id x y) :
    WF (setAtmos w a) ∧ selfAt (setAtmos w a) id x y :=
  ⟨WF_setAtmos h.1, selfAt_setAtmos h.2⟩

theorem WS_placeAt_none {w : World} {tx ty : Int} {id : Nat} {x y : Int}
    (h : WF w ∧ selfAt w id x y) :
    WF (placeAt w tx ty none) ∧ selfAt (placeAt w tx ty none) id x y :=
  ⟨WF_placeAt_none h.1, selfAt_placeAt h.2⟩

theorem WS_tmod {w : World} {tx ty : Int} {f : TerrainCell → TerrainCell}
    {id : Nat} {x y : Int} (h : WF w ∧ selfAt w id x y) :
    WF (tmod w tx ty f) ∧ selfAt (tmod w tx ty f) id x y :=
  ⟨WF_tmod h.1, selfAt_tmod h.2⟩

theorem WS_spawnConvert {w : World} (t : EntityType) (tx ty : Int)
    (p : Option (Nat × Nat)) (rng : Rng)
    {f : Entity → Entity} (hf : ∀ e, (f e).x = e.x ∧ (f e).y = e.y)
    {id : Nat} {x y : Int} (h : WF w ∧ selfAt w id x y) :
    WF (placeAt (heapMod (mkEntity w t tx ty p rng).2.1
        (mkEntity w t tx ty p rng).1 f) tx ty (some (mkEntity w t tx ty p rng).1)) ∧
      selfAt (placeAt (heapMod (mkEntity w t tx ty p rng).2.1
        (mkEntity w t tx ty p rng).1 f) tx ty (some (mkEntity w t tx ty p rng).1))
        id x y :=
  ⟨WF_spawnConvert t tx ty p rng hf h.1, selfAt_spawnConvert t tx ty p rng hf h.1 h.2⟩

/-! ### Disease -/

theorem WS_diseaseSpread (sid : Nat) (x y : Int) :
    ∀ (acc : World × Rng) (n : NeighborInfo),
      WF acc.1 ∧ selfAt acc.1 sid x y →
      WF (diseaseSpread acc n).1 ∧ selfAt (diseaseSpread acc n).1 sid x y := by
  intro acc n h
  unfold diseaseSpread
  dsimp only
  split
  · split
    · split
      · refine WS_heapMod ?_ h
        exact fun e => ⟨rfl, rfl⟩
      · exact h
    · exact h
  · exact h

theorem WS_processDisease (w : World) (id : Nat) (rng : Rng) (sid : Nat)
    (x y : Int) (h : WF w ∧ selfAt w sid x y) :
    WF (processDisease w id rng).1 ∧
      selfAt (processDisease w id rng).1 sid x y := by
  unfold processDisease
  dsimp only
  repeat' split
  all_goals
    first
      | exact h
      | (refine WS_heapMod ?_ h
         exact fun e => ⟨rfl, rfl⟩)
      | (refine WS_heapMod ?_ (WS_heapMod ?_ h) <;> exact fun e => ⟨rfl, rfl⟩)
      | (refine foldl_pres
          (fun (acc : World × Rng) => WF acc.1 ∧ selfAt acc.1 sid x y)
          diseaseSpread (WS_diseaseSpread sid x y) _ _ (WS_heapMod ?_ h)
         exact fun e => ⟨rfl, rfl⟩)
      | (refine WS_heapMod ?_ (foldl_pres
          (fun (acc : World × Rng) => WF acc.1 ∧ selfAt acc.1 sid x y)
          diseaseSpread (WS_diseaseSpread sid x y) _ _ (WS_heapMod ?_ h)) <;>
         exact fun e => ⟨rfl, rfl⟩)
      | (refine WS_heapMod ?_ (WS_heapMod ?_ (foldl_pres
          (fun (acc : World × Rng) => WF acc.1 ∧ selfAt acc.1 sid x y)
          diseaseSpread (WS_diseaseSpread sid x y) _ _ (WS_heapMod ?_ h))) <;>
         exact fun e => ⟨rfl, rfl⟩)
      | (refine WS_heapMod ?_ (WS_heapMod ?_ (WS_heapMod ?_ (foldl_pres
          (fun (acc : World × Rng) => WF acc.1 ∧ selfAt acc.1 sid x y)
          diseaseSpread (WS_diseaseSpread sid x y) _ _ (WS_heapMod ?_ h)))) <;>
         exact fun e => ⟨rfl, rfl⟩)

/-! ### Herbivore -/

theorem WS_herbRespire (w : World) (id : Nat) (cb : JQ) {sid : Nat}
    {sx sy : Int} (h : WF w ∧ selfAt w sid sx sy) :
    WF (herbRespire w id cb) ∧ selfAt (herbRespire w id cb) sid sx sy := by
  unfold herbRespire
  dsimp only
  split
  · exact WS_setAtmos (WS_setAtmos h)
  · refine WS_heapMod ?_ h
    exact fun e => ⟨rfl, rfl⟩

theorem WS_herbFleeCheck (msqrt : JQ → JQ) (w : World) (id : Nat) (x y : Int)
    {sid : Nat} {sx sy : Int} (h : WF w ∧ selfAt w sid sx sy) :
    WF (herbFleeCheck msqrt w id x y).1 ∧
      selfAt (herbFleeCheck msqrt w id x y).1 sid sx sy := by
  unfold herbFleeCheck
  dsimp only
  split
  · refine WS_heapMod ?_ (WS_heapMod ?_ h) <;> exact fun e => ⟨rfl, rfl⟩
  · exact h

theorem WS_herbEat (w : World) (id : Nat) (x y : Int) (rng : Rng)
    {sid : Nat} {sx sy : Int} (h : WF w ∧ selfAt w sid sx sy) :
    WF (herbEat w id x y rng).1 ∧ selfAt (herbEat w id x y rng).1 sid sx sy := by
  unfold herbEat
  dsimp only
  repeat' split
  all_goals
    first
      | exact h
      | (refine WS_placeAt_none (WS_heapMod ?_ h)
         exact fun e => ⟨rfl, rfl⟩)

theorem WF_herbMove (msqrt : JQ → JQ) (w : World) (id : Nat) (x y : Int)
    (pred apex : Option RangeHit) (rng : Rng)
    (h : WF w ∧ selfAt w id x y) :
    WF (herbMove msqrt w id x y pred apex rng).1 := by
  unfold herbMove
  dsimp only
  repeat' split
  all_goals
    first
      | exact h.1
      | (refine WF_heapMod ?_ h.1
         exact fun e => ⟨rfl, rfl⟩)
      | (refine WF_heapMod ?_ (WF_heapMod ?_ h.1) <;> exact fun e => ⟨rfl, rfl⟩)
      | (refine WF_moveEntityOp (selfAt_heapMod ?_ h.2) (WF_heapMod ?_ h.1) <;>
         exact fun e => ⟨rfl, rfl⟩)
      | (refine WF_moveEntityOp (selfAt_heapMod ?_ (selfAt_heapMod ?_ h.2))
          (WF_heapMod ?_ (WF_heapMod ?_ h.1)) <;> exact fun e => ⟨rfl, rfl⟩)
      | (refine WF_moveEntityOp
          (selfAt_heapMod ?_ (selfAt_heapMod ?_ (selfAt_heapMod ?_ h.2)))
          (WF_heapMod ?_ (WF_heapMod ?_ (WF_heapMod ?_ h.1))) <;>
         exact fun e => ⟨rfl, rfl⟩)

theorem WF_herbUpkeep (w : World) (id : Nat) (cb : JQ) (hw : WF w) :
    WF (herbUpkeep w id cb) := by
  unfold herbUpkeep
  dsimp only
  refine WF_heapMod updateLifeStage_coords
    (WF_heapMod ?_ (WF_heapMod ?_ (WF_heapMod ?_ hw)))
  all_goals exact fun e => ⟨rfl, rfl⟩

theorem WF_herbRepro (w : World) (id : Nat) (rng : Rng) (hw : WF w) :
    WF (herbRepro w id rng).1 := by
  unfold herbRepro
  dsimp only
  repeat' split
  all_goals
    first
      | exact hw
      | (refine WF_heapMod ?_ (WF_heapMod ?_ (WF_heapMod ?_ (WF_heapMod ?_
          (WF_heapMod ?_ (WF_spawnPlace _ _ _ _ _ hw))))) <;>
         exact fun e => ⟨rfl, rfl⟩)

theorem WF_herbDeath (w : World) (id : Nat) (rng : Rng) (hw : WF w) :
    WF (herbDeath w id rng).1.1 := by
  unfold herbDeath
  dsimp only
  split
  · refine WF_spawnConvert _ _ _ _ _ ?_ hw
    exact fun e => ⟨rfl, rfl⟩
  · exact hw

theorem WF_processHerbivore (msqrt : JQ → JQ) (w : World) (id : Nat)
    (x y : Int) (rng : Rng) (hw : WF w) (hs : selfAt w id x y) :
    WF (processHerbivore msqrt w id x y rng).1.1 := by
  unfold processHerbivore
  dsimp only
  exact WF_herbDeath _ _ _ (WF_herbRepro _ _ _ (WF_herbUpkeep _ _ _
    (WF_herbMove _ _ _ _ _ _ _ _ (WS_herbEat _ _ _ _ _
      (WS_herbFleeCheck _ _ _ _ _
        (WS_herbRespire _ _ _ (WS_processDisease _ _ _ _ _ _ ⟨hw, hs⟩)))))))

/-! ### Carnivore -/

theorem WS_carnRespire (w : World) (id : Nat) (pb : JQ) {sid : Nat}
    {sx sy : Int} (h : WF w ∧ selfAt w sid sx sy) :
    WF (carnRespire w id pb) ∧ selfAt (carnRespire w id pb) sid sx sy := by
  unfold carnRespire
  dsimp only
  split
  · exact WS_setAtmos (WS_setAtmos h)
  · refine WS_heapMod ?_ h
    exact fun e => ⟨rfl, rfl⟩

theorem WS_carnHuntStep (id : Nat) (x y : Int) (pb : JQ) {sid : Nat}
    {sx sy : Int} :
    ∀ (acc : World × Bool × Rng) (pt : EntityType),
      WF acc.1 ∧ selfAt acc.1 sid sx sy →
      WF (carnHuntStep id x y pb acc pt).1 ∧
        selfAt (carnHuntStep id x y pb acc pt).1 sid sx sy := by
  intro acc pt h
  unfold carnHuntStep
  dsimp only
  repeat' split
  all_goals
    first
      | exact h
      | (refine WS_spawnConvert _ _ _ _ _ ?_ (WS_heapMod ?_ h) <;>
         exact fun e => ⟨rfl, rfl⟩)

theorem WS_carnHunt (w : World) (id : Nat) (x y : Int) (pb : JQ) (rng : Rng)
    {sid : Nat} {sx sy : Int} (h : WF w ∧ selfAt w sid sx sy) :
    WF (carnHunt w id x y pb rng).1 ∧
      selfAt (carnHunt w id x y pb rng).1 sid sx sy := by
  unfold carnHunt
  dsimp only
  exact foldl_pres
    (fun (acc : World × Bool × Rng) => WF acc.1 ∧ selfAt acc.1 sid sx sy)
    (carnHuntStep id x y pb) (WS_carnHuntStep id x y pb) _ _ h

theorem WF_carnMove (msqrt : JQ → JQ) (w : World) (id : Nat) (x y : Int)
    (rng : Rng) (h : WF w ∧ selfAt w id x y) :
    WF (carnMove msqrt w id x y rng).1 := by
  unfold carnMove
  dsimp only
  repeat' split
  all_goals
    first
      | exact h.1
      | (refine WF_moveEntityOp (selfAt_heapMod ?_ h.2) (WF_heapMod ?_ h.1) <;>
         exact fun e => ⟨rfl, rfl⟩)

theorem WF_carnUpkeep (w : World) (id : Nat) (pb : JQ) (hw : WF w) :
    WF (carnUpkeep w id pb) := by
  unfold carnUpkeep
  dsimp only
  refine WF_heapMod updateLifeStage_coords
    (WF_heapMod ?_ (WF_heapMod ?_ (WF_heapMod ?_ hw)))
  all_goals exact fun e => ⟨rfl, rfl⟩

theorem WF_carnRepro (w : World) (id : Nat) (rng : Rng) (hw : WF w) :
    WF (carnRepro w id rng).1 := by
  unfold carnRepro
  dsimp only
  repeat' split
  all_goals
    first
      | exact hw
      | (refine WF_heapMod ?_ (WF_heapMod ?_ (WF_heapMod ?_ (WF_heapMod ?_
          (WF_heapMod ?_ (WF_spawnPlace _ _ _ _ _ hw))))) <;>
         exact fun e => ⟨rfl, rfl⟩)

theorem WF_carnDeath (w : World) (id : Nat) (rng : Rng) (hw : WF w) :
    WF (carnDeath w id rng).1.1 := by
  unfold carnDeath
  dsimp only
  split
  · refine WF_spawnConvert _ _ _ _ _ ?_ hw
    exact fun e => ⟨rfl, rfl⟩
  · exact hw

theorem WF_processCarnivore (msqrt : JQ → JQ) (w : World) (id : Nat)
    (x y : Int) (rng : Rng) (hw : WF w) (hs : selfAt w id x y) :
    WF (processCarnivore msqrt w id x y rng).1.1 := by
  unfold processCarnivore
  dsimp only
  exact WF_carnDeath _ _ _ (WF_carnRepro _ _ _ (WF_carnUpkeep _ _ _
    (WF_carnMove _ _ _ _ _ _ (WS_carnHunt _ _ _ _ _ _
      (WS_carnRespire _ _ _ (WS_processDisease _ _ _ _ _ _ ⟨hw, hs⟩))))))

/-! ### Omnivore -/

theorem WS_omniRespire (w : World) (id : Nat) (cb : JQ) {sid : Nat}
    {sx sy : Int} (h : WF w ∧ selfAt w sid sx sy) :
    WF (omniRespire w id cb) ∧ selfAt (omniRespire w id cb) sid sx sy := by
  unfold omniRespire
  dsimp only
  split
  · exact WS_setAtmos (WS_setAtmos h)
  · refine WS_heapMod ?_ h
    exact fun e => ⟨rfl, rfl⟩

theorem WS_omniFleeCheck (msqrt : JQ → JQ) (w : World) (id : Nat) (x y : Int)
    {sid : Nat} {sx sy : Int} (h : WF w ∧ selfAt w sid sx sy) :
    WF (omniFleeCheck msqrt w id x y).1 ∧
      selfAt (omniFleeCheck msqrt w id x y).1 sid sx sy := by
  unfold omniFleeCheck
  dsimp only
  split
  · refine WS_heapMod ?_ h
    exact fun e => ⟨rfl, rfl⟩
  · exact h

theorem WS_omniHuntPrey (w : World) (id : Nat) (prey : Option NeighborInfo)
    (rng : Rng) {sid : Nat} {sx sy : Int} (h : WF w ∧ selfAt w sid sx sy) :
    WF (omniEat.omniHuntPrey w id prey rng).1 ∧
      selfAt (omniEat.omniHuntPrey w id prey rng).1 sid sx sy := by
  unfold omniEat.omniHuntPrey
  dsimp only
  repeat' split
  all_goals
    first
      | exact h
      | (refine WS_spawnConvert _ _ _ _ _ ?_ (WS_heapMod ?_ h) <;>
         exact fun e => ⟨rfl, rfl⟩)

theorem WS_omniEatPlantOrPrey (w : World) (id : Nat)
    (plant prey : Option NeighborInfo) (rng : Rng) {sid : Nat} {sx sy : Int}
    (h : WF w ∧ selfAt w sid sx sy) :
    WF (omniEat.omniEatPlantOrPrey w id plant prey rng).1 ∧
      selfAt (omniEat.omniEatPlantOrPrey w id plant prey rng).1 sid sx sy := by
  unfold omniEat.omniEatPlantOrPrey
  dsimp only
  repeat' split
  all_goals
    first
      | exact h
      | exact WS_omniHuntPrey _ _ _ _ h
      | (refine WS_placeAt_none (WS_heapMod ?_ h)
         exact fun e => ⟨rfl, rfl⟩)

theorem WS_omniEat (w : World) (id : Nat) (x y : Int) (rng : Rng)
    {sid : Nat} {sx sy : Int} (h : WF w ∧ selfAt w sid sx sy) :
    WF (omniEat w id x y rng).1 ∧ selfAt (omniEat w id x y rng).1 sid sx sy := by
  unfold omniEat
  dsimp only
  repeat' split
  all_goals
    first
      | exact h
      | exact WS_omniEatPlantOrPrey _ _ _ _ _ h
      | (refine WS_placeAt_none (WS_heapMod ?_ h)
         exact fun e => ⟨rfl, rfl⟩)

theorem WF_omniMove (w : World) (id : Nat) (x y : Int)
    (apex : Option RangeHit) (rng : Rng) (h : WF w ∧ selfAt w id x y) :
    WF (omniMove w id x y apex rng).1 := by
  unfold omniMove
  dsimp only
  repeat' split
  all_goals
    first
      | exact h.1
      | (refine WF_heapMod ?_ h.1
         exact fun e => ⟨rfl, rfl⟩)
      | (refine WF_heapMod ?_ (WF_heapMod ?_ h.1) <;> exact fun e => ⟨rfl, rfl⟩)
      | (refine WF_moveEntityOp (selfAt_heapMod ?_ h.2) (WF_heapMod ?_ h.1) <;>
         exact fun e => ⟨rfl, rfl⟩)
      | (refine WF_moveEntityOp (selfAt_heapMod ?_ (selfAt_heapMod ?_ h.2))
          (WF_heapMod ?_ (WF_heapMod ?_ h.1)) <;> exact fun e => ⟨rfl, rfl⟩)
      | (refine WF_moveEntityOp
          (selfAt_heapMod ?_ (selfAt_heapMod ?_ (selfAt_heapMod ?_ h.2)))
          (WF_heapMod ?_ (WF_heapMod ?_ (WF_heapMod ?_ h.1))) <;>
         exact fun e => ⟨rfl, rfl⟩)

theorem WF_omniUpkeep (w : World) (id : Nat) (cb : JQ) (hw : WF w) :
    WF (omniUpkeep w id cb) := by
  unfold omniUpkeep
  dsimp only
  refine WF_heapMod updateLifeStage_coords (WF_heapMod ?_ (WF_heapMod ?_ hw))
  all_goals exact fun e => ⟨rfl, rfl⟩

theorem WF_omniRepro (w : World) (id : Nat) (rng : Rng) (hw : WF w) :
    WF (omniRepro w id rng).1 := by
  unfold omniRepro
  dsimp only
  repeat' split
  all_goals
    first
      | exact hw
      | (refine WF_heapMod ?_ (WF_heapMod ?_ (WF_heapMod ?_
          (WF_spawnPlace _ _ _ _ _ hw))) <;> exact fun e => ⟨rfl, rfl⟩)

theorem WF_omniDeath (w : World) (id : Nat) (rng : Rng) (hw : WF w) :
    WF (omniDeath w id rng).1.1 := by
  unfold omniDeath
  dsimp only
  split
  · refine WF_spawnConvert _ _ _ _ _ ?_ hw
    exact fun e => ⟨rfl, rfl⟩
  · exact hw

theorem WF_processOmnivore (msqrt : JQ → JQ) (w : World) (id : Nat)
    (x y : Int) (rng : Rng) (hw : WF w) (hs : selfAt w id x y) :
    WF (processOmnivore msqrt w id x y rng).1.1 := by
  unfold processOmnivore
  dsimp only
  exact WF_omniDeath _ _ _ (WF_omniRepro _ _ _ (WF_omniUpkeep _ _ _
    (WF_omniMove _ _ _ _ _ _ (WS_omniEat _ _ _ _ _
      (WS_omniFleeCheck _ _ _ _ _
        (WS_omniRespire _ _ _ (WS_processDisease _ _ _ _ _ _ ⟨hw, hs⟩)))))))

/-! ### Apex predator -/

theorem WS_apexRespire (w : World) (id : Nat) (pb : JQ) {sid : Nat}
    {sx sy : Int} (h : WF w ∧ selfAt w sid sx sy) :
    WF (apexRespire w id pb) ∧ selfAt (apexRespire w id pb) sid sx sy := by
  unfold apexRespire
  dsimp only
  split
  · exact WS_setAtmos (WS_setAtmos h)
  · refine WS_heapMod ?_ h
    exact fun e => ⟨rfl, rfl⟩

theorem WS_apexHuntStep (id : Nat) (x y : Int) (pb : JQ) {sid : Nat}
    {sx sy : Int} :
    ∀ (acc : World × Bool × Rng) (pt : EntityType),
      WF acc.1 ∧ selfAt acc.1 sid sx sy →
      WF (apexHuntStep id x y pb acc pt).1 ∧
        selfAt (apexHuntStep id x y pb acc pt).1 sid sx sy := by
  intro acc pt h
  unfold apexHuntStep
  dsimp only
  repeat' split
  all_goals
    first
      | exact h
      | (refine WS_spawnConvert _ _ _ _ _ ?_ (WS_heapMod ?_ h) <;>
         exact fun e => ⟨rfl, rfl⟩)

theorem WS_apexHunt (w : World) (id : Nat) (x y : Int) (pb : JQ) (rng : Rng)
    {sid : Nat} {sx sy : Int} (h : WF w ∧ selfAt w sid sx sy) :
    WF (apexHunt w id x y pb rng).1 ∧
      selfAt (apexHunt w id x y pb rng).1 sid sx sy := by
  unfold apexHunt
  dsimp only
  exact foldl_pres
    (fun (acc : World × Bool × Rng) => WF acc.1 ∧ selfAt acc.1 sid sx sy)
    (apexHuntStep id x y pb) (WS_apexHuntStep id x y pb) _ _ h

theorem WF_apexMove (msqrt : JQ → JQ) (w : World) (id : Nat) (x y : Int)
    (rng : Rng) (h : WF w ∧ selfAt w id x y) :
    WF (apexMove msqrt w id x y rng).1 := by
  unfold apexMove
  dsimp only
  repeat' split
  all_goals
    first
      | exact h.1
      | (refine WF_moveEntityOp (selfAt_heapMod ?_ h.2) (WF_heapMod ?_ h.1) <;>
         exact fun e => ⟨rfl, rfl⟩)

theorem WF_apexUpkeep (w : World) (id : Nat) (hw : WF w) :
    WF (apexUpkeep w id) := by
  unfold apexUpkeep
  dsimp only
  refine WF_heapMod updateLifeStage_coords (WF_heapMod ?_ (WF_heapMod ?_ hw))
  all_goals exact fun e => ⟨rfl, rfl⟩

theorem WF_apexRepro (w : World) (id : Nat) (rng : Rng) (hw : WF w) :
    WF (apexRepro w id rng).1 := by
  unfold apexRepro
  dsimp only
  repeat' split
  all_goals
    first
      | exact hw
      | (refine WF_heapMod ?_ (WF_heapMod ?_ (WF_heapMod ?_
          (WF_spawnPlace _ _ _ _ _ hw))) <;> exact fun e => ⟨rfl, rfl⟩)

theorem WF_apexDeath (w : World) (id : Nat) (rng : Rng) (hw : WF w) :
    WF (apexDeath w id rng).1.1 := by
  unfold apexDeath
  dsimp only
  split
  · refine WF_spawnConvert _ _ _ _ _ ?_ hw
    exact fun e => ⟨rfl, rfl⟩
  · exact hw

theorem WF_processApexPredator (msqrt : JQ → JQ) (w : World) (id : Nat)
    (x y : Int) (rng : Rng) (hw : WF w) (hs : selfAt w id x y) :
    WF (processApexPredator msqrt w id x y rng).1.1 := by
  unfold processApexPredator
  dsimp only
  exact WF_apexDeath _ _ _ (WF_apexRepro _ _ _ (WF_apexUpkeep _ _
    (WF_apexMove _ _ _ _ _ _ (WS_apexHunt _ _ _ _ _ _
      (WS_apexRespire _ _ _ (WS_processDisease _ _ _ _ _ _ ⟨hw, hs⟩))))))

/-! ### Parasite -/

theorem WS_paraRespire (w : World) {sid : Nat} {sx sy : Int}
    (h : WF w ∧ selfAt w sid sx sy) :
    WF (paraRespire w) ∧ selfAt (paraRespire w) sid sx sy := by
  unfold paraRespire
  dsimp only
  exact WS_setAtmos (WS_setAtmos h)

theorem WS_paraHostStep (id : Nat) (x y : Int) {sid : Nat} {sx sy : Int} :
    ∀ (acc : World × Bool × Rng) (ht : EntityType),
      WF acc.1 ∧ selfAt acc.1 sid sx sy →
      WF (paraHostStep id x y acc ht).1 ∧
        selfAt (paraHostStep id x y acc ht).1 sid sx sy := by
  intro acc ht h
  unfold paraHostStep
  dsimp only
  repeat' split
  all_goals
    first
      | exact h
      | (refine WS_heapMod ?_ (WS_heapMod ?_ h) <;> exact fun e => ⟨rfl, rfl⟩)

theorem WS_paraFindHost (w : World) (id : Nat) (x y : Int) (rng : Rng)
    {sid : Nat} {sx sy : Int} (h : WF w ∧ selfAt w sid sx sy) :
    WF (paraFindHost w id x y rng).1 ∧
      selfAt (paraFindHost w id x y rng).1 sid sx sy := by
  unfold paraFindHost
  dsimp only
  split
  · exact foldl_pres
      (fun (acc : World × Bool × Rng) => WF acc.1 ∧ selfAt acc.1 sid sx sy)
      (paraHostStep id x y) (WS_paraHostStep id x y) _ _ h
  · exact h

theorem WS_paraDrain (w : World) (id : Nat) (rng : Rng) {sid : Nat}
    {sx sy : Int} (h : WF w ∧ selfAt w sid sx sy) :
    WF (paraDrain w id rng).1 ∧ selfAt (paraDrain w id rng).1 sid sx sy := by
  unfold paraDrain
  dsimp only
  repeat' split
  all_goals
    first
      | exact h
      | (refine WS_heapMod ?_ h
         exact fun e => ⟨rfl, rfl⟩)
      | (refine WS_heapMod ?_ (WS_heapMod ?_ h) <;> exact fun e => ⟨rfl, rfl⟩)
      | (refine WS_heapMod ?_ (WS_heapMod ?_ (WS_heapMod ?_ h)) <;>
         exact fun e => ⟨rfl, rfl⟩)
      | (refine WS_heapMod ?_ (WS_heapMod ?_ (WS_heapMod ?_ (WS_heapMod ?_ h))) <;>
         exact fun e => ⟨rfl, rfl⟩)
      | (refine WS_heapMod ?_ (WS_heapMod ?_ (WS_heapMod ?_ (WS_heapMod ?_
          (WS_heapMod ?_ h)))) <;> exact fun e => ⟨rfl, rfl⟩)

theorem WF_paraMove (w : World) (id : Nat) (x y : Int) (rng : Rng)
    (h : WF w ∧ selfAt w id x y) : WF (paraMove w id x y rng).1 := by
  unfold paraMove
  dsimp only
  repeat' split
  all_goals
    first
      | exact h.1
      | (refine WF_moveEntityOp (selfAt_heapMod ?_ h.2) (WF_heapMod ?_ h.1) <;>
         exact fun e => ⟨rfl, rfl⟩)

theorem WF_paraUpkeep (w : World) (id : Nat) (hw : WF w) :
    WF (paraUpkeep w id) := by
  unfold paraUpkeep
  dsimp only
  refine WF_heapMod updateLifeStage_coords (WF_heapMod ?_ (WF_heapMod ?_ hw))
  all_goals exact fun e => ⟨rfl, rfl⟩

theorem WF_paraRepro (w : World) (id : Nat) (rng : Rng) (hw : WF w) :
    WF (paraRepro w id rng).1 := by
  unfold paraRepro
  dsimp only
  repeat' split
  all_goals
    first
      | exact hw
      | (refine WF_heapMod ?_ (WF_spawnPlace _ _ _ _ _ hw)
         exact fun e => ⟨rfl, rfl⟩)

theorem WF_paraDeath (w : World) (id : Nat) (hw : WF w) :
    WF (paraDeath w id).1 := by
  unfold paraDeath
  dsimp only
  repeat' split
  all_goals
    first
      | exact hw
      | exact WF_placeAt_none hw
      | (refine WF_placeAt_none (WF_heapMod ?_ hw)
         exact fun e => ⟨rfl, rfl⟩)

theorem WF_processParasite (w : World) (id : Nat) (x y : Int) (rng : Rng)
    (hw : WF w) (hs : selfAt w id x y) :
    WF (processParasite w id x y rng).1.1 := by
  unfold processParasite
  dsimp only
  exact WF_paraDeath _ _ (WF_paraRepro _ _ _ (WF_paraUpkeep _ _
    (WF_paraMove _ _ _ _ _ (WS_paraDrain _ _ _ (WS_paraFindHost _ _ _ _ _
      (WS_paraRespire _ (WS_processDisease _ _ _ _ _ _ ⟨hw, hs⟩)))))))

/-! ### Decomposer -/

theorem WS_decoRespire (w : World) {sid : Nat} {sx sy : Int}
    (h : WF w ∧ selfAt w sid sx sy) :
    WF (decoRespire w) ∧ selfAt (decoRespire w) sid sx sy := by
  unfold decoRespire
  dsimp only
  exact WS_setAtmos (WS_setAtmos h)

theorem WS_decoEat (w : World) (id : Nat) (x y : Int) (cb : JQ) (rng : Rng)
    {sid : Nat} {sx sy : Int} (h : WF w ∧ selfAt w sid sx sy) :
    WF (decoEat w id x y cb rng).1 ∧
      selfAt (decoEat w id x y cb rng).1 sid sx sy := by
  unfold decoEat
  dsimp only
  repeat' split
  all_goals
    first
      | exact h
      | (refine WS_placeAt_none (WS_tmod (WS_setAtmos (WS_heapMod ?_ h)))
         exact fun e => ⟨rfl, rfl⟩)

theorem WF_decoMove (msqrt : JQ → JQ) (w : World) (id : Nat) (x y : Int)
    (rng : Rng) (h : WF w ∧ selfAt w id x y) :
    WF (decoMove msqrt w id x y rng).1 := by
  unfold decoMove
  dsimp only
  repeat' split
  all_goals
    first
      | exact h.1
      | (refine WF_moveEntityOp (selfAt_heapMod ?_ h.2) (WF_heapMod ?_ h.1) <;>
         exact fun e => ⟨rfl, rfl⟩)

theorem WF_decoUpkeep (w : World) (id : Nat) (cb : JQ) (hw : WF w) :
    WF (decoUpkeep w id cb) := by
  unfold decoUpkeep
  dsimp only
  refine WF_heapMod updateLifeStage_coords (WF_heapMod ?_ (WF_heapMod ?_ hw))
  all_goals exact fun e => ⟨rfl, rfl⟩

theorem WF_decoRepro (w : World) (id : Nat) (rng : Rng) (hw : WF w) :
    WF (decoRepro w id rng).1 := by
  unfold decoRepro
  dsimp only
  repeat' split
  all_goals
    first
      | exact hw
      | (refine WF_heapMod ?_ (WF_heapMod ?_ (WF_heapMod ?_
          (WF_spawnPlace _ _ _ _ _ hw))) <;> exact fun e => ⟨rfl, rfl⟩)

theorem WF_decoDeath (w : World) (id : Nat) (hw : WF w) :
    WF (decoDeath w id).1 := by
  unfold decoDeath
  dsimp only
  split
  · exact WF_placeAt_none hw
  · exact hw

theorem WF_processDecomposer (msqrt : JQ → JQ) (w : World) (id : Nat)
    (x y : Int) (rng : Rng) (hw : WF w) (hs : selfAt w id x y) :
    WF (processDecomposer msqrt w id x y rng).1.1 := by
  unfold processDecomposer
  dsimp only
  exact WF_decoDeath _ _ (WF_decoRepro _ _ _ (WF_decoUpkeep _ _ _
    (WF_decoMove _ _ _ _ _ _ (WS_decoEat _ _ _ _ _ _
      (WS_decoRespire _ (WS_processDisease _ _ _ _ _ _ ⟨hw, hs⟩))))))

/-! ### Dispatch and the full step -/

theorem WF_processEntity (msqrt : JQ → JQ) (w : World) (id : Nat) (x y : Int)
    (rng : Rng) (hw : WF w) (hs : selfAt w id x y) :
    WF (processEntity msqrt w id x y rng).1 := by
  unfold processEntity
  split
  · split
    next w1 r1 heq1 =>
      have h0 := WF_processPlant w id x y rng hw
      rw [heq1] at h0
      exact h0
  · split
    next w1 r1 heq1 =>
      have h0 := WF_processHerbivore msqrt w id x y rng hw hs
      rw [heq1] at h0
      exact h0
  · split
    next w1 r1 heq1 =>
      have h0 := WF_processCarnivore msqrt w id x y rng hw hs
      rw [heq1] at h0
      exact h0
  · split
    next w1 r1 heq1 =>
      have h0 := WF_processDecomposer msqrt w id x y rng hw hs
      rw [heq1] at h0
      exact h0
  · split
    next w1 r1 heq1 =>
      have h0 := WF_processDeadMatter w id x y rng hw
      rw [heq1] at h0
      exact h0
  · split
    next w1 r1 heq1 =>
      have h0 := WF_processOmnivore msqrt w id x y rng hw hs
      rw [heq1] at h0
      exact h0
  · split
    next w1 r1 heq1 =>
      have h0 := WF_processApexPredator msqrt w id x y rng hw hs
      rw [heq1] at h0
      exact h0
  · split
    next w1 r1 heq1 =>
      have h0 := WF_processParasite w id x y rng hw hs
      rw [heq1] at h0
      exact h0
  · exact hw

theorem WF_changeWeather (w : World) (rng : Rng) (hw : WF w) :
    WF (changeWeather w rng).1 := by
  unfold changeWeather
  dsimp only
  exact WF_setWeatherState hw

theorem WF_applyWeatherEffects (w : World) (rng : Rng) (hw : WF w) :
    WF (applyWeatherEffects w rng).1 := by
  unfold applyWeatherEffects
  dsimp only
  split
  · refine foldl_pres WF _ ?_ _ _ hw
    intro b a hb
    refine foldl_pres WF _ ?_ _ _ hb
    intro b2 a2 hb2
    exact WF_tmod hb2
  · refine foldl_pres WF _ ?_ _ _ hw
    intro b a hb
    refine foldl_pres WF _ ?_ _ _ hb
    intro b2 a2 hb2
    exact WF_tmod hb2
  · repeat' split
    all_goals
      first
        | exact hw
        | exact WF_spawnPlace _ _ _ _ _ hw
  · exact hw

theorem WF_updateTime (w : World) (rng : Rng) (hw : WF w) :
    WF (updateTime w rng).1 := by
  unfold updateTime
  dsimp only
  repeat' split
  all_goals
    first
      | exact WF_applyWeatherEffects _ _ (WF_changeWeather _ _
          (WF_setWeatherTimer (WF_setTemperature (WF_setSeasonState
            (WF_setIsNight (WF_setTimeOfDay hw))))))
      | exact WF_applyWeatherEffects _ _
          (WF_setWeatherTimer (WF_setTemperature (WF_setSeasonState
            (WF_setIsNight (WF_setTimeOfDay hw)))))

theorem WF_fireCell (cx cy radius dy : Int) :
    ∀ (acc : World × Rng) (dx : Int), WF acc.1 →
      WF (fireCell cx cy radius dy acc dx).1 := by
  intro acc dx h
  unfold fireCell
  dsimp only
  repeat' split
  all_goals
    first
      | exact h
      | exact WF_tmod h
      | (refine WF_tmod (WF_convertPlace _ _ _ _ _ ?_ h)
         exact fun e => ⟨rfl, rfl⟩)

theorem WF_applyFire (w : World) (cx cy radius : Int) (rng : Rng) (hw : WF w) :
    WF (applyFire w cx cy radius rng).1 := by
  unfold applyFire
  refine foldl_pres (fun (acc : World × Rng) => WF acc.1) _ ?_ _ _ hw
  intro b a hb
  exact foldl_pres (fun (acc : World × Rng) => WF acc.1) _
    (WF_fireCell cx cy radius a) _ _ hb

theorem WF_floodCell (cx cy radius dy : Int) :
    ∀ (acc : World × Rng) (dx : Int), WF acc.1 →
      WF (floodCell cx cy radius dy acc dx).1 := by
  intro acc dx h
  unfold floodCell
  dsimp only
  repeat' split
  all_goals
    first
      | exact h
      | exact WF_tmod h
      | (refine WF_tmod (WF_convertPlace _ _ _ _ _ ?_ h)
         exact fun e => ⟨rfl, rfl⟩)

theorem WF_applyFlood (w : World) (cx cy radius : Int) (rng : Rng) (hw : WF w) :
    WF (applyFlood w cx cy radius rng).1 := by
  unfold applyFlood
  refine foldl_pres (fun (acc : World × Rng) => WF acc.1) _ ?_ _ _ hw
  intro b a hb
  exact foldl_pres (fun (acc : World × Rng) => WF acc.1) _
    (WF_floodCell cx cy radius a) _ _ hb

theorem WF_outbreakCell (cx cy radius dy : Int) :
    ∀ (acc : World × Rng) (dx : Int), WF acc.1 →
      WF (outbreakCell cx cy radius dy acc dx).1 := by
  intro acc dx h
  unfold outbreakCell
  dsimp only
  repeat' split
  all_goals
    first
      | exact h
      | (refine WF_heapMod ?_ h
         exact fun e => ⟨rfl, rfl⟩)

theorem WF_applyDiseaseOutbreak (w : World) (cx cy radius : Int) (rng : Rng)
    (hw : WF w) : WF (applyDiseaseOutbreak w cx cy radius rng).1 := by
  unfold applyDiseaseOutbreak
  refine foldl_pres (fun (acc : World × Rng) => WF acc.1) _ ?_ _ _ hw
  intro b a hb
  exact foldl_pres (fun (acc : World × Rng) => WF acc.1) _
    (WF_outbreakCell cx cy radius a) _ _ hb

theorem WF_trigger (w : World) (t : DisasterType) (rng : Rng) (hw : WF w) :
    WF (trigger w t rng).1 := by
  unfold trigger
  dsimp only
  split
  · exact WF_setEventLog (WF_applyFire _ _ _ _ _
      (WF_setDisasters (WF_setDisasters hw)))
  · exact WF_setEventLog (WF_applyFlood _ _ _ _ _
      (WF_setDisasters (WF_setDisasters hw)))
  · exact WF_setEventLog (WF_applyDiseaseOutbreak _ _ _ _ _
      (WF_setDisasters (WF_setDisasters hw)))
  · exact WF_setEventLog (WF_setDisasters (WF_setDisasters hw))

theorem WF_triggerRandomDisaster (w : World) (rng : Rng) (hw : WF w) :
    WF (triggerRandomDisaster w rng).1 := by
  unfold triggerRandomDisaster
  dsimp only
  exact WF_trigger _ _ _ hw

theorem WF_disastersUpdate (w : World) (rng : Rng) (hw : WF w) :
    WF (disastersUpdate w rng).1 := by
  unfold disastersUpdate
  dsimp only
  split
  · exact WF_setDisasters hw
  · split
    · exact WF_setDisasters (WF_triggerRandomDisaster _ _ hw)
    · exact WF_setDisasters hw

theorem WF_stepCell (msqrt : JQ → JQ) :
    ∀ (acc : World × Rng) (item : Nat × Int × Int), WF acc.1 →
      WF (stepCell msqrt acc item).1 := by
  intro acc item h
  unfold stepCell
  dsimp only
  split
  next hvalid =>
    exact WF_processEntity _ _ _ _ _ _ h (h.2 _ _ _ hvalid)
  next => exact h

theorem WF_historyRecord (w : World) (bio avgFit : JQ) (hw : WF w) :
    WF (historyRecord w bio avgFit) := by
  unfold historyRecord
  dsimp only
  exact WF_setHistory hw

theorem WF_step (msqrt mlog : JQ → JQ) (w : World) (rng : Rng) (hw : WF w) :
    WF (step msqrt mlog w rng).1 := by
  unfold step
  dsimp only
  split
  · exact WF_historyRecord _ _ _ (WF_updateStats (WF_setGeneration (WF_setAtmos
      (foldl_pres (fun (acc : World × Rng) => WF acc.1) _ (WF_stepCell msqrt)
        _ _ (WF_disastersUpdate _ _ (WF_updateTime _ _ hw))))))
  · exact WF_updateStats (WF_setGeneration (WF_setAtmos
      (foldl_pres (fun (acc : World × Rng) => WF acc.1) _ (WF_stepCell msqrt)
        _ _ (WF_disastersUpdate _ _ (WF_updateTime _ _ hw)))))

/-! ### Populate -/

theorem WF_setNextId_initGrid (w : World) (n : Nat) :
    WF (setNextId (initGrid w) n) := by
  constructor
  · intro p hp
    exact absurd hp (List.not_mem_nil p)
  · intro x y id hcell
    rw [show (setNextId (initGrid w) n).grid =
      List.replicate w.gridSize (List.replicate w.gridSize none) from rfl] at hcell
    rw [gget_replicate_none] at hcell
    exact absurd hcell (by simp)

theorem WF_colonyCell (msqrt : JQ → JQ) (sx sy : Int) (t : EntityType)
    (radius dy : Int) :
    ∀ (acc : World × Rng) (dx : Int), WF acc.1 →
      WF (colonyCell msqrt sx sy t radius dy acc dx).1 := by
  intro acc dx h
  unfold colonyCell
  dsimp only
  repeat' split
  all_goals
    first
      | exact h
      | exact WF_spawnPlace _ _ _ _ _ h

theorem WF_growColony (msqrt : JQ → JQ) (w : World) (sx sy : Int)
    (t : EntityType) (rng : Rng) (hw : WF w) :
    WF (growColony msqrt w sx sy t rng).1 := by
  unfold growColony
  dsimp only
  refine foldl_pres (fun (acc : World × Rng) => WF acc.1) _ ?_ _ _ hw
  intro b a hb
  exact foldl_pres (fun (acc : World × Rng) => WF acc.1) _
    (WF_colonyCell msqrt sx sy t _ a) _ _ hb

theorem WF_ite {c : Prop} [inst : Decidable c] {a b : World × Rng}
    (ha : WF a.1) (hb : WF b.1) : WF (if c then a else b).1 := by
  split
  · exact ha
  · exact hb

theorem WF_scatterCell (w : World) (x y : Int) (rng : Rng) (hw : WF w) :
    WF (scatterCell w x y rng).1 := by
  unfold scatterCell
  refine WF_ite hw (WF_ite hw (WF_ite hw (WF_ite ?_ (WF_ite ?_ (WF_ite ?_
    (WF_ite ?_ (WF_ite ?_ (WF_ite ?_ (WF_ite ?_ hw)))))))))
  all_goals exact WF_spawnPlace _ _ _ _ _ hw

theorem WF_populate (msqrt : JQ → JQ) (w : World) (rng : Rng) :
    WF (populate msqrt w rng).1 := by
  unfold populate
  dsimp only
  refine WF_updateStats ?_
  refine foldl_pres (fun (acc : World × Rng) => WF acc.1) _ ?_ _ _ ?_
  · intro b a hb
    refine foldl_pres (fun (acc : World × Rng) => WF acc.1) _ ?_ _ _ hb
    intro b2 a2 hb2
    dsimp only
    exact WF_scatterCell _ _ _ _ hb2
  · refine foldl_pres (fun (acc : World × Rng) => WF acc.1) _ ?_ _ _ ?_
    · intro b a hb
      dsimp only
      exact WF_growColony _ _ _ _ _ _ hb
    · exact WF_setNextId_initGrid w 1

/-! ### Load -/

theorem WF_tset {w : World} {x y : Int} {c : TerrainCell} (hw : WF w) :
    WF (tset w x y c) := WF_tmod hw

theorem WF_loadEntitiesGo :
    ∀ (es : List SavedEntity) (w : World) (rng : Rng),
      WF w → WF (loadEntitiesGo w rng es).1 := by
  intro es
  induction es with
  | nil =>
    intro w rng hw
    unfold loadEntitiesGo
    exact hw
  | cons e rest ih =>
    intro w rng hw
    unfold loadEntitiesGo
    dsimp only
    split
    · refine ih _ _ ?_
      refine WF_spawnConvert _ _ _ _ _ ?_ hw
      exact fun e => ⟨rfl, rfl⟩
    · have h0 := WF_mkEntity e.type e.x e.y none rng hw
      refine WF_heapMod ?_ h0
      exact fun en => ⟨rfl, rfl⟩

theorem WF_loadTerrain (terr : List (List SavedTerrain)) {w : World}
    (hw : WF w) : WF (loadTerrain terr w) := by
  refine foldl_pres WF _ ?_ _ _ hw
  intro b a hb
  refine foldl_pres WF _ ?_ _ _ hb
  intro b2 a2 hb2
  unfold terrCell
  split
  · exact WF_tset hb2
  · exact hb2

theorem WF_loadFinish (w : World) (terr : List (List SavedTerrain))
    (es : List SavedEntity) (rng : Rng) : WF (loadFinish w terr es rng).1 := by
  unfold loadFinish
  dsimp only
  split
  · exact WF_updateStats (WF_loadEntitiesGo _ _ _
      (WF_loadTerrain terr (WF_initGrid _)))
  · exact WF_loadEntitiesGo _ _ _ (WF_loadTerrain terr (WF_initGrid _))

theorem WF_loadState (w : World) (input : Option SaveBlob) (rng : Rng)
    (hw : WF w) : WF (loadState w input rng).1 := by
  unfold loadState
  dsimp only
  split
  · exact hw
  · split
    · exact hw
    · exact WF_loadFinish _ _ _ _

theorem WF_Wbase : WF Wbase := by
  constructor
  · intro p hp
    exact absurd hp (List.not_mem_nil p)
  · intro x y id hcell
    rw [show Wbase.grid =
      List.replicate 3 (List.replicate 3 none) from rfl] at hcell
    rw [gget_replicate_none] at hcell
    exact absurd hcell (by simp)

/-- **C4.**  Grid-position consistency: from any state where every non-null
grid cell holds the id of a heap entity whose stored coordinates equal the
cell's coordinates (`WF`), each of `step`, `spawnAt`, `killAt`, `populate`
and `loadState` produces a state satisfying the same invariant, so no
"in transit" inconsistency persists across any of these operations. -/
theorem claim_C4 (w : World) (hw : WF w) :
    (∀ msqrt mlog rng, WF (step msqrt mlog w rng).1) ∧
    (∀ x y t rng, WF (spawnAt w x y t rng).1) ∧
    (∀ x y rng, WF (killAt w x y rng).1) ∧
    (∀ msqrt rng, WF (populate msqrt w rng).1) ∧
    (∀ input rng, WF (loadState w input rng).1) :=
  ⟨fun msqrt mlog rng => WF_step msqrt mlog w rng hw,
   fun x y t rng => WF_spawnAt w x y t rng hw,
   fun x y rng => WF_killAt w x y rng hw,
   fun msqrt rng => WF_populate msqrt w rng,
   fun input rng => WF_loadState w input rng hw⟩

/-- Witness for C4 at the concrete world `Wbase`. -/
theorem claim_C4_witness :
    WF Wbase ∧ WF (step msqrt0 mlog0 Wbase []).1 ∧
      WF (loadState Wbase none []).1 :=
  ⟨WF_Wbase, (claim_C4 Wbase WF_Wbase).1 msqrt0 mlog0 [],
   (claim_C4 Wbase WF_Wbase).2.2.2.2 none []⟩


/-! ## The remaining claims -/

/-! ### Concrete data used by witnesses and counterexamples -/

def terr3 : List (List SavedTerrain) :=
  List.replicate 3 (List.replicate 3 ⟨.normal, 1, 0.5⟩)

def gen1 : Genetics :=
  { speed := 1, efficiency := 1, size := 1, fertility := 1,
    immunity := 1, lifespan := 1, perception := 1, camouflage := 1 }

def genP : Genetics := { gen1 with efficiency := 2 }

def genF : Genetics := { gen1 with fertility := 2 }

/-- A herbivore on 3 energy next to a parasite: the host for C2. -/
def seH : SavedEntity :=
  { type := .herbivore, x := 0, y := 0, energy := 3, age := 20,
    maxAge := 120, lifeStage := .adult, genetics := gen1, isInfected := false,
    diseaseTimer := 0, isImmune := false, generation := 1, offspring := 0,
    kills := 0, foodEaten := 0 }

def seP : SavedEntity :=
  { type := .parasite, x := 1, y := 0, energy := 10, age := 20,
    maxAge := 60, lifeStage := .adult, genetics := genP, isInfected := false,
    diseaseTimer := 0, isImmune := false, generation := 1, offspring := 0,
    kills := 0, foodEaten := 0 }

def blobC2 : SaveBlob :=
  { version := 2, generation := 1, gridSize := 3,
    atmosphere := { o2 := 50, co2 := 50, sunlight := 5 }, timeOfDay := some 0,
    currentSeason := some .spring, seasonTimer := some 0, weather := some .clear,
    weatherTimer := some 100, densities := Wbase.densities,
    settings := some defaultSettings, terrain := terr3, entities := [seH, seP] }

def WC2 : World := (loadState Wbase (some blobC2) (List.replicate 40 0)).1

def rngC2 : Rng := [0.5, 0.6, 0.9, 0.3, 0.5, 0.9]

/-- The world after the tick in which the parasite drains its host below
zero after the host's own turn. -/
def WC2s : World := (step msqrt0 mlog0 WC2 rngC2).1

/-- Two adult herbivores for C3: the prospective mate on 50 energy and the
initiator on 80. -/
def seMate : SavedEntity :=
  { type := .herbivore, x := 0, y := 0, energy := 50, age := 30,
    maxAge := 120, lifeStage := .adult, genetics := genF, isInfected := false,
    diseaseTimer := 0, isImmune := false, generation := 1, offspring := 0,
    kills := 0, foodEaten := 0 }

def seInit : SavedEntity :=
  { type := .herbivore, x := 1, y := 1, energy := 80, age := 30,
    maxAge := 120, lifeStage := .adult, genetics := genF, isInfected := false,
    diseaseTimer := 0, isImmune := false, generation := 1, offspring := 0,
    kills := 0, foodEaten := 0 }

def blobC3 : SaveBlob :=
  { version := 2, generation := 0, gridSize := 3,
    atmosphere := { o2 := 50, co2 := 50, sunlight := 5 }, timeOfDay := some 0,
    currentSeason := some .spring, seasonTimer := some 0, weather := some .clear,
    weatherTimer := some 100, densities := Wbase.densities,
    settings := some defaultSettings, terrain := terr3,
    entities := [seMate, seInit] }

def WC3 : World := (loadState Wbase (some blobC3) (List.replicate 40 0)).1

/-- A random stream on which nobody moves, eats or reproduces. -/
def rngQuiet : Rng := [0.5, 0.6, 0.9, 0.9]

/-- A stream on which the initiator reproduces with the low-energy mate. -/
def rngBirth : Rng :=
  [0.5, 0.6, 0.9, 0.9, 0.5, 0.8, 0, 0.5, 0.5, 0.5, 0.5, 0.5, 0.5, 0.5, 0.5,
   0.5, 0.5, 0.5]

def stepQ (w : World) : World := (step msqrt0 mlog0 w rngQuiet).1

/-- Five quiet ticks age the pair past the reproduction cooldown while
energy upkeep drags the mate down to 47.6. -/
def WC3a : World := stepQ (stepQ (stepQ (stepQ (stepQ WC3))))

def WC3b : World := (step msqrt0 mlog0 WC3a rngBirth).1

/-- A parsed save file whose `settings` key is missing. -/
def blobC7 : SaveBlob :=
  { version := 2, generation := 7, gridSize := 3,
    atmosphere := { o2 := 11, co2 := 22, sunlight := 5 }, timeOfDay := some 0,
    currentSeason := some .spring, seasonTimer := some 0, weather := some .clear,
    weatherTimer := some 100, densities := Wbase.densities,
    settings := none, terrain := terr3, entities := [] }

def entryH : HistEntry :=
  { timestamp := 3, plants := 4, herbivores := 2, carnivores := 1,
    decomposers := 0, omnivores := 0, apexPredators := 0, parasites := 0,
    deadMatter := 1, totalPopulation := 7, o2 := 21, co2 := 19,
    biodiversity := 0.5, avgFitness := 1 }

/-- A world carrying recorded history and a nonzero generation. -/
def Wh : World :=
  { Wbase with generation := 42,
               history := { maxLength := 500, entries := [entryH] } }

def W9a : World :=
  { Wbase with disasters :=
      { activeDisasters := [⟨.fire, 0, 0, 5, 30⟩], disasterChance := 0.001,
        cooldown := 150 } }

def W9b : World :=
  { Wbase with disasters :=
      { activeDisasters := [⟨.fire, 0, 0, 5, 30⟩, ⟨.flood, 1, 1, 5, 1⟩],
        disasterChance := 0.001, cooldown := 0 } }

/-- The world right after `trigger('fire')`. -/
def W9t : World := (trigger Wbase .fire [0, 0, 0, 0]).1

def W10 : World := placeAt Wbase 1 1 (some 5)

def atmC1 : Atmos := { o2 := ⟨150, 1⟩, co2 := ⟨30, 1⟩, sunlight := 5 }

/-! ### C10 -/

/-- **C10.**  `spawnAt(x, y, type)` is a no-op when the target cell is
already occupied: the call returns the world unchanged. -/
theorem claim_C10 (w : World) (x y : Int) (t : EntityType) (rng : Rng)
    (h : (gget w.grid x y).isSome = true) : spawnAt w x y t rng = (w, rng) := by
  unfold spawnAt
  rw [if_pos h]
  repeat' split
  all_goals rfl

theorem claim_C10_witness :
    (gget W10.grid 1 1).isSome = true ∧
      spawnAt W10 1 1 .carnivore [] = (W10, []) :=
  ⟨by decide, claim_C10 W10 1 1 .carnivore [] (by decide)⟩

/-! ### C7 -/

/-- **C7.**  When the input string does not parse, `loadState` reports
failure and leaves the world untouched.  (The all-or-nothing claim fails
on the other failure paths: see the counterexample, where a parsed save
without a `settings` key makes `loadState` fail only after the scalar
fields have been overwritten.) -/
theorem claim_C7 (w : World) (rng : Rng) :
    loadState w none rng = (w, false, rng) := rfl

/-- A parsed save without `settings` fails, yet generation and atmosphere
have already been overwritten: load is not all-or-nothing. -/
theorem claim_C7_counterexample :
    (loadState Wbase (some blobC7) []).2.1 = false ∧
    Wbase.generation = 0 ∧
    (loadState Wbase (some blobC7) []).1.generation = 7 ∧
    Wbase.atmosphere.o2 = 50 ∧
    (loadState Wbase (some blobC7) []).1.atmosphere.o2 = 11 := by decide

/-! ### C9 -/

/-- A cooldown-zero world above generation 100 on which the next update
triggers a fresh disaster. -/
def W9c : World :=
  { Wbase with generation := 150,
               disasters :=
      { activeDisasters := [⟨.fire, 0, 0, 5, 10⟩], disasterChance := 0.001,
        cooldown := 0 } }

def rngT : Rng := [0, 0.9, 0.5, 0.5, 0.5, 0.5]

/-- **C9.**  Disaster timing: while the manager's cooldown is positive,
`update()` only decrements the cooldown — the active disasters' durations
are NOT decremented that tick.  When the cooldown is zero, every active
disaster's duration is decremented and the non-positive ones are dropped,
whether or not a fresh disaster triggers first: the decrement-and-filter
runs over the post-trigger list, so a freshly triggered disaster is
decremented on its own trigger tick as well. -/
theorem claim_C9 (w : World) (rng : Rng) :
    (0 < w.disasters.cooldown →
      (disastersUpdate w rng).1.disasters.activeDisasters =
        w.disasters.activeDisasters ∧
      (disastersUpdate w rng).1.disasters.cooldown =
        w.disasters.cooldown - 1) ∧
    (¬ 0 < w.disasters.cooldown →
      (disastersUpdate w rng).1.disasters.activeDisasters =
        (((if (rand rng).1 < w.disasters.disasterChance ∧ 100 < w.generation
            then triggerRandomDisaster w (rand rng).2
            else (w, (rand rng).2)).1.disasters.activeDisasters.map
          (fun d => { d with duration := d.duration - 1 })).filter
        (fun d => decide (0 < d.duration)))) := by
  constructor
  · intro h
    unfold disastersUpdate
    rw [if_pos h]
    exact ⟨rfl, rfl⟩
  · intro h
    unfold disastersUpdate
    rw [if_neg h]
    rfl

theorem claim_C9_witness :
    ((disastersUpdate W9a []).1.disasters.activeDisasters =
        W9a.disasters.activeDisasters ∧
      (disastersUpdate W9a []).1.disasters.cooldown = 149) ∧
    (disastersUpdate W9b []).1.disasters.activeDisasters.map
        Disaster.duration = [29] ∧
    (disastersUpdate W9c rngT).1.disasters.activeDisasters.map
        Disaster.duration = [9, 44] := by
  refine ⟨⟨((claim_C9 W9a []).1 (by decide)).1, ?_⟩, ?_, ?_⟩
  · rw [((claim_C9 W9a []).1 (by decide)).2]
    decide
  · rw [(claim_C9 W9b []).2 (by decide)]
    decide
  · rw [(claim_C9 W9c rngT).2 (by decide)]
    decide

/-- Right after a trigger the cooldown is 200, so the new disaster's
duration 30 is NOT decremented by the next update: a disaster with
duration `d` is not active for `d` ticks. -/
theorem claim_C9_counterexample :
    W9t.disasters.cooldown = 200 ∧
    W9t.disasters.activeDisasters.map Disaster.duration = [30] ∧
    (disastersUpdate W9t []).1.disasters.activeDisasters.map
      Disaster.duration = [30] := by decide

/-! ### C2 -/

/-- **C2.**  At an entity's own death check, energy at or below zero does
remove it: every species' death phase reports the entity dead (and the
parasite and decomposer clear their grid cell).  The spec's stronger
claim — that no entity with `energy ≤ 0` survives to the next tick even
when the energy was drained after its own turn — fails: see the
counterexample. -/
theorem claim_C2 (w : World) (id : Nat) (x y : Int) (rng : Rng)
    (h : (w.getE id).energy ≤ 0) :
    (plantDeath w id x y rng).1.2 = false ∧
    (herbDeath w id rng).1.2 = false ∧
    (carnDeath w id rng).1.2 = false ∧
    (omniDeath w id rng).1.2 = false ∧
    (apexDeath w id rng).1.2 = false ∧
    ((paraDeath w id).2 = false ∧
      gget (paraDeath w id).1.grid (w.getE id).x (w.getE id).y = none) ∧
    ((decoDeath w id).2 = false ∧
      gget (decoDeath w id).1.grid (w.getE id).x (w.getE id).y = none) := by
  refine ⟨?_, ?_, ?_, ?_, ?_, ⟨?_, ?_⟩, ⟨?_, ?_⟩⟩
  · unfold plantDeath
    dsimp only
    split
    · rfl
    · next hn => exact absurd (Or.inl h) hn
  · unfold herbDeath
    dsimp only
    split
    · rfl
    · next hn => exact absurd (Or.inl h) hn
  · unfold carnDeath
    dsimp only
    split
    · rfl
    · next hn => exact absurd (Or.inl h) hn
  · unfold omniDeath
    dsimp only
    split
    · rfl
    · next hn => exact absurd (Or.inl h) hn
  · unfold apexDeath
    dsimp only
    split
    · rfl
    · next hn => exact absurd (Or.inl h) hn
  · unfold paraDeath
    dsimp only
    split
    · rfl
    · next hn => exact absurd (Or.inl h) hn
  · unfold paraDeath
    dsimp only
    split
    · exact gget_gset_clear _ _ _
    · next hn => exact absurd (Or.inl h) hn
  · unfold decoDeath
    dsimp only
    split
    · rfl
    · next hn => exact absurd (Or.inl h) hn
  · unfold decoDeath
    dsimp only
    split
    · exact gget_gset_clear _ _ _
    · next hn => exact absurd (Or.inl h) hn

theorem claim_C2_witness :
    (herbDeath Wbase 0 []).1.2 = false ∧ (paraDeath Wbase 0).2 = false :=
  ⟨(claim_C2 Wbase 0 0 0 [] (by decide)).2.1,
   (claim_C2 Wbase 0 0 0 [] (by decide)).2.2.2.2.2.1.1⟩

/-- A parasite drains its host below zero after the host's turn; the
host is still on the grid when the tick completes, with energy −3/2. -/
theorem claim_C2_counterexample :
    gget WC2s.grid 0 0 = some 1 ∧ (WC2s.getE 1).type = .herbivore ∧
    (WC2s.getE 1).energy = ⟨-3, 2⟩ ∧ (WC2s.getE 1).energy ≤ 0 := by decide

/-! ### C8: frame lemmas for generation and history through populate -/

theorem genHist_mkEntity (w : World) (t : EntityType) (x y : Int)
    (p : Option (Nat × Nat)) (rng : Rng) :
    (mkEntity w t x y p rng).2.1.generation = w.generation ∧
      (mkEntity w t x y p rng).2.1.history = w.history := by
  cases p <;> exact ⟨rfl, rfl⟩

theorem pair_prop_ite {c : Prop} [inst : Decidable c] {a b : World × Rng}
    (P : World → Prop) (ha : P a.1) (hb : P b.1) :
    P (if c then a else b).1 := by
  split
  · exact ha
  · exact hb

theorem genHist_colonyCell (msqrt : JQ → JQ) (sx sy : Int) (t : EntityType)
    (radius dy : Int) (acc : World × Rng) (dx : Int) :
    (colonyCell msqrt sx sy t radius dy acc dx).1.generation =
        acc.1.generation ∧
      (colonyCell msqrt sx sy t radius dy acc dx).1.history = acc.1.history := by
  unfold colonyCell
  dsimp only
  repeat' split
  all_goals
    first
      | exact ⟨rfl, rfl⟩
      | exact genHist_mkEntity _ _ _ _ _ _

theorem genHist_ite {c : Prop} [inst : Decidable c] {a b : World × Rng}
    {g : Nat} {hs : HistoryState}
    (ha : a.1.generation = g ∧ a.1.history = hs)
    (hb : b.1.generation = g ∧ b.1.history = hs) :
    (if c then a else b).1.generation = g ∧
      (if c then a else b).1.history = hs := by
  split
  · exact ha
  · exact hb

theorem genHist_scatterCell (w : World) (x y : Int) (rng : Rng) :
    (scatterCell w x y rng).1.generation = w.generation ∧
      (scatterCell w x y rng).1.history = w.history := by
  unfold scatterCell
  exact genHist_ite ⟨rfl, rfl⟩ (genHist_ite ⟨rfl, rfl⟩ (genHist_ite
    ⟨rfl, rfl⟩ (genHist_ite ⟨rfl, rfl⟩ (genHist_ite ⟨rfl, rfl⟩
    (genHist_ite ⟨rfl, rfl⟩ (genHist_ite ⟨rfl, rfl⟩ (genHist_ite ⟨rfl, rfl⟩
    (genHist_ite ⟨rfl, rfl⟩ (genHist_ite ⟨rfl, rfl⟩ ⟨rfl, rfl⟩)))))))))

theorem genHist_growColony (msqrt : JQ → JQ) (w : World) (sx sy : Int)
    (t : EntityType) (rng : Rng) :
    (growColony msqrt w sx sy t rng).1.generation = w.generation ∧
      (growColony msqrt w sx sy t rng).1.history = w.history := by
  unfold growColony
  dsimp only
  refine foldl_pres (fun (acc : World × Rng) =>
    acc.1.generation = w.generation ∧ acc.1.history = w.history) _ ?_ _ _
    ⟨rfl, rfl⟩
  intro b a hb
  refine foldl_pres (fun (acc : World × Rng) =>
    acc.1.generation = w.generation ∧ acc.1.history = w.history) _ ?_ _ _ hb
  intro b2 a2 hb2
  exact ⟨(genHist_colonyCell _ _ _ _ _ _ _ _).1.trans hb2.1,
         (genHist_colonyCell _ _ _ _ _ _ _ _).2.trans hb2.2⟩

/-- **C8.**  `populate()` resets the generation counter to 0 (via
`initGrid`), but it does NOT clear the recorded population history: the
history is exactly what it was before the call.  (Only `reset()` clears
the history.) -/
theorem claim_C8 (msqrt : JQ → JQ) (w : World) (rng : Rng) :
    (populate msqrt w rng).1.generation = 0 ∧
    (populate msqrt w rng).1.history = w.history := by
  unfold populate
  dsimp only
  refine foldl_pres (fun (acc : World × Rng) =>
    acc.1.generation = 0 ∧ acc.1.history = w.history) _ ?_ _ _ ?_
  · intro b a hb
    refine foldl_pres (fun (acc : World × Rng) =>
      acc.1.generation = 0 ∧ acc.1.history = w.history) _ ?_ _ _ hb
    intro b2 a2 hb2
    dsimp only
    exact ⟨(genHist_scatterCell _ _ _ _).1.trans hb2.1,
           (genHist_scatterCell _ _ _ _).2.trans hb2.2⟩
  · refine foldl_pres (fun (acc : World × Rng) =>
      acc.1.generation = 0 ∧ acc.1.history = w.history) _ ?_ _ _ ⟨rfl, rfl⟩
    intro b a hb
    dsimp only
    exact ⟨(genHist_growColony _ _ _ _ _ _).1.trans hb.1,
           (genHist_growColony _ _ _ _ _ _).2.trans hb.2⟩

/-- After `populate()` the generation is 0 but the recorded history entry
is still present: populate does not clear history. -/
theorem claim_C8_counterexample :
    Wh.generation = 42 ∧ Wh.history.entries = [entryH] ∧
    (populate msqrt0 Wh []).1.generation = 0 ∧
    (populate msqrt0 Wh []).1.history.entries = [entryH] := by decide

/-! ### C1: atmosphere rebalancing -/

theorem val_nonneg_of_num (a : JQ) (hd : 0 < a.d) (h : 0 ≤ a.n) :
    0 ≤ JQ.val a := by
  unfold JQ.val
  positivity

theorem num_nonneg_of_val (a : JQ) (hd : 0 < a.d) (h : 0 ≤ JQ.val a) :
    0 ≤ a.n := by
  unfold JQ.val at h
  by_contra hn
  push_neg at hn
  have h1 : (a.n : ℚ) < 0 := by exact_mod_cast hn
  have h2 : (0 : ℚ) < (a.d : ℚ) := by exact_mod_cast hd
  have := div_neg_of_neg_of_pos h1 h2
  linarith

/-- **C1.**  After the end-of-step rebalance, `o2 + co2 ≤ 100` holds (as
exact rationals) for any input gas values, and the input `{o2:100,
co2:100}` produces exactly `{o2:50, co2:50}`. -/
theorem claim_C1 :
    (∀ a : Atmos, 0 < a.o2.d → 0 < a.co2.d →
      JQ.val (rebalanceAtmosphere a).o2 + JQ.val (rebalanceAtmosphere a).co2
        ≤ 100) ∧
    rebalanceAtmosphere ⟨100, 100, 5⟩ = ⟨50, 50, 5⟩ := by
  constructor
  · intro a ho hc
    have ho' : a.o2.d ≠ 0 := ho.ne'
    have hc' : a.co2.d ≠ 0 := hc.ne'
    have hsum : (a.o2 + a.co2).d ≠ 0 := (JQ.norm_d_pos _).ne'
    have h100 : ((100 : JQ)).d ≠ 0 := by decide
    have hexc : (a.o2 + a.co2 - 100).d ≠ 0 := (JQ.norm_d_pos _).ne'
    have hhalf : ((0.5 : JQ)).d ≠ 0 := by decide
    have hmul : ((a.o2 + a.co2 - 100) * 0.5).d ≠ 0 := (JQ.norm_d_pos _).ne'
    have hv100 : JQ.val (100 : JQ) = 100 := by
      show ((100 : Int) : ℚ) / ((1 : Int) : ℚ) = 100
      norm_num
    have hvhalf : JQ.val (0.5 : JQ) = 1 / 2 := by
      show ((1 : Int) : ℚ) / ((2 : Int) : ℚ) = 1 / 2
      norm_num
    unfold rebalanceAtmosphere
    dsimp only
    split
    · rw [JQ.val_sub _ _ ho' hmul, JQ.val_sub _ _ hc' hmul,
          JQ.val_mul _ _ hexc hhalf, JQ.val_sub _ _ hsum h100,
          JQ.val_add _ _ ho' hc', hv100, hvhalf]
      linarith
    · next hge =>
      have h0pre : ¬ (JQ.sub 100 (a.o2 + a.co2)).n < 0 := hge
      have h0 : 0 ≤ (JQ.sub 100 (a.o2 + a.co2)).n := Int.not_lt.mp h0pre
      have h1 : 0 ≤ JQ.val (JQ.sub 100 (a.o2 + a.co2)) :=
        val_nonneg_of_num _ (JQ.norm_d_pos _) h0
      rw [show JQ.sub 100 (a.o2 + a.co2) = (100 : JQ) - (a.o2 + a.co2)
            from rfl,
          JQ.val_sub _ _ h100 hsum, JQ.val_add _ _ ho' hc', hv100] at h1
      clear hge h0pre h0
      linarith
  · decide

theorem claim_C1_witness :
    0 < atmC1.o2.d ∧ 0 < atmC1.co2.d ∧
    JQ.val (rebalanceAtmosphere atmC1).o2 +
      JQ.val (rebalanceAtmosphere atmC1).co2 ≤ 100 :=
  ⟨by decide, by decide, claim_C1.1 atmC1 (by decide) (by decide)⟩

/-! ### C3: reproduction energy gates -/

/-- `Math.floor(random * len)` is a valid index whenever the random draw is
a rational in `[0, 1)` (nonnegative numerator strictly below a positive
denominator). -/
theorem pickIdx_lt (len : Nat) (r : JQ) (hl : 0 < len) (hd : 0 < r.d)
    (h0 : 0 ≤ r.n) (h1 : r.n < r.d) : pickIdx len r < len := by
  unfold pickIdx
  have hone : (JQ.ofNatQ len).d ≠ 0 := one_ne_zero
  have hmd : 0 < (r * JQ.ofNatQ len).d := JQ.norm_d_pos _
  have hvm : JQ.val (r * JQ.ofNatQ len) =
      JQ.val r * JQ.val (JQ.ofNatQ len) := JQ.val_mul r (JQ.ofNatQ len) hd.ne' hone
  have hvlen : JQ.val (JQ.ofNatQ len) = (len : ℚ) := by
    show ((len : Int) : ℚ) / ((1 : Int) : ℚ) = (len : ℚ)
    push_cast
    simp
  have hvr0 : 0 ≤ JQ.val r := by
    unfold JQ.val
    positivity
  have hvr1 : JQ.val r < 1 := by
    unfold JQ.val
    rw [div_lt_one (by exact_mod_cast hd)]
    exact_mod_cast h1
  have hlq : (0 : ℚ) < (len : ℚ) := by exact_mod_cast hl
  have hvm2 : JQ.val (r * JQ.ofNatQ len) < (len : ℚ) := by
    rw [hvm, hvlen]
    calc JQ.val r * (len : ℚ) < 1 * (len : ℚ) :=
          mul_lt_mul_of_pos_right hvr1 hlq
      _ = (len : ℚ) := one_mul _
  have hvm0 : 0 ≤ JQ.val (r * JQ.ofNatQ len) := by
    rw [hvm, hvlen]
    exact mul_nonneg hvr0 hlq.le
  have hn0 : 0 ≤ (r * JQ.ofNatQ len).n := by
    by_contra hc
    push_neg at hc
    have hq : ((r * JQ.ofNatQ len).n : ℚ) / ((r * JQ.ofNatQ len).d : ℚ) < 0 :=
      div_neg_of_neg_of_pos (by exact_mod_cast hc) (by exact_mod_cast hmd)
    have hv := hvm0
    unfold JQ.val at hv
    linarith
  have hnlt : (r * JQ.ofNatQ len).n < (len : Int) * (r * JQ.ofNatQ len).d := by
    have h2 : (0 : ℚ) < ((r * JQ.ofNatQ len).d : ℚ) := by exact_mod_cast hmd
    have hq := hvm2
    unfold JQ.val at hq
    rw [div_lt_iff₀ h2] at hq
    exact_mod_cast hq
  have hfl : JQ.floor (r * JQ.ofNatQ len) < (len : Int) := by
    show Int.fdiv (r * JQ.ofNatQ len).n (r * JQ.ofNatQ len).d < (len : Int)
    rw [Int.fdiv_eq_ediv _ hmd.le]
    exact Int.ediv_lt_of_lt_mul hmd hnlt
  have hf0 : 0 ≤ JQ.floor (r * JQ.ofNatQ len) :=
    Int.fdiv_nonneg hn0 hmd.le
  omega

/-- Any mate returned by `findMate` passed the in-code gate: same type,
`canReproduce`, and energy strictly above the hard-coded 40 (NOT the
species' `reproEnergy`). -/
theorem findMate_gate (w : World) (x y : Int) (t : EntityType) (radius : Int)
    (rng : Rng) (mx my : Int) (mid : Nat)
    (hf : (findMate w x y t radius rng).1 = some (mx, my, mid))
    (hd : 0 < ((rand rng).1).d) (h0 : 0 ≤ ((rand rng).1).n)
    (h1 : ((rand rng).1).n < ((rand rng).1).d) :
    (w.getE mid).type = t ∧ (w.getE mid).canReproduce ∧
      (40 : JQ) < (w.getE mid).energy := by
  unfold findMate at hf
  dsimp only at hf
  split at hf
  · simp at hf
  · next hnz =>
    rw [Option.some.injEq] at hf
    have hlt := pickIdx_lt _ ((rand rng).1) (Nat.pos_of_ne_zero hnz) hd h0 h1
    rw [List.getD_eq_getElem _ _ hlt] at hf
    have hmem := hf ▸ List.getElem_mem hlt
    rw [List.mem_flatMap] at hmem
    obtain ⟨dy, hdy, hm2⟩ := hmem
    rw [List.mem_filterMap] at hm2
    obtain ⟨dx, hdx, hfm⟩ := hm2
    split at hfm
    · simp at hfm
    · split at hfm
      · split at hfm
        · next hid =>
          split at hfm
          · next hgate =>
            rw [Option.some.injEq, Prod.mk.injEq, Prod.mk.injEq] at hfm
            obtain ⟨-, -, hm⟩ := hfm
            rw [hm] at hgate
            exact hgate
          · simp at hfm
        · simp at hfm
      · simp at hfm

/-- The initiating entity with energy not above the species threshold never
reproduces: `herbRepro` is the identity. -/
theorem herbRepro_gate (w : World) (id : Nat) (rng : Rng)
    (h : ¬ w.settings.herbivore.reproEnergy < (w.getE id).energy) :
    herbRepro w id rng = (w, rng) := by
  unfold herbRepro
  dsimp only
  rw [if_neg (fun hc => h hc.1)]

/-- **C3.**  The reproduction energy gate.  The initiating herbivore must
strictly exceed the configured `reproEnergy`; but the *mate* selected by
`findMate` is only required to exceed the hard-coded 40 energy, not
`reproEnergy`, so an under-threshold mate can still gain offspring. -/
theorem claim_C3 (w : World) :
    (∀ id rng, ¬ w.settings.herbivore.reproEnergy < (w.getE id).energy →
      herbRepro w id rng = (w, rng)) ∧
    (∀ x y t radius rng mx my mid,
      (findMate w x y t radius rng).1 = some (mx, my, mid) →
      0 < ((rand rng).1).d → 0 ≤ ((rand rng).1).n →
      ((rand rng).1).n < ((rand rng).1).d →
      (w.getE mid).type = t ∧ (w.getE mid).canReproduce ∧
        (40 : JQ) < (w.getE mid).energy) :=
  ⟨fun id rng h => herbRepro_gate w id rng h,
   fun x y t radius rng mx my mid hf hd h0 h1 =>
     findMate_gate w x y t radius rng mx my mid hf hd h0 h1⟩

/-- A C3 world in which the neighbor at (0,0) is a willing mate. -/
def WC3w : World :=
  heapMod WC3 1 (fun e => { e with cyclesSinceReproduction := 7 })

/-- C3 at concrete inputs: the empty world's entity 0 (energy 0) does not
reproduce, and the mate that `findMate` returns in the C3 scenario passed
the in-code gate. -/
theorem claim_C3_witness :
    (¬ Wbase.settings.herbivore.reproEnergy < (Wbase.getE 0).energy) ∧
    herbRepro Wbase 0 [] = (Wbase, []) ∧
    (findMate WC3w 1 1 .herbivore 2 [0]).1 = some (0, 0, 1) ∧
    ((WC3w.getE 1).type = .herbivore ∧ (WC3w.getE 1).canReproduce ∧
      (40 : JQ) < (WC3w.getE 1).energy) :=
  ⟨by decide, (claim_C3 Wbase).1 0 [] (by decide), by decide,
   (claim_C3 WC3w).2 1 1 .herbivore 2 [0] 0 0 1 (by decide) (by decide)
     (by decide) (by decide)⟩

/-- The spec says no offspring is ever created from an entity below
`reproEnergy`; yet after the birth tick the mate, on 47.6 < 75 energy,
has `offspring = 1` and the child exists on the grid. -/
theorem claim_C3_counterexample :
    WC3a.settings.herbivore.reproEnergy = 75 ∧
    (WC3a.getE 1).energy = ⟨238, 5⟩ ∧
    (WC3a.getE 1).energy < (75 : JQ) ∧
    (WC3a.getE 1).offspring = 0 ∧
    (WC3b.getE 1).offspring = 1 ∧
    gget WC3b.grid 1 0 = some 3 ∧
    (WC3b.getE 3).type = .herbivore := by decide

/-! ### C5/C6: the save/load round trip -/

/-- The saved projection of the grid cell at (x, y): the serialized record
of the entity stored there, if any. -/
def cellBlob (w : World) (x y : Int) : Option SavedEntity :=
  (gget w.grid x y).map (fun id => entityBlob (w.getE id))

/-- One step of the last-writer-wins account of the entity loading loop,
watched at a single cell. -/
def altStep (x y : Int) (acc : Option SavedEntity) (e : SavedEntity) :
    Option SavedEntity :=
  if e.x = x ∧ e.y = y then some e else acc

/-- The last saved entity of the list whose coordinates are (x, y). -/
def altB (es : List SavedEntity) (x y : Int) : Option SavedEntity :=
  es.foldl (altStep x y) none

theorem altB_init (x y : Int) :
    ∀ (es : List SavedEntity) (a : Option SavedEntity),
      es.foldl (altStep x y) a = Option.or (altB es x y) a := by
  intro es
  induction es with
  | nil =>
    intro a
    show a = Option.or none a
    rw [Option.none_or]
  | cons e rest ih =>
    intro a
    rw [List.foldl_cons, ih (altStep x y a e),
        show altB (e :: rest) x y
          = rest.foldl (altStep x y) (altStep x y none e) from rfl,
        ih (altStep x y none e), Option.or_assoc]
    congr 1
    unfold altStep
    split
    · rfl
    · rw [Option.none_or]

theorem altB_cons (e : SavedEntity) (es : List SavedEntity) (x y : Int) :
    altB (e :: es) x y = Option.or (altB es x y) (altStep x y none e) := by
  show (e :: es).foldl (altStep x y) none = _
  rw [List.foldl_cons, altB_init x y es (altStep x y none e)]

theorem altB_append (l1 l2 : List SavedEntity) (x y : Int) :
    altB (l1 ++ l2) x y = Option.or (altB l2 x y) (altB l1 x y) := by
  show (l1 ++ l2).foldl (altStep x y) none = _
  rw [List.foldl_append, altB_init x y l2 (l1.foldl (altStep x y) none)]
  rfl

/-- Every saved cell record carries the coordinates of its cell. -/
theorem cellBlob_coords (w : World) (hw : WF w) (x y : Int) (b : SavedEntity)
    (hb : cellBlob w x y = some b) : b.x = x ∧ b.y = y := by
  unfold cellBlob at hb
  cases hcell : gget w.grid x y with
  | none =>
    rw [hcell] at hb
    exact absurd hb (by simp)
  | some id =>
    rw [hcell] at hb
    have hb2 : some (entityBlob (w.getE id)) = some b := hb
    have hbb : entityBlob (w.getE id) = b := by injection hb2
    obtain ⟨e0, he0, hex, hey⟩ := hw.2 x y id hcell
    have hge : w.getE id = e0 := by
      show (hget w.heap id).getD defEntity = e0
      rw [he0]
      rfl
    rw [← hbb, hge]
    exact ⟨hex, hey⟩

theorem saveEntities_eq (w : World) :
    saveEntities w = (List.range w.gridSize).flatMap (fun (yy : Nat) =>
      (List.range w.gridSize).filterMap (fun (xx : Nat) =>
        cellBlob w (xx : Int) (yy : Int))) := rfl

theorem saveEntities_bounds (w : World) (hw : WF w) :
    ∀ b ∈ saveEntities w, 0 ≤ b.x ∧ b.x < (w.gridSize : Int) ∧
      0 ≤ b.y ∧ b.y < (w.gridSize : Int) := by
  intro b hb
  rw [saveEntities_eq, List.mem_flatMap] at hb
  obtain ⟨yy, hyy, hb2⟩ := hb
  rw [List.mem_filterMap] at hb2
  obtain ⟨xx, hxx, hcb⟩ := hb2
  rw [List.mem_range] at hyy hxx
  obtain ⟨hbx, hby⟩ := cellBlob_coords w hw _ _ _ hcb
  refine ⟨?_, ?_, ?_, ?_⟩
  · rw [hbx]
    exact Int.natCast_nonneg xx
  · rw [hbx]
    exact_mod_cast hxx
  · rw [hby]
    exact Int.natCast_nonneg yy
  · rw [hby]
    exact_mod_cast hyy

/-- `altB` over one saved row of the grid. -/
theorem altB_row (w : World) (hw : WF w) (yy : Nat) (x y : Int) :
    ∀ m : Nat,
      altB ((List.range m).filterMap (fun (xx : Nat) =>
          cellBlob w (xx : Int) (yy : Int))) x y =
        if 0 ≤ x ∧ x < (m : Int) ∧ y = (yy : Int) then cellBlob w x y
        else none := by
  intro m
  induction m with
  | zero =>
    rw [if_neg (by rintro ⟨h1, h2, -⟩; omega)]
    rfl
  | succ m ih =>
    rw [List.range_succ, List.filterMap_append, altB_append, ih]
    by_cases hc1 : x = (m : Int) ∧ y = (yy : Int)
    · rw [if_neg (by rintro ⟨-, h2, -⟩; rw [hc1.1] at h2; omega),
          Option.or_none,
          if_pos ⟨by rw [hc1.1]; exact Int.natCast_nonneg m,
                  by rw [hc1.1]; exact_mod_cast Nat.lt_succ_self m, hc1.2⟩]
      cases hcm : cellBlob w (m : Int) (yy : Int) with
      | none =>
        have h2 : List.filterMap (fun (xx : Nat) =>
            cellBlob w (xx : Int) (yy : Int)) [m] = ([] : List SavedEntity) := by
          simp only [List.filterMap_cons, List.filterMap_nil, hcm]
        rw [h2, hc1.1, hc1.2, hcm]
        rfl
      | some b =>
        have h2 : List.filterMap (fun (xx : Nat) =>
            cellBlob w (xx : Int) (yy : Int)) [m] = [b] := by
          simp only [List.filterMap_cons, List.filterMap_nil, hcm]
        obtain ⟨hbx, hby⟩ := cellBlob_coords w hw _ _ _ hcm
        rw [h2, hc1.1, hc1.2, hcm]
        show altStep (m : Int) (yy : Int) none b = some b
        unfold altStep
        rw [if_pos ⟨hbx, hby⟩]
    · have hsing : altB (List.filterMap (fun (xx : Nat) =>
          cellBlob w (xx : Int) (yy : Int)) [m]) x y = none := by
        cases hcm : cellBlob w (m : Int) (yy : Int) with
        | none =>
          have h2 : List.filterMap (fun (xx : Nat) =>
              cellBlob w (xx : Int) (yy : Int)) [m] = ([] : List SavedEntity) := by
            simp only [List.filterMap_cons, List.filterMap_nil, hcm]
          rw [h2]
          rfl
        | some b =>
          have h2 : List.filterMap (fun (xx : Nat) =>
              cellBlob w (xx : Int) (yy : Int)) [m] = [b] := by
            simp only [List.filterMap_cons, List.filterMap_nil, hcm]
          obtain ⟨hbx, hby⟩ := cellBlob_coords w hw _ _ _ hcm
          rw [h2]
          show altStep x y none b = none
          unfold altStep
          rw [if_neg (fun hh => hc1 ⟨by rw [← hh.1, hbx],
            by rw [← hh.2, hby]⟩)]
      rw [hsing, Option.none_or]
      by_cases hc : 0 ≤ x ∧ x < (m : Int) ∧ y = (yy : Int)
      · rw [if_pos hc,
            if_pos ⟨hc.1, by have h2 := hc.2.1; omega, hc.2.2⟩]
      · rw [if_neg hc, if_neg (fun hh => by
          by_cases hx : x = (m : Int)
          · exact hc1 ⟨hx, hh.2.2⟩
          · exact hc ⟨hh.1, by have h2 := hh.2.1; omega, hh.2.2⟩)]

/-- `altB` over the saved rows up to `m`. -/
theorem altB_flat (w : World) (hw : WF w) (x y : Int) (hx0 : 0 ≤ x)
    (hxn : x < (w.gridSize : Int)) :
    ∀ m : Nat,
      altB ((List.range m).flatMap (fun (yy : Nat) =>
          (List.range w.gridSize).filterMap (fun (xx : Nat) =>
            cellBlob w (xx : Int) (yy : Int)))) x y =
        if 0 ≤ y ∧ y < (m : Int) then cellBlob w x y else none := by
  intro m
  induction m with
  | zero =>
    rw [if_neg (by rintro ⟨h1, h2⟩; omega)]
    rfl
  | succ m ih =>
    rw [List.range_succ, List.flatMap_append, altB_append, ih]
    have hsing : ([m] : List Nat).flatMap (fun (yy : Nat) =>
        (List.range w.gridSize).filterMap (fun (xx : Nat) =>
          cellBlob w (xx : Int) (yy : Int))) =
        (List.range w.gridSize).filterMap (fun (xx : Nat) =>
          cellBlob w (xx : Int) (m : Int)) := by
      rw [List.flatMap_cons, List.flatMap_nil, List.append_nil]
    rw [hsing, altB_row w hw m x y w.gridSize]
    by_cases hy : y = (m : Int)
    · rw [if_pos ⟨hx0, hxn, hy⟩,
          if_neg (by rintro ⟨-, h2⟩; rw [hy] at h2; omega),
          Option.or_none,
          if_pos ⟨by rw [hy]; exact Int.natCast_nonneg m,
                  by rw [hy]; exact_mod_cast Nat.lt_succ_self m⟩]
    · rw [if_neg (fun hh => hy hh.2.2), Option.none_or]
      by_cases hc : 0 ≤ y ∧ y < (m : Int)
      · rw [if_pos hc, if_pos ⟨hc.1, by have h2 := hc.2; omega⟩]
      · rw [if_neg hc, if_neg (fun hh => hc ⟨hh.1, by
          have h2 := hh.2
          omega⟩)]

/-- The last writer of an in-range cell among the saved entities is the
cell's own saved record. -/
theorem altB_save (w : World) (hw : WF w) (x y : Int) (hx0 : 0 ≤ x)
    (hxn : x < (w.gridSize : Int)) (hy0 : 0 ≤ y)
    (hyn : y < (w.gridSize : Int)) :
    altB (saveEntities w) x y = cellBlob w x y := by
  rw [saveEntities_eq, altB_flat w hw x y hx0 hxn w.gridSize,
      if_pos ⟨hy0, hyn⟩]

/-! #### Grid dimensions -/

/-- The grid really is `gridSize × gridSize`. -/
def dims (w : World) : Prop :=
  w.grid.length = w.gridSize ∧ ∀ row ∈ w.grid, row.length = w.gridSize

theorem gget_gset_self_dims (g : List (List (Option Nat))) (n : Nat)
    (x y : Int) (v : Option Nat) (hgl : g.length = n)
    (hrow : ∀ row ∈ g, row.length = n) (hx0 : 0 ≤ x) (hxn : x < (n : Int))
    (hy0 : 0 ≤ y) (hyn : y < (n : Int)) : gget (gset g x y v) x y = v := by
  unfold gget gset
  rw [if_pos ⟨hx0, hy0⟩, if_pos ⟨hx0, hy0⟩]
  have hyl : y.toNat < g.length := by omega
  have hrl : (g.getD y.toNat []).length = n := by
    rw [List.getD_eq_getElem g [] hyl]
    exact hrow _ (List.getElem_mem hyl)
  have hxl : x.toNat < (g.getD y.toNat []).length := by omega
  have h1 : y.toNat <
      (g.set y.toNat ((g.getD y.toNat []).set x.toNat v)).length := by
    rw [List.length_set]
    exact hyl
  rw [List.getD_eq_getElem _ [] h1, List.getElem_set_self h1]
  have h2 : x.toNat < ((g.getD y.toNat []).set x.toNat v).length := by
    rw [List.length_set]
    exact hxl
  rw [List.getD_eq_getElem _ none h2, List.getElem_set_self h2]

theorem dims_gset (g : List (List (Option Nat))) (n : Nat) (x y : Int)
    (v : Option Nat) (hgl : g.length = n)
    (hrow : ∀ row ∈ g, row.length = n) (hx0 : 0 ≤ x) (hy0 : 0 ≤ y)
    (hyn : y < (n : Int)) :
    (gset g x y v).length = n ∧ ∀ row ∈ gset g x y v, row.length = n := by
  unfold gset
  rw [if_pos ⟨hx0, hy0⟩]
  have hyl : y.toNat < g.length := by omega
  refine ⟨by rw [List.length_set]; exact hgl, ?_⟩
  intro row hr
  rcases List.mem_or_eq_of_mem_set hr with h | h
  · exact hrow row h
  · rw [h, List.length_set, List.getD_eq_getElem g [] hyl]
    exact hrow _ (List.getElem_mem hyl)

/-! #### One step of the loading loop -/

/-- After loading one saved entity, its cell carries exactly its saved
record, and every other cell is untouched. -/
theorem loadGo_step (W : World) (e : SavedEntity) (rng : Rng)
    (hw : WF W) (hd : dims W) (hex0 : 0 ≤ e.x)
    (hexn : e.x < (W.gridSize : Int)) (hey0 : 0 ≤ e.y)
    (heyn : e.y < (W.gridSize : Int)) :
    WF (placeAt (heapMod (mkEntity W e.type e.x e.y none rng).2.1
        (mkEntity W e.type e.x e.y none rng).1 (loadPatch e))
        e.x e.y (some (mkEntity W e.type e.x e.y none rng).1)) ∧
    dims (placeAt (heapMod (mkEntity W e.type e.x e.y none rng).2.1
        (mkEntity W e.type e.x e.y none rng).1 (loadPatch e))
        e.x e.y (some (mkEntity W e.type e.x e.y none rng).1)) ∧
    cellBlob (placeAt (heapMod (mkEntity W e.type e.x e.y none rng).2.1
        (mkEntity W e.type e.x e.y none rng).1 (loadPatch e))
        e.x e.y (some (mkEntity W e.type e.x e.y none rng).1)) e.x e.y
      = some e ∧
    ∀ x y : Int, ¬(x = e.x ∧ y = e.y) →
      cellBlob (placeAt (heapMod (mkEntity W e.type e.x e.y none rng).2.1
          (mkEntity W e.type e.x e.y none rng).1 (loadPatch e))
          e.x e.y (some (mkEntity W e.type e.x e.y none rng).1)) x y
        = cellBlob W x y := by
  obtain ⟨ent, hh, hentx, henty, hentt⟩ :=
    mkEntity_heap_shape W e.type e.x e.y none rng
  have hid := mkEntity_id W e.type e.x e.y none rng
  have hw1 : WF (mkEntity W e.type e.x e.y none rng).2.1 :=
    WF_mkEntity e.type e.x e.y none rng hw
  have hw2 : WF (heapMod (mkEntity W e.type e.x e.y none rng).2.1
      (mkEntity W e.type e.x e.y none rng).1 (loadPatch e)) :=
    WF_heapMod (fun en => ⟨rfl, rfl⟩) hw1
  have hs2 : selfAt (heapMod (mkEntity W e.type e.x e.y none rng).2.1
      (mkEntity W e.type e.x e.y none rng).1 (loadPatch e))
      (mkEntity W e.type e.x e.y none rng).1 e.x e.y :=
    selfAt_heapMod (fun en => ⟨rfl, rfl⟩)
      (mkEntity_selfAt W e.type e.x e.y none rng)
  refine ⟨WF_placeAt_some hs2 hw2, ?_, ?_, ?_⟩
  · exact dims_gset W.grid W.gridSize e.x e.y
      (some (mkEntity W e.type e.x e.y none rng).1) hd.1 hd.2 hex0 hey0 heyn
  · unfold cellBlob
    have hgg : gget (placeAt (heapMod (mkEntity W e.type e.x e.y none rng).2.1
        (mkEntity W e.type e.x e.y none rng).1 (loadPatch e))
        e.x e.y (some (mkEntity W e.type e.x e.y none rng).1)).grid e.x e.y
        = some (mkEntity W e.type e.x e.y none rng).1 :=
      gget_gset_self_dims W.grid W.gridSize e.x e.y
        (some (mkEntity W e.type e.x e.y none rng).1) hd.1 hd.2
        hex0 hexn hey0 heyn
    rw [hgg]
    have hgete : (placeAt (heapMod (mkEntity W e.type e.x e.y none rng).2.1
        (mkEntity W e.type e.x e.y none rng).1 (loadPatch e))
        e.x e.y (some (mkEntity W e.type e.x e.y none rng).1)).getE
        (mkEntity W e.type e.x e.y none rng).1 = loadPatch e ent := by
      show (hget (hmod (mkEntity W e.type e.x e.y none rng).2.1.heap
          (mkEntity W e.type e.x e.y none rng).1 (loadPatch e))
          (mkEntity W e.type e.x e.y none rng).1).getD defEntity
          = loadPatch e ent
      rw [hget_hmod, if_pos rfl, hh, hid, hget_cons_self]
      rfl
    have hblob : entityBlob (loadPatch e ent) = e := by
      show ({ type := ent.type, x := ent.x, y := ent.y, energy := e.energy,
              age := e.age, maxAge := e.maxAge, lifeStage := e.lifeStage,
              genetics := e.genetics, isInfected := e.isInfected,
              diseaseTimer := e.diseaseTimer, isImmune := e.isImmune,
              generation := e.generation, offspring := e.offspring,
              kills := e.kills, foodEaten := e.foodEaten } : SavedEntity) = e
      rw [hentx, henty, hentt]
    show some (entityBlob ((placeAt (heapMod
        (mkEntity W e.type e.x e.y none rng).2.1
        (mkEntity W e.type e.x e.y none rng).1 (loadPatch e))
        e.x e.y (some (mkEntity W e.type e.x e.y none rng).1)).getE
        (mkEntity W e.type e.x e.y none rng).1)) = some e
    rw [hgete, hblob]
  · intro x y hxy
    unfold cellBlob
    have hgg : gget (placeAt (heapMod (mkEntity W e.type e.x e.y none rng).2.1
        (mkEntity W e.type e.x e.y none rng).1 (loadPatch e))
        e.x e.y (some (mkEntity W e.type e.x e.y none rng).1)).grid x y
        = gget W.grid x y :=
      gget_gset_ne W.grid e.x e.y x y
        (some (mkEntity W e.type e.x e.y none rng).1) hxy
    rw [hgg]
    cases hcell : gget W.grid x y with
    | none => rfl
    | some id =>
      obtain ⟨e0, he0, _, _⟩ := hw.2 x y id hcell
      have hne : id ≠ W.nextId := by
        have hb := hw.1 _ (hget_mem _ _ _ he0)
        omega
      have hgete : (placeAt (heapMod (mkEntity W e.type e.x e.y none rng).2.1
          (mkEntity W e.type e.x e.y none rng).1 (loadPatch e))
          e.x e.y (some (mkEntity W e.type e.x e.y none rng).1)).getE id
          = W.getE id := by
        show (hget (hmod (mkEntity W e.type e.x e.y none rng).2.1.heap
            (mkEntity W e.type e.x e.y none rng).1 (loadPatch e)) id).getD
            defEntity = (hget W.heap id).getD defEntity
        rw [hget_hmod, if_neg (by rw [hid]; exact hne), hh,
            hget_cons_ne _ _ _ _ hne]
      show some (entityBlob ((placeAt (heapMod
          (mkEntity W e.type e.x e.y none rng).2.1
          (mkEntity W e.type e.x e.y none rng).1 (loadPatch e))
          e.x e.y (some (mkEntity W e.type e.x e.y none rng).1)).getE id))
          = some (entityBlob (W.getE id))
      rw [hgete]

/-! #### The loading loop -/

theorem loadGo_cells :
    ∀ (es : List SavedEntity) (W : World) (rng : Rng), WF W → dims W →
      (∀ b ∈ es, 0 ≤ b.x ∧ b.x < (W.gridSize : Int) ∧ 0 ≤ b.y ∧
        b.y < (W.gridSize : Int)) →
      (loadEntitiesGo W rng es).2.1 = true ∧
      (loadEntitiesGo W rng es).1.gridSize = W.gridSize ∧
      ∀ x y : Int, cellBlob (loadEntitiesGo W rng es).1 x y =
        Option.or (altB es x y) (cellBlob W x y) := by
  intro es
  induction es with
  | nil =>
    intro W rng hw hd hin
    refine ⟨rfl, rfl, fun x y => ?_⟩
    show cellBlob W x y = Option.or none (cellBlob W x y)
    rw [Option.none_or]
  | cons e rest ih =>
    intro W rng hw hd hin
    obtain ⟨hex0, hexn, hey0, heyn⟩ := hin e (List.mem_cons_self e rest)
    obtain ⟨hw3, hd3, hself, hother⟩ :=
      loadGo_step W e rng hw hd hex0 hexn hey0 heyn
    unfold loadEntitiesGo
    dsimp only
    split
    · next hok =>
      obtain ⟨hok2, hgs2, hcells⟩ :=
        ih (placeAt (heapMod (mkEntity W e.type e.x e.y none rng).2.1
            (mkEntity W e.type e.x e.y none rng).1 (loadPatch e))
            e.x e.y (some (mkEntity W e.type e.x e.y none rng).1))
          (Genetics.fresh (mkEntity W e.type e.x e.y none rng).2.2).2
          hw3 hd3 (fun b hb => hin b (List.mem_cons_of_mem e hb))
      refine ⟨hok2, hgs2, ?_⟩
      intro x y
      rw [hcells x y, altB_cons, Option.or_assoc]
      congr 1
      by_cases hxy : x = e.x ∧ y = e.y
      · obtain ⟨hx, hy⟩ := hxy
        subst hx
        subst hy
        rw [hself]
        show some e = Option.or (altStep e.x e.y none e) (cellBlob W e.x e.y)
        unfold altStep
        rw [if_pos ⟨rfl, rfl⟩]
        rfl
      · rw [hother x y hxy]
        show cellBlob W x y
          = Option.or (altStep x y none e) (cellBlob W x y)
        unfold altStep
        rw [if_neg (fun hc => hxy ⟨hc.1.symm, hc.2.symm⟩), Option.none_or]
    · next hko => exact absurd ⟨hey0, heyn⟩ hko

theorem loadGo_frames :
    ∀ (es : List SavedEntity) (W : World) (rng : Rng),
      (loadEntitiesGo W rng es).1.atmosphere = W.atmosphere ∧
      (loadEntitiesGo W rng es).1.generation = W.generation := by
  intro es
  induction es with
  | nil =>
    intro W rng
    exact ⟨rfl, rfl⟩
  | cons e rest ih =>
    intro W rng
    unfold loadEntitiesGo
    dsimp only
    split
    · exact ⟨(ih _ _).1, (ih _ _).2⟩
    · exact ⟨rfl, rfl⟩

/-! #### Frames of the grid-clearing and terrain phases -/

theorem tmod_frames2 (w : World) (x y : Int) (f : TerrainCell → TerrainCell) :
    (tmod w x y f).grid = w.grid ∧ (tmod w x y f).heap = w.heap ∧
    (tmod w x y f).gridSize = w.gridSize ∧
    (tmod w x y f).atmosphere = w.atmosphere ∧
    (tmod w x y f).generation = w.generation := by
  unfold tmod
  split <;> exact ⟨rfl, rfl, rfl, rfl, rfl⟩

theorem loadTerrain_frames (terr : List (List SavedTerrain)) (w : World) :
    (loadTerrain terr w).grid = w.grid ∧ (loadTerrain terr w).heap = w.heap ∧
    (loadTerrain terr w).gridSize = w.gridSize ∧
    (loadTerrain terr w).atmosphere = w.atmosphere ∧
    (loadTerrain terr w).generation = w.generation := by
  unfold loadTerrain
  refine foldl_pres (fun (w2 : World) => w2.grid = w.grid ∧ w2.heap = w.heap ∧
    w2.gridSize = w.gridSize ∧ w2.atmosphere = w.atmosphere ∧
    w2.generation = w.generation) _ ?_ _ _ ⟨rfl, rfl, rfl, rfl, rfl⟩
  intro b a hb
  unfold terrRow
  refine foldl_pres (fun (w2 : World) => w2.grid = w.grid ∧ w2.heap = w.heap ∧
    w2.gridSize = w.gridSize ∧ w2.atmosphere = w.atmosphere ∧
    w2.generation = w.generation) _ ?_ _ _ hb
  intro b2 a2 hb2
  unfold terrCell
  split
  · refine ⟨?_, ?_, ?_, ?_, ?_⟩
    · exact ((tmod_frames2 _ _ _ _).1).trans hb2.1
    · exact ((tmod_frames2 _ _ _ _).2.1).trans hb2.2.1
    · exact ((tmod_frames2 _ _ _ _).2.2.1).trans hb2.2.2.1
    · exact ((tmod_frames2 _ _ _ _).2.2.2.1).trans hb2.2.2.2.1
    · exact ((tmod_frames2 _ _ _ _).2.2.2.2).trans hb2.2.2.2.2
  · exact hb2

theorem initGrid_facts (w : World) :
    (initGrid w).grid
      = List.replicate w.gridSize (List.replicate w.gridSize none) ∧
    (initGrid w).heap = [] ∧ (initGrid w).gridSize = w.gridSize ∧
    (initGrid w).atmosphere = w.atmosphere ∧ (initGrid w).generation = 0 :=
  ⟨rfl, rfl, rfl, rfl, rfl⟩

/-! #### The whole load tail -/

theorem loadFinish_facts (w0 : World) (terr : List (List SavedTerrain))
    (es : List SavedEntity) (rng : Rng)
    (hes : ∀ b ∈ es, 0 ≤ b.x ∧ b.x < (w0.gridSize : Int) ∧ 0 ≤ b.y ∧
      b.y < (w0.gridSize : Int)) :
    (loadFinish w0 terr es rng).2.1 = true ∧
    (loadFinish w0 terr es rng).1.generation = 0 ∧
    (loadFinish w0 terr es rng).1.atmosphere = w0.atmosphere ∧
    (loadFinish w0 terr es rng).1.gridSize = w0.gridSize ∧
    (loadFinish w0 terr es rng).1.populations
      = computePops (loadFinish w0 terr es rng).1 ∧
    ∀ x y : Int,
      cellBlob (loadFinish w0 terr es rng).1 x y = altB es x y := by
  have hlt := loadTerrain_frames terr (initGrid w0)
  have hig := initGrid_facts w0
  have hW0grid : (loadTerrain terr (initGrid w0)).grid
      = List.replicate w0.gridSize (List.replicate w0.gridSize none) :=
    hlt.1.trans hig.1
  have hW0heap : (loadTerrain terr (initGrid w0)).heap = [] :=
    hlt.2.1.trans hig.2.1
  have hW0gs : (loadTerrain terr (initGrid w0)).gridSize = w0.gridSize :=
    hlt.2.2.1.trans hig.2.2.1
  have hW0atm : (loadTerrain terr (initGrid w0)).atmosphere = w0.atmosphere :=
    hlt.2.2.2.1.trans hig.2.2.2.1
  have hW0gen : (loadTerrain terr (initGrid w0)).generation = 0 :=
    hlt.2.2.2.2.trans hig.2.2.2.2
  have hw0 : WF (loadTerrain terr (initGrid w0)) := by
    constructor
    · intro p hp
      rw [hW0heap] at hp
      exact absurd hp (List.not_mem_nil p)
    · intro x y id hcell
      rw [hW0grid, gget_replicate_none] at hcell
      exact absurd hcell (by simp)
  have hd0 : dims (loadTerrain terr (initGrid w0)) := by
    constructor
    · rw [hW0grid, List.length_replicate, hW0gs]
    · intro row hr
      rw [hW0grid] at hr
      rw [List.eq_of_mem_replicate hr, List.length_replicate, hW0gs]
  have hes0 : ∀ b ∈ es, 0 ≤ b.x ∧
      b.x < ((loadTerrain terr (initGrid w0)).gridSize : Int) ∧ 0 ≤ b.y ∧
      b.y < ((loadTerrain terr (initGrid w0)).gridSize : Int) := by
    intro b hb
    rw [hW0gs]
    exact hes b hb
  obtain ⟨hok, hgs, hcells⟩ :=
    loadGo_cells es (loadTerrain terr (initGrid w0)) rng hw0 hd0 hes0
  have hcb0 : ∀ x y : Int,
      cellBlob (loadTerrain terr (initGrid w0)) x y = none := by
    intro x y
    unfold cellBlob
    rw [hW0grid, gget_replicate_none]
    rfl
  have hfr := loadGo_frames es (loadTerrain terr (initGrid w0)) rng
  unfold loadFinish
  dsimp only
  rw [if_pos hok]
  refine ⟨rfl, ?_, ?_, ?_, rfl, ?_⟩
  · show (loadEntitiesGo (loadTerrain terr (initGrid w0)) rng es).1.generation
      = 0
    rw [hfr.2, hW0gen]
  · show (loadEntitiesGo (loadTerrain terr (initGrid w0)) rng es).1.atmosphere
      = w0.atmosphere
    rw [hfr.1, hW0atm]
  · show (loadEntitiesGo (loadTerrain terr (initGrid w0)) rng es).1.gridSize
      = w0.gridSize
    rw [hgs, hW0gs]
  · intro x y
    show cellBlob (loadEntitiesGo (loadTerrain terr (initGrid w0)) rng es).1
        x y = altB es x y
    rw [hcells x y, hcb0 x y, Option.or_none]

/-! #### Population recount congruence -/

theorem foldl_congr_mem {α β : Type _} (l : List α) (f g : β → α → β)
    (h : ∀ a ∈ l, ∀ b, f b a = g b a) :
    ∀ b, l.foldl f b = l.foldl g b := by
  induction l with
  | nil =>
    intro b
    rfl
  | cons a t ih =>
    intro b
    rw [List.foldl_cons, List.foldl_cons, h a (List.mem_cons_self a t) b]
    exact ih (fun a2 ha2 b2 => h a2 (List.mem_cons_of_mem a ha2) b2) _

theorem computePops_congr (w1 w2 : World) (hn : w1.gridSize = w2.gridSize)
    (hc : ∀ xx yy : Nat, xx < w2.gridSize → yy < w2.gridSize →
      cellBlob w1 (xx : Int) (yy : Int) = cellBlob w2 (xx : Int) (yy : Int)) :
    computePops w1 = computePops w2 := by
  unfold computePops
  rw [hn]
  refine foldl_congr_mem _ _ _ ?_ _
  intro yy hyy p
  refine foldl_congr_mem _ _ _ ?_ _
  intro xx hxx p2
  rw [List.mem_range] at hyy
  rw [List.mem_range] at hxx
  have hcc := hc xx yy hxx hyy
  unfold cellBlob at hcc
  cases h1 : gget w1.grid (xx : Int) (yy : Int) with
  | none =>
    cases h2 : gget w2.grid (xx : Int) (yy : Int) with
    | none => rfl
    | some id2 =>
      rw [h1, h2] at hcc
      exact absurd hcc (by simp)
  | some id1 =>
    cases h2 : gget w2.grid (xx : Int) (yy : Int) with
    | none =>
      rw [h1, h2] at hcc
      exact absurd hcc (by simp)
    | some id2 =>
      rw [h1, h2] at hcc
      have hcc2 : some (entityBlob (w1.getE id1))
          = some (entityBlob (w2.getE id2)) := hcc
      have hbb : entityBlob (w1.getE id1) = entityBlob (w2.getE id2) := by
        injection hcc2
      have htype : (w1.getE id1).type = (w2.getE id2).type :=
        congrArg SavedEntity.type hbb
      show bumpPop p2 (w1.getE id1).type = bumpPop p2 (w2.getE id2).type
      rw [htype]

/-! #### `loadState` on its own save -/

theorem loadState_some_facts (w : World) (s : SaveBlob) (rng : Rng)
    (st : Settings) (hset : s.settings = some st)
    (hes : ∀ b ∈ s.entities, 0 ≤ b.x ∧ b.x < (s.gridSize : Int) ∧ 0 ≤ b.y ∧
      b.y < (s.gridSize : Int)) :
    (loadState w (some s) rng).2.1 = true ∧
    (loadState w (some s) rng).1.generation = 0 ∧
    (loadState w (some s) rng).1.atmosphere = s.atmosphere ∧
    (loadState w (some s) rng).1.gridSize = s.gridSize ∧
    (loadState w (some s) rng).1.populations
      = computePops (loadState w (some s) rng).1 ∧
    ∀ x y : Int,
      cellBlob (loadState w (some s) rng).1 x y = altB s.entities x y := by
  unfold loadState
  dsimp only
  split
  · next hnone =>
    rw [hset] at hnone
    exact absurd hnone (by simp)
  · next st2 hsome =>
    have key := loadFinish_facts
      { { w with generation := s.generation, gridSize := s.gridSize,
                 atmosphere := s.atmosphere,
                 timeOfDay := jsOrQ s.timeOfDay 0,
                 currentSeason := s.currentSeason.getD .spring,
                 seasonTimer := s.seasonTimer.getD 0,
                 weather := s.weather.getD .clear,
                 weatherTimer := jsOrQ s.weatherTimer 50,
                 densities := s.densities } with settings := st2 }
      s.terrain s.entities rng (fun b hb => hes b hb)
    exact ⟨key.1, key.2.1, key.2.2.1, key.2.2.2.1, key.2.2.2.2.1,
           key.2.2.2.2.2⟩

/-- Saving and reloading: the load succeeds, the generation is reset by
`initGrid`, the atmosphere survives, and every in-range cell's saved
projection round-trips, so the recounted populations match a recount of
the original. -/
theorem loadState_roundtrip (w : World) (rng : Rng) (hw : WF w) :
    (loadState w (some (saveStateBlob w)) rng).2.1 = true ∧
    (loadState w (some (saveStateBlob w)) rng).1.generation = 0 ∧
    (loadState w (some (saveStateBlob w)) rng).1.atmosphere = w.atmosphere ∧
    (loadState w (some (saveStateBlob w)) rng).1.populations
      = computePops w ∧
    ∀ x y : Int, 0 ≤ x → x < (w.gridSize : Int) → 0 ≤ y →
      y < (w.gridSize : Int) →
      cellBlob (loadState w (some (saveStateBlob w)) rng).1 x y
        = cellBlob w x y := by
  obtain ⟨hok, hgen, hatm, hgs, hpop, hcells⟩ :=
    loadState_some_facts w (saveStateBlob w) rng w.settings rfl
      (fun b hb => saveEntities_bounds w hw b hb)
  have hcell2 : ∀ x y : Int, 0 ≤ x → x < (w.gridSize : Int) → 0 ≤ y →
      y < (w.gridSize : Int) →
      cellBlob (loadState w (some (saveStateBlob w)) rng).1 x y
        = cellBlob w x y := by
    intro x y hx0 hxn hy0 hyn
    rw [hcells x y]
    exact altB_save w hw x y hx0 hxn hy0 hyn
  refine ⟨hok, hgen, hatm, ?_, hcell2⟩
  rw [hpop]
  refine computePops_congr _ w hgs ?_
  intro xx yy hxx hyy
  exact hcell2 (xx : Int) (yy : Int) (Int.natCast_nonneg xx)
    (by exact_mod_cast hxx) (Int.natCast_nonneg yy) (by exact_mod_cast hyy)

/-- A world whose entity 1 carries live timer state that `saveState`
does not serialize. -/
def W6 : World :=
  heapMod WC3 1 (fun e =>
    { e with immuneTimer := 5, cyclesSinceReproduction := 7 })

/-- **C5.**  `loadState(saveState())` succeeds and reproduces the
per-species population counts and the atmosphere exactly; but the
generation counter does NOT survive: `initGrid()` resets it to 0 after
`loadState` has copied it from the save. -/
theorem claim_C5 (w : World) (rng : Rng) (hw : WF w)
    (hp : w.populations = computePops w) :
    (loadState w (some (saveStateBlob w)) rng).2.1 = true ∧
    (loadState w (some (saveStateBlob w)) rng).1.populations
      = w.populations ∧
    (loadState w (some (saveStateBlob w)) rng).1.atmosphere
      = w.atmosphere ∧
    (loadState w (some (saveStateBlob w)) rng).1.generation = 0 := by
  obtain ⟨hok, hgen, hatm, hpop, -⟩ := loadState_roundtrip w rng hw
  exact ⟨hok, by rw [hpop, hp], hatm, hgen⟩

/-- C5 at the concrete world `Wbase`. -/
theorem claim_C5_witness :
    Wbase.populations = computePops Wbase ∧
    ((loadState Wbase (some (saveStateBlob Wbase)) []).2.1 = true ∧
     (loadState Wbase (some (saveStateBlob Wbase)) []).1.populations
       = Wbase.populations ∧
     (loadState Wbase (some (saveStateBlob Wbase)) []).1.atmosphere
       = Wbase.atmosphere ∧
     (loadState Wbase (some (saveStateBlob Wbase)) []).1.generation = 0) :=
  ⟨by decide, claim_C5 Wbase [] WF_Wbase (by decide)⟩

/-- The generation counter does not round-trip: a save taken at
generation 42 reloads at generation 0. -/
theorem claim_C5_counterexample :
    Wh.generation = 42 ∧
    (loadState Wh (some (saveStateBlob Wh)) []).2.1 = true ∧
    (loadState Wh (some (saveStateBlob Wh)) []).1.generation = 0 := by decide

/-- **C6.**  The save/load round trip restores, for every in-range cell,
exactly the serialized projection of its entity (the 15 saved fields,
genetics included); unsaved fields such as `immuneTimer` and
`cyclesSinceReproduction` are re-initialized, not restored. -/
theorem claim_C6 (w : World) (rng : Rng) (hw : WF w) :
    ∀ x y : Int, 0 ≤ x → x < (w.gridSize : Int) → 0 ≤ y →
      y < (w.gridSize : Int) →
      cellBlob (loadState w (some (saveStateBlob w)) rng).1 x y
        = cellBlob w x y :=
  fun x y hx0 hxn hy0 hyn =>
    (loadState_roundtrip w rng hw).2.2.2.2 x y hx0 hxn hy0 hyn

/-- C6 at the concrete world `W6`: the occupied cell (0,0) round-trips
its saved projection. -/
theorem claim_C6_witness :
    cellBlob W6 0 0 = some (entityBlob (W6.getE 1)) ∧
    cellBlob (loadState W6 (some (saveStateBlob W6))
        (List.replicate 40 0)).1 0 0 = cellBlob W6 0 0 :=
  ⟨by decide,
   claim_C6 W6 (List.replicate 40 0)
     (WF_heapMod (fun e => ⟨rfl, rfl⟩)
       (WF_loadState Wbase (some blobC3) (List.replicate 40 0) WF_Wbase))
     0 0 (by decide) (by decide) (by decide) (by decide)⟩

/-- Not every entity field round-trips: the entity at (0,0) has
`immuneTimer = 5` and `cyclesSinceReproduction = 7` before the save, but
the reloaded entity (fresh id 3) has both reset to 0, even though its
saved projection is identical. -/
theorem claim_C6_counterexample :
    (W6.getE 1).immuneTimer = 5 ∧
    (W6.getE 1).cyclesSinceReproduction = 7 ∧
    gget W6.grid 0 0 = some 1 ∧
    gget (loadState W6 (some (saveStateBlob W6))
        (List.replicate 40 0)).1.grid 0 0 = some 3 ∧
    ((loadState W6 (some (saveStateBlob W6))
        (List.replicate 40 0)).1.getE 3).immuneTimer = 0 ∧
    ((loadState W6 (some (saveStateBlob W6))
        (List.replicate 40 0)).1.getE 3).cyclesSinceReproduction = 0 ∧
    entityBlob ((loadState W6 (some (saveStateBlob W6))
        (List.replicate 40 0)).1.getE 3) = entityBlob (W6.getE 1) := by decide

end VWS
